import Mathlib

/-!
# Bullseye aim trainer: target lifecycle and scoring engine

A shallow embedding of `src/app.js`.  The module-level variables of the script
(`running`, `currentMode`, the six counters, `targets`, the two curves, the timer
handles) are the fields of `State`; every function of the script that touches them
is a function `State → State` taking the values it reads from the browser
(`performance.now()`, `Math.random()`, bounding rectangles, widget values) as
arguments.

Numbers.  JavaScript numbers are modelled exactly: counters are `Nat`, hit points
are `Int`, times, sizes and coordinates are `ℚ` (every finite double is a rational;
rounding error of the double operations is not modelled).  `0.4` is the rational
`2/5`.

Browser.  `localStorage` is a map from keys to cells; `requestAnimationFrame` and
`setTimeout` hand out fresh positive handles and keep a list of pending callbacks;
DOM nodes of targets are not modelled (a target's node lives exactly as long as
its entry in `targets`), nor are the CSS classes put on them.
-/

namespace Bullseye

/-! ## Constants -/

def GAME_MS : ℚ := 60000
def TARGET_LIFETIME_MS : ℚ := 3000
def EXPIRED_LIMIT : Nat := 5
def CENTER_RADIUS_RATIO : ℚ := 2 / 5
def TARGET_START_SIZE_MIN : Int := 58
def TARGET_START_SIZE_MAX : Int := 84
def TARGET_MIN_SIZE : ℚ := 20
def TRACKING_SIZE_MIN : Int := 58
def TRACKING_SIZE_MAX : Int := 84
def TRACKING_TARGET_HP : Int := 4
def TRACKING_SHIELD_HP : Int := 2
def TRACKING_OVERWHELM_LIMIT : Nat := 5
def LS_KEY_TIMED : String := "bullseye_high_timed_v3"
def LS_KEY_TRACKING : String := "bullseye_high_tracking_v3"

/-- Spawn curve: `{ maxMs, minMs, rampPerSec }`. -/
structure Curve where
  maxMs : ℚ
  minMs : ℚ
  rampPerSec : ℚ
  deriving DecidableEq

def CURVE_EASY : Curve := ⟨2000, 550, 3⟩
def CURVE_HARD : Curve := ⟨1200, 350, 15 / 2⟩
def TRACK_CURVE_EASY : Curve := ⟨2600, 900, 2⟩
def TRACK_CURVE_HARD : Curve := ⟨2000, 650, 18 / 5⟩

/-! ## Data model -/

/-- Value of `currentMode`: `"timed" | "tracking"`. -/
inductive Mode where
  | timed
  | tracking
  deriving DecidableEq, Repr

/-- Timed target fields `{ id, el, bornAtMs, expiresAtMs, startSize }` (without `el`). -/
structure TimedTarget where
  id : Nat
  bornAtMs : ℚ
  expiresAtMs : ℚ
  startSize : ℚ
  deriving DecidableEq

/-- Tracking target fields `{ id, el, x, y, vx, vy, size, hp, shieldHp }` (without `el`). -/
structure TrackingTarget where
  id : Nat
  x : ℚ
  y : ℚ
  vx : ℚ
  vy : ℚ
  size : ℚ
  hp : Int
  shieldHp : Int
  deriving DecidableEq

/-- An entry of the one `targets` array used for both modes. -/
inductive Target where
  | timed (t : TimedTarget)
  | tracking (t : TrackingTarget)
  deriving DecidableEq

/-- The `id` property, present on both kinds of entry. -/
def Target.id : Target → Nat
  | .timed t => t.id
  | .tracking t => t.id

/-- The object written to `localStorage`: `{ points, accuracy, hitsCenter, date }`.
The `date` string is only formatted for display and is left out. -/
structure ScoreRecord where
  points : Nat
  accuracy : ℚ
  hitsCenter : Nat
  deriving DecidableEq

/-- What `localStorage` holds under one key: nothing, text for which `getItem` or
`JSON.parse` throws, or the JSON of a record. -/
inductive Stored where
  | missing
  | unreadable
  | record (r : ScoreRecord)
  deriving DecidableEq

/-- The card shown by `showOverlay`, by its title: hidden, the mode card of
`syncControls`, "Time!", "GAME OVER", "Run Ended". -/
inductive Overlay where
  | hidden
  | intro
  | timeUp
  | gameOver
  | runEnded
  deriving DecidableEq, Repr

/-- The numbers last written to the readout by `updateHUD`. -/
structure Hud where
  points : Nat
  accuracy : ℚ
  expiredMisses : Nat
  hitsOuter : Nat
  hitsCenter : Nat
  clickMisses : Nat
  hitsShield : Nat
  secs : ℚ
  deriving DecidableEq

/-- A pending `setTimeout`: its handle, which spawn closure it runs and its delay. -/
structure Timer where
  id : Nat
  kind : Mode
  delayMs : ℚ
  deriving DecidableEq

/-- The script's variables together with the browser state they act on. -/
structure State where
  running : Bool
  currentMode : Mode
  startTimeMs : ℚ
  lastTickMs : ℚ
  rafId : Option Nat
  spawnTimeoutId : Option Nat
  points : Nat
  hitsOuter : Nat
  hitsCenter : Nat
  hitsShield : Nat
  clickMisses : Nat
  expiredMisses : Nat
  targets : List Target
  timedCurve : Curve
  trackingCurve : Curve
  /-- Contents of `localStorage`. -/
  store : String → Stored
  /-- Value of `startBtn.disabled`. -/
  startBtnDisabled : Bool
  /-- Value of `restartBtn.disabled`. -/
  restartBtnDisabled : Bool
  overlay : Overlay
  hud : Hud
  /-- Handles of the animation-frame requests not yet run or cancelled. -/
  pendingFrames : List Nat
  /-- The timeouts not yet run or cleared. -/
  pendingTimers : List Timer
  /-- The next handle the browser hands out (handles are positive). -/
  nextHandle : Nat

/-! ## Helpers -/

/-- The function `clamp`: `Math.max(min, Math.min(max, n))`. -/
def clamp (n lo hi : ℚ) : ℚ := max lo (min hi n)

/-- The function `Math.round`: the nearest integer, halves towards `+∞`. -/
def mathRound (x : ℚ) : Int := ⌊x + 1 / 2⌋

/-- The function `randInt`, on the draw `u` of `Math.random()`. -/
def randInt (u : ℚ) (lo hi : Int) : Int := ⌊u * ((hi - lo + 1 : Int) : ℚ)⌋ + lo

/-- The function `lerp`. -/
def lerp (a b t : ℚ) : ℚ := a + (b - a) * t

/-- The function `elapsedSeconds`. -/
def elapsedSeconds (nowMs : ℚ) (s : State) : ℚ := (nowMs - s.startTimeMs) / 1000

/-- The function `computeAccuracy`. -/
def computeAccuracy (s : State) : ℚ :=
  let hitsTotal := s.hitsOuter + s.hitsCenter + s.hitsShield
  let attempts := hitsTotal + s.clickMisses
  if attempts = 0 then 0 else (hitsTotal : ℚ) / (attempts : ℚ)

/-- The function `currentTimeLeftMs`, on the value `now` of `performance.now()`. -/
def currentTimeLeftMs (now : ℚ) (s : State) : ℚ :=
  if !s.running then GAME_MS else GAME_MS - (now - s.startTimeMs)

/-! ## Difficulty slider to curves -/

/-- The function `difficulty01`, on the slider value. -/
def difficulty01 (diff : ℚ) : ℚ := (diff - 1) / 9

/-- The two curves computed by `applyDifficultyFromUI` from the slider value. -/
def resolveTimedCurve (diff : ℚ) : Curve :=
  let t := difficulty01 diff
  { maxMs := mathRound (lerp CURVE_EASY.maxMs CURVE_HARD.maxMs t)
    minMs := mathRound (lerp CURVE_EASY.minMs CURVE_HARD.minMs t)
    rampPerSec := lerp CURVE_EASY.rampPerSec CURVE_HARD.rampPerSec t }

def resolveTrackingCurve (diff : ℚ) : Curve :=
  let t := difficulty01 diff
  { maxMs := mathRound (lerp TRACK_CURVE_EASY.maxMs TRACK_CURVE_HARD.maxMs t)
    minMs := mathRound (lerp TRACK_CURVE_EASY.minMs TRACK_CURVE_HARD.minMs t)
    rampPerSec := lerp TRACK_CURVE_EASY.rampPerSec TRACK_CURVE_HARD.rampPerSec t }

/-- The function `applyDifficultyFromUI` (the two text labels are not modelled). -/
def applyDifficultyFromUI (diff : ℚ) (s : State) : State :=
  { s with timedCurve := resolveTimedCurve diff, trackingCurve := resolveTrackingCurve diff }

/-- The function `timedSpawnDelayMs`. -/
def timedSpawnDelayMs (elapsedSec : ℚ) (s : State) : ℚ :=
  let delay := s.timedCurve.maxMs - elapsedSec * s.timedCurve.rampPerSec
  clamp delay s.timedCurve.minMs s.timedCurve.maxMs

/-- The function `trackingSpawnDelayMs`. -/
def trackingSpawnDelayMs (elapsedSec : ℚ) (s : State) : ℚ :=
  let delay := s.trackingCurve.maxMs - elapsedSec * s.trackingCurve.rampPerSec
  clamp delay s.trackingCurve.minMs s.trackingCurve.maxMs

/-! ## High score helpers -/

/-- The function `loadRecord`: `null` when nothing is stored and when reading or
parsing throws. -/
def loadRecord (key : String) (s : State) : Option ScoreRecord :=
  match s.store key with
  | .missing => none
  | .unreadable => none
  | .record r => some r

/-- The function `saveRecord`. -/
def saveRecord (key : String) (record : ScoreRecord) (s : State) : State :=
  { s with store := Function.update s.store key (.record record) }

/-- The function `isBetterScore`; `current` is `null` or a record. -/
def isBetterScore (candidate : ScoreRecord) (current : Option ScoreRecord) : Bool :=
  match current with
  | none => true
  | some current =>
    if candidate.points ≠ current.points then decide (candidate.points > current.points)
    else if candidate.accuracy ≠ current.accuracy then
      decide (candidate.accuracy > current.accuracy)
    else decide (candidate.hitsCenter > current.hitsCenter)

/-! ## Overlay and HUD -/

/-- The function `showOverlay`, by the title shown. -/
def showOverlay (o : Overlay) (s : State) : State := { s with overlay := o }

/-- The function `hideOverlay`. -/
def hideOverlay (s : State) : State := { s with overlay := .hidden }

/-- The function `updateHUD`. -/
def updateHUD (timeLeftMs : ℚ) (s : State) : State :=
  { s with hud :=
      { points := s.points
        accuracy := computeAccuracy s
        expiredMisses := s.expiredMisses
        hitsOuter := s.hitsOuter
        hitsCenter := s.hitsCenter
        clickMisses := s.clickMisses
        hitsShield := s.hitsShield
        secs := max 0 (timeLeftMs / 1000) } }

/-! ## Browser scheduling primitives -/

/-- A handle tested as a condition, `if (id)`: not `null` and not `0`. -/
def truthy : Option Nat → Bool
  | some id => id != 0
  | none => false

/-- The call `setTimeout(callback, delay)`; `kind` says which spawn closure is queued.
Returns the new handle with the new state. -/
def setTimeout (kind : Mode) (delay : ℚ) (s : State) : Nat × State :=
  (s.nextHandle,
    { s with pendingTimers := s.pendingTimers ++ [⟨s.nextHandle, kind, delay⟩]
             nextHandle := s.nextHandle + 1 })

/-- The call `clearTimeout(id)`. -/
def clearTimeout (id : Option Nat) (s : State) : State :=
  { s with pendingTimers := s.pendingTimers.filter fun tm => some tm.id != id }

/-- The call `requestAnimationFrame(tick)`. -/
def requestAnimationFrame (s : State) : Nat × State :=
  (s.nextHandle,
    { s with pendingFrames := s.pendingFrames ++ [s.nextHandle]
             nextHandle := s.nextHandle + 1 })

/-- The call `cancelAnimationFrame(id)`. -/
def cancelAnimationFrame (id : Option Nat) (s : State) : State :=
  { s with pendingFrames := s.pendingFrames.filter fun h => some h != id }

/-! ## Target pool -/

/-- The function `removeTargetById`: drops the first entry with that id, if any. -/
def removeTargetById (id : Nat) (s : State) : State :=
  let idx := s.targets.findIdx fun t => t.id == id
  if idx = s.targets.length then s
  else { s with targets := s.targets.eraseIdx idx }

/-- The function `clearAllTargets`. -/
def clearAllTargets (s : State) : State := { s with targets := [] }

/-- Assignment through the reference returned by `targets.find(x => x.id === id)`:
the first entry with that id is replaced by `f` of it. -/
def modifyFirst (id : Nat) (f : Target → Target) : List Target → List Target
  | [] => []
  | t :: ts => if t.id == id then f t :: ts else t :: modifyFirst id f ts

/-! ## Start / End -/

/-- The function `resetStats`. -/
def resetStats (s : State) : State :=
  { s with points := 0, hitsOuter := 0, hitsCenter := 0, hitsShield := 0,
           clickMisses := 0, expiredMisses := 0 }

/-- The function `endGame`.  `renderHighScores` only rewrites two labels and is not
modelled. -/
def endGame (reason : String) (s : State) : State :=
  if !s.running then s
  else
    let s := { s with running := false }
    let s := if truthy s.spawnTimeoutId then
        { clearTimeout s.spawnTimeoutId s with spawnTimeoutId := none } else s
    let s := if truthy s.rafId then
        { cancelAnimationFrame s.rafId s with rafId := none } else s
    let s := { s with startBtnDisabled := false, restartBtnDisabled := false }
    let s := clearAllTargets s
    let acc := computeAccuracy s
    let record : ScoreRecord := { points := s.points, accuracy := acc, hitsCenter := s.hitsCenter }
    let s :=
      if reason = "finished" then
        let key := if s.currentMode = .timed then LS_KEY_TIMED else LS_KEY_TRACKING
        let currentHigh := loadRecord key s
        let s := if isBetterScore record currentHigh then saveRecord key record s else s
        showOverlay .timeUp s
      else if reason = "overwhelmed" then showOverlay .gameOver s
      else showOverlay .runEnded s
    updateHUD 0 s

/-! ## Pointer presses -/

/-- The test `dist <= centerRadius` of the press handler, where
`dist = Math.sqrt(dx * dx + dy * dy)`, `outerRadius = rect.width / 2` and
`centerRadius = outerRadius * CENTER_RADIUS_RATIO`.  A square root is at most `c`
exactly when `c` is not negative and the radicand is at most `c * c`
(`isCenterHit_iff_sqrt_le`). -/
def isCenterHit (dx dy width : ℚ) : Bool :=
  let outerRadius := width / 2
  let centerRadius := outerRadius * CENTER_RADIUS_RATIO
  decide (0 ≤ centerRadius ∧ dx * dx + dy * dy ≤ centerRadius * centerRadius)

/-- The `pointerdown` listener that `makeTargetElement` puts on the node of the
target `id`.  `dx`, `dy` are the offsets of the press from the centre of the node's
bounding rectangle, `width` is `rect.width`, `now` is `performance.now()`.

In the tracking branch an entry without `hp` and `shieldHp` (a timed entry) makes
`t.shieldHp > 0` and, after `t.hp -= hitPoints`, `t.hp <= 0` both false: the counters
move and the entry stays. -/
def targetPointerDown (id : Nat) (dx dy width now : ℚ) (s : State) : State :=
  if !s.running then s
  else
    let isCenter := isCenterHit dx dy width
    let hitPoints : Nat := if isCenter then 2 else 1
    if s.currentMode = .timed then
      let s := if isCenter then { s with hitsCenter := s.hitsCenter + 1, points := s.points + 2 }
        else { s with hitsOuter := s.hitsOuter + 1, points := s.points + 1 }
      let s := removeTargetById id s
      updateHUD (currentTimeLeftMs now s) s
    else
      match s.targets.find? fun x => x.id == id with
      | none => s
      | some (.tracking t) =>
        if t.shieldHp > 0 then
          let s := { s with hitsShield := s.hitsShield + 1, points := s.points + 1 }
          let t1 : TrackingTarget := { t with shieldHp := t.shieldHp - 1 }
          let s := { s with targets := modifyFirst id (fun _ => .tracking t1) s.targets }
          updateHUD (currentTimeLeftMs now s) s
        else
          let s := if isCenter then { s with hitsCenter := s.hitsCenter + 1 }
            else { s with hitsOuter := s.hitsOuter + 1 }
          let s := { s with points := s.points + hitPoints }
          let t1 : TrackingTarget := { t with hp := t.hp - hitPoints }
          let s := { s with targets := modifyFirst id (fun _ => .tracking t1) s.targets }
          let s := if t1.hp ≤ 0 then removeTargetById id s else s
          updateHUD (currentTimeLeftMs now s) s
      | some (.timed _) =>
        let s := if isCenter then { s with hitsCenter := s.hitsCenter + 1 }
          else { s with hitsOuter := s.hitsOuter + 1 }
        let s := { s with points := s.points + hitPoints }
        updateHUD (currentTimeLeftMs now s) s

/-- The `pointerdown` listener of the stage (a press on a target does not reach it:
the target's listener calls `stopPropagation`). -/
def stagePointerDown (now : ℚ) (s : State) : State :=
  if !s.running then s
  else
    let s := { s with clickMisses := s.clickMisses + 1 }
    updateHUD (currentTimeLeftMs now s) s

/-! ## Timed mode update -/

/-- The test `nowMs >= t.expiresAtMs`; false on an entry without `expiresAtMs`. -/
def Target.expired (nowMs : ℚ) : Target → Bool
  | .timed t => decide (nowMs ≥ t.expiresAtMs)
  | .tracking _ => false

/-- The loop of `updateTargetsTimed`: `updateTargetsTimedLoop nowMs (i + 1)` runs the
body at index `i` and goes on downwards, `updateTargetsTimedLoop nowMs 0` is the end
of the loop.  The size written to the node's style is not modelled.  The loop only
reads indices that exist; on a missing index it stops. -/
def updateTargetsTimedLoop (nowMs : ℚ) : Nat → State → State
  | 0, s => s
  | i + 1, s =>
    match s.targets[i]? with
    | none => s
    | some t =>
      if t.expired nowMs then
        let s := { s with expiredMisses := s.expiredMisses + 1 }
        let s := { s with targets := s.targets.eraseIdx i }
        if s.expiredMisses ≥ EXPIRED_LIMIT then endGame "overwhelmed" s
        else updateTargetsTimedLoop nowMs i s
      else updateTargetsTimedLoop nowMs i s

/-- The function `updateTargetsTimed`. -/
def updateTargetsTimed (nowMs : ℚ) (s : State) : State :=
  updateTargetsTimedLoop nowMs s.targets.length s

/-! ## Tracking mode update -/

/-- The body of the loop of `updateTargetsTracking` for one tracking entry. -/
def moveTracking (dtSec width height : ℚ) (t : TrackingTarget) : TrackingTarget :=
  let t := { t with x := t.x + t.vx * dtSec }
  let t := { t with y := t.y + t.vy * dtSec }
  let r := t.size / 2
  let t := if t.x < r then { t with x := r, vx := t.vx * -1 }
    else if t.x > width - r then { t with x := width - r, vx := t.vx * -1 }
    else t
  let t := if t.y < r then { t with y := r, vy := t.vy * -1 }
    else if t.y > height - r then { t with y := height - r, vy := t.vy * -1 }
    else t
  t

/-- The body of the loop of `updateTargetsTracking`; an entry without coordinates
(a timed entry) fails every comparison and keeps its fields. -/
def moveTarget (dtSec width height : ℚ) : Target → Target
  | .tracking t => .tracking (moveTracking dtSec width height t)
  | .timed t => .timed t

/-- The function `updateTargetsTracking`; `width`, `height` are those of
`stage.getBoundingClientRect()`. -/
def updateTargetsTracking (dtSec width height : ℚ) (s : State) : State :=
  { s with targets := s.targets.map (moveTarget dtSec width height) }

/-! ## Spawning -/

/-- What one run of a spawn callback reads from the browser. -/
structure SpawnInput where
  /-- Width and height of `stage.getBoundingClientRect()`. -/
  rectWidth : ℚ
  rectHeight : ℚ
  /-- The draws of `Math.random()` for the size, `x`, `y` and the speed. -/
  uSize : ℚ
  uX : ℚ
  uY : ℚ
  uSpeed : ℚ
  /-- The values `Math.cos(angle)` and `Math.sin(angle)`. -/
  cosAngle : ℚ
  sinAngle : ℚ
  /-- The fresh id (`crypto.randomUUID()`). -/
  id : Nat
  /-- The value of `performance.now()`. -/
  now : ℚ
  /-- The value of `shieldsToggle.checked`. -/
  shieldOn : Bool

/-- The coordinate `randInt(Math.floor(pad), Math.floor(extent - pad))` with
`pad = size / 2 + 4`, for `x` (extent `rect.width`) and `y` (extent `rect.height`). -/
def spawnCoord (u : ℚ) (size : Int) (extent : ℚ) : Int :=
  let pad : ℚ := (size : ℚ) / 2 + 4
  randInt u ⌊pad⌋ ⌊extent - pad⌋

/-- The entry that `spawnTargetTimed` pushes.  The position goes to the node only
(`spawnCoord`); the entry has no coordinates. -/
def newTimedTarget (inp : SpawnInput) : TimedTarget :=
  let startSize := randInt inp.uSize TARGET_START_SIZE_MIN TARGET_START_SIZE_MAX
  { id := inp.id, bornAtMs := inp.now, expiresAtMs := inp.now + TARGET_LIFETIME_MS,
    startSize := startSize }

/-- The function `spawnTargetTimed`. -/
def spawnTargetTimed (inp : SpawnInput) (s : State) : State :=
  if !s.running then s
  else
    { s with targets := s.targets ++ [.timed (newTimedTarget inp)] }

/-- The function `scheduleNextSpawnTimed`. -/
def scheduleNextSpawnTimed (now : ℚ) (s : State) : State :=
  if !s.running then s
  else
    let delay := timedSpawnDelayMs (elapsedSeconds now s) s
    let (h, s) := setTimeout .timed delay s
    { s with spawnTimeoutId := some h }

/-- The entry that `spawnTargetTracking` pushes. -/
def newTrackingTarget (inp : SpawnInput) : TrackingTarget :=
  let size := randInt inp.uSize TRACKING_SIZE_MIN TRACKING_SIZE_MAX
  let x := spawnCoord inp.uX size inp.rectWidth
  let y := spawnCoord inp.uY size inp.rectHeight
  let speed := randInt inp.uSpeed 80 150
  let vx := inp.cosAngle * speed
  let vy := inp.sinAngle * speed
  { id := inp.id, x := x, y := y, vx := vx, vy := vy, size := size,
    hp := TRACKING_TARGET_HP,
    shieldHp := if inp.shieldOn then TRACKING_SHIELD_HP else 0 }

/-- The function `spawnTargetTracking`. -/
def spawnTargetTracking (inp : SpawnInput) (s : State) : State :=
  if !s.running then s
  else
    let s := { s with targets := s.targets ++ [.tracking (newTrackingTarget inp)] }
    if s.targets.length > TRACKING_OVERWHELM_LIMIT then endGame "overwhelmed" s else s

/-- The function `scheduleNextSpawnTracking`. -/
def scheduleNextSpawnTracking (now : ℚ) (s : State) : State :=
  if !s.running then s
  else
    let delay := trackingSpawnDelayMs (elapsedSeconds now s) s
    let (h, s) := setTimeout .tracking delay s
    { s with spawnTimeoutId := some h }

/-- The function `startGame`; `modeTimedChecked` is `modeTimed.checked`, `diff` the
slider value, `now` the value of `performance.now()`. -/
def startGame (modeTimedChecked : Bool) (diff now : ℚ) (s : State) : State :=
  let s := { s with currentMode := if modeTimedChecked then .timed else .tracking }
  let s := applyDifficultyFromUI diff s
  let s := { s with running := true }
  let s := resetStats s
  let s := clearAllTargets s
  let s := { s with startBtnDisabled := true, restartBtnDisabled := false }
  let s := hideOverlay s
  let s := { s with startTimeMs := now }
  let s := { s with lastTickMs := s.startTimeMs }
  let s := if s.currentMode = .timed then scheduleNextSpawnTimed now s
    else scheduleNextSpawnTracking now s
  let (h, s) := requestAnimationFrame s
  { s with rafId := some h }

/-! ## Main tick -/

/-- The function `tick`; `width`, `height` are those of the stage's rectangle, read
by `updateTargetsTracking`. -/
def tick (nowMs width height : ℚ) (s : State) : State :=
  if !s.running then s
  else
    let elapsed := nowMs - s.startTimeMs
    let timeLeft := GAME_MS - elapsed
    if timeLeft ≤ 0 then
      let s := updateHUD 0 s
      endGame "finished" s
    else
      let dtSec := (nowMs - s.lastTickMs) / 1000
      let s := { s with lastTickMs := nowMs }
      let s := if s.currentMode = .timed then updateTargetsTimed nowMs s
        else updateTargetsTracking dtSec width height s
      let s := updateHUD timeLeft s
      let (h, s) := requestAnimationFrame s
      { s with rafId := some h }

/-! ## Events -/

/-- The listener of `restartBtn`. -/
def restartClick (modeTimedChecked : Bool) (diff now : ℚ) (s : State) : State :=
  let s := if s.running then endGame "restart" s else s
  startGame modeTimedChecked diff now s

/-- The function `syncControls`: outside a run it shows the card of the selected
mode (the visibility of the tracking options is not modelled). -/
def syncControls (s : State) : State :=
  if !s.running then showOverlay .intro s else s

/-- The callback given to `setTimeout` by the two schedulers: spawn, then schedule
the next spawn. -/
def spawnCallback (kind : Mode) (inp : SpawnInput) (s : State) : State :=
  match kind with
  | .timed => scheduleNextSpawnTimed inp.now (spawnTargetTimed inp s)
  | .tracking => scheduleNextSpawnTracking inp.now (spawnTargetTracking inp s)

/-- The browser runs the pending timeout `handle`: it leaves the pending list and its
callback runs. -/
def runTimeout (handle : Nat) (inp : SpawnInput) (s : State) : State :=
  match s.pendingTimers.find? fun tm => tm.id == handle with
  | none => s
  | some tm =>
    spawnCallback tm.kind inp
      { s with pendingTimers := s.pendingTimers.filter fun x => x.id != handle }

/-- The browser runs the pending animation-frame request `handle`. -/
def runFrame (handle : Nat) (nowMs width height : ℚ) (s : State) : State :=
  tick nowMs width height
    { s with pendingFrames := s.pendingFrames.filter fun h => h != handle }

/-- What the browser can deliver to the script. -/
inductive Event where
  | startClick (modeTimedChecked : Bool) (diff now : ℚ)
  | restartClick (modeTimedChecked : Bool) (diff now : ℚ)
  | animationFrame (handle : Nat) (nowMs width height : ℚ)
  | timeout (handle : Nat) (inp : SpawnInput)
  | targetPress (id : Nat) (dx dy width now : ℚ)
  | stagePress (now : ℚ)
  | sliderInput (diff : ℚ)
  | modeChange

/-- When the browser can deliver the event: a click needs an enabled button, a
callback a pending request, a press on a target a node in the document; the id
drawn by `crypto.randomUUID()` in a spawn callback is not the id of a live target. -/
def Event.enabled (s : State) : Event → Prop
  | .startClick _ _ _ => s.startBtnDisabled = false
  | .restartClick _ _ _ => s.restartBtnDisabled = false
  | .animationFrame h _ _ _ => h ∈ s.pendingFrames
  | .timeout h inp => (∃ tm ∈ s.pendingTimers, tm.id = h) ∧ inp.id ∉ s.targets.map Target.id
  | .targetPress id _ _ _ _ => ∃ t ∈ s.targets, t.id = id
  | .stagePress _ => True
  | .sliderInput _ => True
  | .modeChange => True

/-- The state after the listener or callback of the event has run. -/
def Event.apply (s : State) : Event → State
  | .startClick m d now => startGame m d now s
  | .restartClick m d now => Bullseye.restartClick m d now s
  | .animationFrame h now w hgt => runFrame h now w hgt s
  | .timeout h inp => runTimeout h inp s
  | .targetPress id dx dy w now => targetPointerDown id dx dy w now s
  | .stagePress now => stagePointerDown now s
  | .sliderInput d => applyDifficultyFromUI d s
  | .modeChange => syncControls s

/-- The state once the script has loaded: the declarations of section 3 followed by
the boot calls `applyDifficultyFromUI`, `syncControls` and `updateHUD(GAME_MS)`.
`store` is what `localStorage` holds, `diff` the slider value, `startDisabled` and
`restartDisabled` the `disabled` attributes of the two buttons in the page. -/
def boot (store : String → Stored) (diff : ℚ) (startDisabled restartDisabled : Bool) :
    State :=
  updateHUD GAME_MS (showOverlay .intro (applyDifficultyFromUI diff
    { running := false
      currentMode := .timed
      startTimeMs := 0
      lastTickMs := 0
      rafId := none
      spawnTimeoutId := none
      points := 0
      hitsOuter := 0
      hitsCenter := 0
      hitsShield := 0
      clickMisses := 0
      expiredMisses := 0
      targets := []
      timedCurve := CURVE_EASY
      trackingCurve := TRACK_CURVE_EASY
      store := store
      startBtnDisabled := startDisabled
      restartBtnDisabled := restartDisabled
      overlay := .hidden
      hud := ⟨0, 0, 0, 0, 0, 0, 0, 0⟩
      pendingFrames := []
      pendingTimers := []
      nextHandle := 1 }))

/-- The states the script can be in between two callbacks. -/
inductive Reachable : State → Prop where
  | boot (store : String → Stored) (diff : ℚ) (startDisabled restartDisabled : Bool) :
      Reachable (boot store diff startDisabled restartDisabled)
  | step {s : State} (e : Event) : Reachable s → e.enabled s → Reachable (e.apply s)

/-! ## Vocabulary of the statements -/

/-- One press: the offsets from the centre of the node, the width of its rectangle
and the time. -/
structure Press where
  dx : ℚ
  dy : ℚ
  width : ℚ
  now : ℚ

/-- The press lands in the centre zone. -/
def Press.isCenter (p : Press) : Bool := isCenterHit p.dx p.dy p.width

/-- Presses on the node of the target `id`, one after the other. -/
def pressAll (id : Nat) : List Press → State → State
  | [], s => s
  | p :: ps, s => pressAll id ps (targetPointerDown id p.dx p.dy p.width p.now s)

/-- Some entry of the pool has the id `id`. -/
def State.hasTarget (s : State) (id : Nat) : Prop := ∃ u ∈ s.targets, u.id = id

/-- The entries of the pool that `updateTargetsTimed` finds expired at `nowMs`. -/
def State.expiredCount (s : State) (nowMs : ℚ) : Nat :=
  (s.targets.filter fun t => t.expired nowMs).length

/-- The state `r` is what an overwhelm leaves of the run in state `s`: the run has
stopped on the "GAME OVER" card with an empty pool, and the score counters and the
store are those of `s`. -/
structure OverwhelmedFrom (s r : State) : Prop where
  running : r.running = false
  overlay : r.overlay = .gameOver
  targets : r.targets = []
  store : r.store = s.store
  points : r.points = s.points
  hitsOuter : r.hitsOuter = s.hitsOuter
  hitsCenter : r.hitsCenter = s.hitsCenter
  hitsShield : r.hitsShield = s.hitsShield
  clickMisses : r.clickMisses = s.clickMisses

/-- What holds of the script's variables between two callbacks: the start button
is disabled during a run; fewer than five targets have expired during a run and
never more than five; a Tracking run has at most five targets; a pending timeout
belongs to the current run, runs the spawn of its mode and is the one whose handle
is in `spawnTimeoutId`; handles are positive. -/
structure Inv (s : State) : Prop where
  startDisabled : s.running = true → s.startBtnDisabled = true
  expiredLt : s.running = true → s.expiredMisses < EXPIRED_LIMIT
  expiredLe : s.expiredMisses ≤ EXPIRED_LIMIT
  trackingPool : s.running = true → s.currentMode = .tracking →
    s.targets.length ≤ TRACKING_OVERWHELM_LIMIT
  timers : ∀ tm ∈ s.pendingTimers,
    s.running = true ∧ tm.kind = s.currentMode ∧ s.spawnTimeoutId = some tm.id ∧ tm.id ≠ 0
  handle : s.nextHandle ≠ 0

/-! ## Sample states -/

/-- A Timed run 3.2 s old at most: two live targets, two expirations so far. -/
def sampleTimed : State :=
  { running := true
    currentMode := .timed
    startTimeMs := 0
    lastTickMs := 3100
    rafId := some 7
    spawnTimeoutId := some 6
    points := 3
    hitsOuter := 1
    hitsCenter := 1
    hitsShield := 0
    clickMisses := 1
    expiredMisses := 2
    targets := [.timed ⟨11, 0, 3000, 60⟩, .timed ⟨12, 500, 3500, 70⟩]
    timedCurve := CURVE_EASY
    trackingCurve := TRACK_CURVE_EASY
    store := fun _ => .missing
    startBtnDisabled := true
    restartBtnDisabled := false
    overlay := .hidden
    hud := ⟨3, 2 / 3, 2, 1, 1, 1, 0, 569 / 10⟩
    pendingFrames := [7]
    pendingTimers := [⟨6, .timed, 1990⟩]
    nextHandle := 8 }

/-- The same Timed run with four expirations so far. -/
def sampleTimedFour : State := { sampleTimed with expiredMisses := 4 }

/-- A shielded tracking target as spawned: `hp = 4`, `shieldHp = 2`. -/
def sampleShielded : TrackingTarget := ⟨21, 100, 100, 60, -80, 60, 4, 2⟩

/-- An unshielded tracking target as spawned: `hp = 4`, `shieldHp = 0`. -/
def sampleBare : TrackingTarget := ⟨22, 200, 150, -90, 40, 70, 4, 0⟩

/-- A Tracking run with a shielded and an unshielded target. -/
def sampleTracking : State :=
  { sampleTimed with
    currentMode := .tracking
    expiredMisses := 0
    targets := [.tracking sampleShielded, .tracking sampleBare]
    pendingTimers := [⟨6, .tracking, 2590⟩] }

/-- A Tracking run with five live targets. -/
def sampleTrackingFull : State :=
  { sampleTracking with
    points := 50
    targets := [.tracking sampleShielded, .tracking sampleBare,
      .tracking ⟨23, 300, 100, 60, 80, 60, 4, 2⟩, .tracking ⟨24, 50, 90, 60, 80, 60, 4, 2⟩,
      .tracking ⟨25, 70, 200, 60, 80, 60, 4, 2⟩] }

/-- What a spawn callback reads, with shields on. -/
def sampleSpawn : SpawnInput :=
  { rectWidth := 800
    rectHeight := 600
    uSize := 1 / 2
    uX := 1 / 4
    uY := 3 / 4
    uSpeed := 1 / 2
    cosAngle := 3 / 5
    sinAngle := 4 / 5
    id := 31
    now := 4000
    shieldOn := true }

/-- A press on the centre of a node 60 wide. -/
def centrePress : Press := ⟨0, 0, 60, 3200⟩

/-- A press 20 to the right of the centre of a node 60 wide: outside the centre
zone of radius 12. -/
def outerPress : Press := ⟨20, 0, 60, 3200⟩

/-! ## More vocabulary -/

/-- The six counters of `r` are those of `s`. -/
structure SameCounters (s r : State) : Prop where
  points : r.points = s.points
  hitsOuter : r.hitsOuter = s.hitsOuter
  hitsCenter : r.hitsCenter = s.hitsCenter
  hitsShield : r.hitsShield = s.hitsShield
  clickMisses : r.clickMisses = s.clickMisses
  expiredMisses : r.expiredMisses = s.expiredMisses

/-- None of the six counters of `r` is below its value in `s`. -/
structure CountersGrow (s r : State) : Prop where
  points : s.points ≤ r.points
  hitsOuter : s.hitsOuter ≤ r.hitsOuter
  hitsCenter : s.hitsCenter ≤ r.hitsCenter
  hitsShield : s.hitsShield ≤ r.hitsShield
  clickMisses : s.clickMisses ≤ r.clickMisses
  expiredMisses : s.expiredMisses ≤ r.expiredMisses

/-- The six counters of `s` are zero. -/
structure ZeroCounters (s : State) : Prop where
  points : s.points = 0
  hitsOuter : s.hitsOuter = 0
  hitsCenter : s.hitsCenter = 0
  hitsShield : s.hitsShield = 0
  clickMisses : s.clickMisses = 0
  expiredMisses : s.expiredMisses = 0

/-- The `x` that `spawnTargetTimed` passes to `makeTargetElement`. -/
def timedSpawnX (inp : SpawnInput) : Int :=
  spawnCoord inp.uX (randInt inp.uSize TARGET_START_SIZE_MIN TARGET_START_SIZE_MAX) inp.rectWidth

/-- The `y` that `spawnTargetTimed` passes to `makeTargetElement`. -/
def timedSpawnY (inp : SpawnInput) : Int :=
  spawnCoord inp.uY (randInt inp.uSize TARGET_START_SIZE_MIN TARGET_START_SIZE_MAX) inp.rectHeight

/-- A stopped state: the sample Timed run after its end. -/
def sampleIdle : State :=
  { sampleTimed with
    running := false
    rafId := none
    spawnTimeoutId := none
    targets := []
    startBtnDisabled := false
    overlay := .timeUp
    pendingFrames := []
    pendingTimers := [] }

/-! ## A store that refuses writes -/

/-- How a call ends: it returns, or an exception escapes it, in either case with the
state the script has reached. -/
inductive Completion where
  | returned (s : State)
  | threw (s : State)

/-- The state at the end of the call. -/
def Completion.state : Completion → State
  | .returned s => s
  | .threw s => s

/-- The function `saveRecord` when `localStorage.setItem` may throw (storage full or
disabled): with `writable = false` nothing is stored and, there being no `try`
around the call, the exception escapes. -/
def saveRecordOn (writable : Bool) (key : String) (record : ScoreRecord) (s : State) :
    Completion :=
  if writable then .returned (saveRecord key record s) else .threw s

/-- The function `endGame` on such a store: the statements of `endGame` in order,
the call of `saveRecord` replaced by `saveRecordOn`; an exception thrown there
leaves `endGame` at once, before `renderHighScores`, `showOverlay` and
`updateHUD(0)`. -/
def endGameOn (writable : Bool) (reason : String) (s : State) : Completion :=
  if !s.running then .returned s
  else
    let s := { s with running := false }
    let s := if truthy s.spawnTimeoutId then
        { clearTimeout s.spawnTimeoutId s with spawnTimeoutId := none } else s
    let s := if truthy s.rafId then
        { cancelAnimationFrame s.rafId s with rafId := none } else s
    let s := { s with startBtnDisabled := false, restartBtnDisabled := false }
    let s := clearAllTargets s
    let acc := computeAccuracy s
    let record : ScoreRecord := { points := s.points, accuracy := acc, hitsCenter := s.hitsCenter }
    if reason = "finished" then
      let key := if s.currentMode = .timed then LS_KEY_TIMED else LS_KEY_TRACKING
      let currentHigh := loadRecord key s
      if isBetterScore record currentHigh then
        match saveRecordOn writable key record s with
        | .threw s => .threw s
        | .returned s => .returned (updateHUD 0 (showOverlay .timeUp s))
      else .returned (updateHUD 0 (showOverlay .timeUp s))
    else if reason = "overwhelmed" then .returned (updateHUD 0 (showOverlay .gameOver s))
    else .returned (updateHUD 0 (showOverlay .runEnded s))

/-- The sample Timed run with unreadable text stored under the Timed key. -/
def sampleTimedUnreadable : State :=
  { sampleTimed with store := fun k => if k = LS_KEY_TIMED then .unreadable else .missing }

/-- The state `endGame` has built when it reaches the record of the run: the run
stopped, the timeout and the animation frame cancelled, the buttons enabled, the
pool cleared. -/
def endGameTeardown (s : State) : State :=
  let s := { s with running := false }
  let s := if truthy s.spawnTimeoutId then
      { clearTimeout s.spawnTimeoutId s with spawnTimeoutId := none } else s
  let s := if truthy s.rafId then
      { cancelAnimationFrame s.rafId s with rafId := none } else s
  let s := { s with startBtnDisabled := false, restartBtnDisabled := false }
  clearAllTargets s

/-! ## A Timed run that is overwhelmed -/

/-- What a spawn callback reads when it draws the id `id` at the time `now`. -/
def spawnAt (id : Nat) (now : ℚ) : SpawnInput := { sampleSpawn with id := id, now := now }

/-- The page as loaded: nothing stored, the slider at 1, both buttons enabled. -/
def bootSample : State := boot (fun _ => .missing) 1 false false

/-- The events of the list delivered in order. -/
def runEvents : List Event → State → State
  | [], s => s
  | e :: es, s => runEvents es (e.apply s)

/-- A Timed run in which five targets are left to expire: Start at 0 ms (timeout
1 and animation frame 2 are requested), the spawn callbacks at 2, 4, 6, 8 and 10 s
(each requests the next timeout: 3, 4, 5, 6, 7), then the animation frame at 20 s,
when the five targets, due at 5, 7, 9, 11 and 13 s, have all expired. -/
def overwhelmedTimedRun : List Event :=
  [.startClick true 1 0,
   .timeout 1 (spawnAt 101 2000),
   .timeout 3 (spawnAt 102 4000),
   .timeout 4 (spawnAt 103 6000),
   .timeout 5 (spawnAt 104 8000),
   .timeout 6 (spawnAt 105 10000),
   .animationFrame 2 20000 800 600]

/-- A Timed run started at 0 ms in which nothing has expired yet: `n` live targets
with the ids `101 .. 100 + n`, all due by 20 s; the first animation frame, of
handle 2, still pending; one pending timeout, of handle `h`, which is the one in
`spawnTimeoutId`; `next` the next handle. -/
structure TimedRunShape (n h next : Nat) (s : State) : Prop where
  running : s.running = true
  mode : s.currentMode = .timed
  start : s.startTimeMs = 0
  expired : s.expiredMisses = 0
  frames : s.pendingFrames = [2]
  raf : s.rafId = some 2
  handle : s.nextHandle = next
  positive : h ≠ 0
  timeoutId : s.spawnTimeoutId = some h
  timers : ∃ d, s.pendingTimers = [⟨h, .timed, d⟩]
  count : s.targets.length = n
  due : ∀ t ∈ s.targets, t.expired 20000 = true
  ids : ∀ t ∈ s.targets, 100 < t.id ∧ t.id ≤ 100 + n

/-- What holds of `spawnTimeoutId` between two callbacks: outside a run it is
`null`, and it is never the handle 0; the next handle is positive. -/
structure IdleTimeout (s : State) : Prop where
  idle : s.running = false → s.spawnTimeoutId = none
  positive : s.spawnTimeoutId ≠ some 0
  handle : s.nextHandle ≠ 0

/-- The score is made of the hits: an outer hit is worth 1 point, a centre hit 2, a
hit on a shield 1. -/
def ScoreIdentity (s : State) : Prop :=
  s.points = s.hitsOuter + 2 * s.hitsCenter + s.hitsShield

/-- The sample Timed run after a centre press on its target 11, which is thereby
destroyed. -/
def sampleTimedHit : State := targetPointerDown 11 0 0 60 3200 sampleTimed

/-- The page after Start in Timed mode at 0 ms and the first spawn callback at 2 s:
a running Timed state with the one target 101. -/
def oneTargetRun : State :=
  runEvents [.startClick true 1 0, .timeout 1 (spawnAt 101 2000)] bootSample

/-! ## Accuracy -/

theorem computeAccuracy_nonneg (s : State) : 0 ≤ computeAccuracy s := by
  unfold computeAccuracy
  simp only
  split
  · exact le_refl 0
  · positivity

theorem computeAccuracy_le_one (s : State) : computeAccuracy s ≤ 1 := by
  unfold computeAccuracy
  simp only
  split
  · exact zero_le_one
  · rename_i h
    have hpos : (0 : ℚ) < ((s.hitsOuter + s.hitsCenter + s.hitsShield + s.clickMisses : ℕ) : ℚ) := by
      exact_mod_cast Nat.pos_of_ne_zero h
    rw [div_le_one hpos]
    exact_mod_cast Nat.le_add_right _ _

/-- C9: `computeAccuracy` is the ratio of the three hit counters to the hits plus
the click misses whenever that denominator is not zero, it is exactly `0` when the
four counters are zero, it always lies between `0` and `1`, and it does not depend
on `expiredMisses` (nor on `points`). -/
theorem computeAccuracy_spec (s : State) :
    (s.hitsOuter + s.hitsCenter + s.hitsShield + s.clickMisses ≠ 0 →
      computeAccuracy s =
        ((s.hitsOuter : ℚ) + s.hitsCenter + s.hitsShield) /
          ((s.hitsOuter : ℚ) + s.hitsCenter + s.hitsShield + s.clickMisses)) ∧
    (s.hitsOuter = 0 → s.hitsCenter = 0 → s.hitsShield = 0 → s.clickMisses = 0 →
      computeAccuracy s = 0) ∧
    0 ≤ computeAccuracy s ∧ computeAccuracy s ≤ 1 ∧
    (∀ e p : Nat, computeAccuracy { s with expiredMisses := e, points := p } =
      computeAccuracy s) := by
  refine ⟨?_, ?_, computeAccuracy_nonneg s, computeAccuracy_le_one s, ?_⟩
  · intro h
    unfold computeAccuracy
    simp only [h, if_false]
    push_cast
    rfl
  · intro h1 h2 h3 h4
    simp [computeAccuracy, h1, h2, h3, h4]
  · intro e p
    rfl

/-! ## Score comparison -/

theorem isBetterScore_some_iff (c cur : ScoreRecord) :
    isBetterScore c (some cur) = true ↔
      cur.points < c.points ∨
        (c.points = cur.points ∧
          (cur.accuracy < c.accuracy ∨
            (c.accuracy = cur.accuracy ∧ cur.hitsCenter < c.hitsCenter))) := by
  unfold isBetterScore
  by_cases hp : c.points = cur.points
  · by_cases ha : c.accuracy = cur.accuracy
    · simp [hp, ha]
    · simp [hp, ha]
  · have hp' : cur.points ≠ c.points := fun h => hp h.symm
    simp [hp, hp']

/-- C7: `isBetterScore` accepts every candidate when nothing is stored; against a
stored record it accepts exactly the candidates whose triple (points, accuracy,
hitsCenter) is strictly greater in lexicographic order.  So 100 points at accuracy
9/10 with 5 centre hits beats the same with 4 centre hits, fewer points never win,
and an equal triple does not win. -/
theorem isBetterScore_lexicographic :
    (∀ c : ScoreRecord, isBetterScore c none = true) ∧
    (∀ c cur : ScoreRecord, isBetterScore c (some cur) = true ↔
      toLex (cur.points, toLex (cur.accuracy, cur.hitsCenter)) <
        toLex (c.points, toLex (c.accuracy, c.hitsCenter))) ∧
    (∀ c cur : ScoreRecord, isBetterScore c (some cur) = true ↔
      cur.points < c.points ∨
        (c.points = cur.points ∧
          (cur.accuracy < c.accuracy ∨
            (c.accuracy = cur.accuracy ∧ cur.hitsCenter < c.hitsCenter)))) ∧
    isBetterScore ⟨100, 9 / 10, 5⟩ (some ⟨100, 9 / 10, 4⟩) = true ∧
    (∀ c cur : ScoreRecord, c.points < cur.points → isBetterScore c (some cur) = false) ∧
    (∀ c cur : ScoreRecord, c.points = cur.points → c.accuracy = cur.accuracy →
      c.hitsCenter = cur.hitsCenter → isBetterScore c (some cur) = false) := by
  refine ⟨fun _ => rfl, ?_, isBetterScore_some_iff, ?_, ?_, ?_⟩
  · intro c cur
    rw [isBetterScore_some_iff, Prod.Lex.lt_iff]
    simp only [Prod.Lex.lt_iff, ofLex_toLex, toLex_inj]
    constructor
    · rintro (h | ⟨h1, h2 | ⟨h2, h3⟩⟩)
      · exact Or.inl h
      · exact Or.inr ⟨h1.symm, Or.inl h2⟩
      · exact Or.inr ⟨h1.symm, Or.inr ⟨h2.symm, h3⟩⟩
    · rintro (h | ⟨h1, h2 | ⟨h2, h3⟩⟩)
      · exact Or.inl h
      · exact Or.inr ⟨h1.symm, Or.inl h2⟩
      · exact Or.inr ⟨h1.symm, Or.inr ⟨h2.symm, h3⟩⟩
  · rw [isBetterScore_some_iff]
    right
    exact ⟨rfl, Or.inr ⟨rfl, by norm_num⟩⟩
  · intro c cur h
    rw [Bool.eq_false_iff, Ne, isBetterScore_some_iff]
    rintro (h' | ⟨h1, _⟩) <;> omega
  · intro c cur h1 h2 h3
    rw [Bool.eq_false_iff, Ne, isBetterScore_some_iff]
    rintro (h' | ⟨_, h' | ⟨_, h'⟩⟩)
    · omega
    · rw [h2] at h'
      exact lt_irrefl _ h'
    · omega

/-! ## End of a run -/

theorem endGame_of_not_running (reason : String) (s : State) (h : s.running = false) :
    endGame reason s = s := by
  simp [endGame, h]

/-- What `endGame` leaves alone whatever the reason. -/
theorem endGame_frame (reason : String) (s : State) :
    (endGame reason s).points = s.points ∧
    (endGame reason s).hitsOuter = s.hitsOuter ∧
    (endGame reason s).hitsCenter = s.hitsCenter ∧
    (endGame reason s).hitsShield = s.hitsShield ∧
    (endGame reason s).clickMisses = s.clickMisses ∧
    (endGame reason s).expiredMisses = s.expiredMisses ∧
    (endGame reason s).currentMode = s.currentMode ∧
    (endGame reason s).nextHandle = s.nextHandle := by
  unfold endGame
  by_cases hr : s.running = true
  · simp only [hr, Bool.not_true, Bool.false_eq_true, if_false]
    split_ifs <;> simp [updateHUD, showOverlay, saveRecord, clearAllTargets, clearTimeout,
      cancelAnimationFrame]
  · simp [hr]

/-- What `endGame` does to a running state whatever the reason. -/
theorem endGame_of_running (reason : String) (s : State) (h : s.running = true) :
    (endGame reason s).running = false ∧
    (endGame reason s).targets = [] ∧
    (endGame reason s).startBtnDisabled = false ∧
    (endGame reason s).restartBtnDisabled = false := by
  unfold endGame
  simp only [h, Bool.not_true, Bool.false_eq_true, if_false]
  split_ifs <;> simp [updateHUD, showOverlay, saveRecord, clearAllTargets, clearTimeout,
    cancelAnimationFrame]

theorem endGame_store_of_ne_finished (reason : String) (s : State) (h : reason ≠ "finished") :
    (endGame reason s).store = s.store := by
  unfold endGame
  by_cases hr : s.running = true
  · simp only [hr, Bool.not_true, Bool.false_eq_true, if_false, h]
    split_ifs <;> simp [updateHUD, showOverlay, clearAllTargets, clearTimeout,
      cancelAnimationFrame]
  · simp [hr]

theorem endGame_overlay_overwhelmed (s : State) (h : s.running = true) :
    (endGame "overwhelmed" s).overlay = .gameOver := by
  unfold endGame
  simp only [h, Bool.not_true, Bool.false_eq_true, if_false]
  have h1 : ("overwhelmed" = "finished") = False := by simp
  simp only [h1, if_false, if_true]
  split_ifs <;> simp [updateHUD, showOverlay, clearAllTargets, clearTimeout,
    cancelAnimationFrame]

/-- C6: for every state and every reason other than `"finished"` (so for
`"overwhelmed"` and for the `"restart"` of the restart button), `endGame` leaves
the whole best-score store as it was, in particular the entries under the Timed
key and the Tracking key, whatever the counters and whatever is stored. -/
theorem endGame_keeps_store_unless_finished (reason : String) (s : State)
    (h : reason ≠ "finished") :
    (endGame reason s).store = s.store ∧
    (endGame reason s).store LS_KEY_TIMED = s.store LS_KEY_TIMED ∧
    (endGame reason s).store LS_KEY_TRACKING = s.store LS_KEY_TRACKING := by
  have hs := endGame_store_of_ne_finished reason s h
  exact ⟨hs, by rw [hs], by rw [hs]⟩

/-! ## Difficulty curves and spawn delay -/

theorem mathRound_mono {a b : ℚ} (h : a ≤ b) : ((mathRound a : Int) : ℚ) ≤ (mathRound b : Int) := by
  unfold mathRound
  exact_mod_cast Int.floor_le_floor (by linarith)

theorem clamp_bounds (n lo hi : ℚ) (h : lo ≤ hi) : lo ≤ clamp n lo hi ∧ clamp n lo hi ≤ hi := by
  unfold clamp
  exact ⟨le_max_left _ _, max_le h (min_le_left _ _)⟩

theorem clamp_mono {a b : ℚ} (lo hi : ℚ) (h : a ≤ b) : clamp a lo hi ≤ clamp b lo hi := by
  unfold clamp
  exact max_le_max (le_refl lo) (min_le_min (le_refl hi) h)

theorem resolveTimedCurve_wf (diff : ℚ) (h1 : 1 ≤ diff) (h10 : diff ≤ 10) :
    (resolveTimedCurve diff).minMs ≤ (resolveTimedCurve diff).maxMs ∧
    0 ≤ (resolveTimedCurve diff).rampPerSec := by
  unfold resolveTimedCurve
  simp only
  constructor
  · apply mathRound_mono
    simp only [lerp, difficulty01, CURVE_EASY, CURVE_HARD]
    linarith
  · simp only [lerp, difficulty01, CURVE_EASY, CURVE_HARD]
    linarith

theorem resolveTrackingCurve_wf (diff : ℚ) (h1 : 1 ≤ diff) (h10 : diff ≤ 10) :
    (resolveTrackingCurve diff).minMs ≤ (resolveTrackingCurve diff).maxMs ∧
    0 ≤ (resolveTrackingCurve diff).rampPerSec := by
  unfold resolveTrackingCurve
  simp only
  constructor
  · apply mathRound_mono
    simp only [lerp, difficulty01, TRACK_CURVE_EASY, TRACK_CURVE_HARD]
    linarith
  · simp only [lerp, difficulty01, TRACK_CURVE_EASY, TRACK_CURVE_HARD]
    linarith

/-- C10: for every difficulty `d` in 1..10 the curves set by `applyDifficultyFromUI`
have `minMs ≤ maxMs` and `rampPerSec ≥ 0`, in both modes; the spawn delay is
`clamp(maxMs - e * rampPerSec, minMs, maxMs)`, and for elapsed times `e1 ≤ e2` it
satisfies `minMs ≤ delay(e2) ≤ delay(e1) ≤ maxMs`: it never increases with elapsed
time and never goes below `minMs`. -/
theorem spawnDelay_bounded_antitone (d : ℕ) (hd1 : 1 ≤ d) (hd10 : d ≤ 10) (s : State)
    (e1 e2 : ℚ) (he : e1 ≤ e2) :
    let s' := applyDifficultyFromUI d s
    (s'.timedCurve.minMs ≤ s'.timedCurve.maxMs ∧ 0 ≤ s'.timedCurve.rampPerSec) ∧
    (s'.trackingCurve.minMs ≤ s'.trackingCurve.maxMs ∧ 0 ≤ s'.trackingCurve.rampPerSec) ∧
    (timedSpawnDelayMs e1 s' =
        clamp (s'.timedCurve.maxMs - e1 * s'.timedCurve.rampPerSec)
          s'.timedCurve.minMs s'.timedCurve.maxMs ∧
      s'.timedCurve.minMs ≤ timedSpawnDelayMs e2 s' ∧
      timedSpawnDelayMs e2 s' ≤ timedSpawnDelayMs e1 s' ∧
      timedSpawnDelayMs e1 s' ≤ s'.timedCurve.maxMs) ∧
    (trackingSpawnDelayMs e1 s' =
        clamp (s'.trackingCurve.maxMs - e1 * s'.trackingCurve.rampPerSec)
          s'.trackingCurve.minMs s'.trackingCurve.maxMs ∧
      s'.trackingCurve.minMs ≤ trackingSpawnDelayMs e2 s' ∧
      trackingSpawnDelayMs e2 s' ≤ trackingSpawnDelayMs e1 s' ∧
      trackingSpawnDelayMs e1 s' ≤ s'.trackingCurve.maxMs) := by
  have h1 : (1 : ℚ) ≤ (d : ℚ) := by exact_mod_cast hd1
  have h10 : (d : ℚ) ≤ 10 := by exact_mod_cast hd10
  obtain ⟨ht, htr⟩ := resolveTimedCurve_wf d h1 h10
  obtain ⟨hk, hkr⟩ := resolveTrackingCurve_wf d h1 h10
  intro s'
  have hT : s'.timedCurve = resolveTimedCurve d := rfl
  have hK : s'.trackingCurve = resolveTrackingCurve d := rfl
  refine ⟨⟨by rw [hT]; exact ht, by rw [hT]; exact htr⟩,
    ⟨by rw [hK]; exact hk, by rw [hK]; exact hkr⟩, ⟨rfl, ?_, ?_, ?_⟩, ⟨rfl, ?_, ?_, ?_⟩⟩
  · simp only [timedSpawnDelayMs, hT]
    exact (clamp_bounds _ _ _ ht).1
  · simp only [timedSpawnDelayMs, hT]
    apply clamp_mono
    have := mul_le_mul_of_nonneg_right he htr
    linarith
  · simp only [timedSpawnDelayMs, hT]
    exact (clamp_bounds _ _ _ ht).2
  · simp only [trackingSpawnDelayMs, hK]
    exact (clamp_bounds _ _ _ hk).1
  · simp only [trackingSpawnDelayMs, hK]
    apply clamp_mono
    have := mul_le_mul_of_nonneg_right he hkr
    linarith
  · simp only [trackingSpawnDelayMs, hK]
    exact (clamp_bounds _ _ _ hk).2

/-! ## The target pool under unique ids -/

theorem eraseIdx_findIdx_eq_eraseP (p : Target → Bool) (l : List Target) :
    l.eraseIdx (l.findIdx p) = l.eraseP p := by
  induction l with
  | nil => rfl
  | cons a l ih =>
    by_cases h : p a = true
    · simp [List.findIdx_cons, h, List.eraseP_cons]
    · simp [List.findIdx_cons, h, List.eraseP_cons, ih]

theorem removeTargetById_eq (id : Nat) (s : State) :
    removeTargetById id s = { s with targets := s.targets.eraseP fun t => t.id == id } := by
  unfold removeTargetById
  simp only
  rw [← eraseIdx_findIdx_eq_eraseP]
  split
  · rename_i h
    rw [h, List.eraseIdx_of_length_le (le_refl _)]
  · rfl

theorem eraseP_id_eq_erase (t : Target) (l : List Target) (ht : t ∈ l)
    (hids : (l.map Target.id).Nodup) :
    (l.eraseP fun u => u.id == t.id) = l.erase t := by
  induction l with
  | nil => simp at ht
  | cons a l ih =>
    rw [List.map_cons, List.nodup_cons] at hids
    by_cases hat : a = t
    · subst hat
      simp [List.eraseP_cons]
    · have hmem : t ∈ l := by
        rcases List.mem_cons.mp ht with h | h
        · exact absurd h.symm hat
        · exact h
      have hid : a.id ≠ t.id := by
        intro h
        apply hids.1
        rw [h]
        exact List.mem_map_of_mem _ hmem
      have hne : (a == t) = false := by simpa using hat
      have hb : (a.id == t.id) = false := by simpa using hid
      rw [List.eraseP_cons, List.erase_cons, hne, hb, ih hmem hids.2]
      rfl

theorem find?_id_eq_some (t : Target) (l : List Target) (ht : t ∈ l)
    (hids : (l.map Target.id).Nodup) :
    (l.find? fun u => u.id == t.id) = some t := by
  induction l with
  | nil => simp at ht
  | cons a l ih =>
    rw [List.map_cons, List.nodup_cons] at hids
    by_cases hat : a = t
    · subst hat
      simp [List.find?_cons]
    · have hmem : t ∈ l := by
        rcases List.mem_cons.mp ht with h | h
        · exact absurd h.symm hat
        · exact h
      have hid : a.id ≠ t.id := by
        intro h
        apply hids.1
        rw [h]
        exact List.mem_map_of_mem _ hmem
      have hb : (a.id == t.id) = false := by simpa using hid
      rw [List.find?_cons, hb]
      exact ih hmem hids.2

theorem modifyFirst_eq_map (t t' : Target) (l : List Target) (ht : t ∈ l)
    (hids : (l.map Target.id).Nodup) :
    modifyFirst t.id (fun _ => t') l = l.map fun u => if u = t then t' else u := by
  induction l with
  | nil => simp at ht
  | cons a l ih =>
    rw [List.map_cons, List.nodup_cons] at hids
    by_cases hat : a = t
    · subst hat
      have hrest : ∀ u ∈ l, (if u = a then t' else u) = u := by
        intro u hu
        have : u ≠ a := by
          intro h
          apply hids.1
          rw [← h]
          exact List.mem_map_of_mem _ hu
        simp [this]
      simp only [modifyFirst, beq_self_eq_true, if_true, List.map_cons]
      rw [List.map_congr_left hrest, List.map_id']
    · have hmem : t ∈ l := by
        rcases List.mem_cons.mp ht with h | h
        · exact absurd h.symm hat
        · exact h
      have hid : a.id ≠ t.id := by
        intro h
        apply hids.1
        rw [h]
        exact List.mem_map_of_mem _ hmem
      have hb : (a.id == t.id) = false := by simpa using hid
      simp only [modifyFirst, hb, Bool.false_eq_true, if_false, List.map_cons, hat]
      rw [ih hmem hids.2]

theorem modifyFirst_map_id (id : Nat) (f : Target → Target) (l : List Target)
    (hf : ∀ u, u.id = id → (f u).id = id) :
    (modifyFirst id f l).map Target.id = l.map Target.id := by
  induction l with
  | nil => rfl
  | cons a l ih =>
    by_cases h : a.id = id
    · simp [modifyFirst, h, hf a h]
    · simp [modifyFirst, h, ih]

theorem eraseP_modifyFirst (id : Nat) (f : Target → Target) (l : List Target)
    (hf : ∀ u, u.id = id → (f u).id = id) :
    ((modifyFirst id f l).eraseP fun u => u.id == id) = l.eraseP fun u => u.id == id := by
  induction l with
  | nil => rfl
  | cons a l ih =>
    by_cases h : a.id = id
    · simp [modifyFirst, h, hf a h, List.eraseP_cons]
    · simp [modifyFirst, h, ih, List.eraseP_cons]

theorem mem_erase_of_nodup_ids (t u : Target) (l : List Target)
    (hids : (l.map Target.id).Nodup) :
    u ∈ l.erase t ↔ u ∈ l ∧ u ≠ t := by
  have hnd : l.Nodup := List.Nodup.of_map _ hids
  rw [hnd.mem_erase_iff]
  exact ⟨fun h => ⟨h.2, h.1⟩, fun h => ⟨h.2, h.1⟩⟩

/-! ## Presses on a target -/

theorem isCenterHit_iff_sqrt_le (dx dy width : ℚ) :
    isCenterHit dx dy width = true ↔
      Real.sqrt ((dx : ℝ) * dx + dy * dy) ≤ 0.4 * ((width : ℝ) / 2) := by
  unfold isCenterHit
  simp only [decide_eq_true_eq, CENTER_RADIUS_RATIO]
  rw [Real.sqrt_le_iff]
  have e : (0.4 : ℝ) * ((width : ℝ) / 2) = ((width / 2 * (2 / 5) : ℚ) : ℝ) := by
    push_cast
    ring
  rw [e]
  constructor
  · rintro ⟨h1, h2⟩
    refine ⟨by exact_mod_cast h1, ?_⟩
    rw [sq]
    exact_mod_cast h2
  · rintro ⟨h1, h2⟩
    refine ⟨by exact_mod_cast h1, ?_⟩
    rw [sq] at h2
    exact_mod_cast h2

theorem isCenterHit_eq_false_iff (dx dy width : ℚ) :
    isCenterHit dx dy width = false ↔
      0.4 * ((width : ℝ) / 2) < Real.sqrt ((dx : ℝ) * dx + dy * dy) := by
  rw [← not_le, ← isCenterHit_iff_sqrt_le, Bool.not_eq_true]

theorem centrePress_isCenter : centrePress.isCenter = true := by
  simp only [Press.isCenter, isCenterHit, centrePress, CENTER_RADIUS_RATIO, decide_eq_true_eq]
  norm_num

theorem outerPress_isCenter : outerPress.isCenter = false := by
  simp only [Press.isCenter, isCenterHit, outerPress, CENTER_RADIUS_RATIO, decide_eq_false_iff_not]
  norm_num

/-- C1: in Timed mode, in a running state whose targets have distinct ids, a press
on a live target at distance at most `0.4 × outerRadius` from its centre adds 2 to
`points` and 1 to `hitsCenter` and leaves `hitsOuter`; at a greater distance it adds
1 to `points` and 1 to `hitsOuter` and leaves `hitsCenter`.  Either way the pressed
target leaves the pool, every other target stays (in the same order), and
`clickMisses`, `hitsShield` and `expiredMisses` are unchanged. -/
theorem timed_press_scores_and_removes (s : State) (t : Target) (dx dy width now : ℚ)
    (hrun : s.running = true) (hmode : s.currentMode = .timed)
    (ht : t ∈ s.targets) (hids : (s.targets.map Target.id).Nodup) :
    (Real.sqrt ((dx : ℝ) * dx + dy * dy) ≤ 0.4 * ((width : ℝ) / 2) →
      (targetPointerDown t.id dx dy width now s).points = s.points + 2 ∧
      (targetPointerDown t.id dx dy width now s).hitsCenter = s.hitsCenter + 1 ∧
      (targetPointerDown t.id dx dy width now s).hitsOuter = s.hitsOuter) ∧
    (0.4 * ((width : ℝ) / 2) < Real.sqrt ((dx : ℝ) * dx + dy * dy) →
      (targetPointerDown t.id dx dy width now s).points = s.points + 1 ∧
      (targetPointerDown t.id dx dy width now s).hitsOuter = s.hitsOuter + 1 ∧
      (targetPointerDown t.id dx dy width now s).hitsCenter = s.hitsCenter) ∧
    t ∉ (targetPointerDown t.id dx dy width now s).targets ∧
    (∀ u, u ∈ (targetPointerDown t.id dx dy width now s).targets ↔ u ∈ s.targets ∧ u ≠ t) ∧
    (targetPointerDown t.id dx dy width now s).targets = s.targets.erase t ∧
    (targetPointerDown t.id dx dy width now s).clickMisses = s.clickMisses ∧
    (targetPointerDown t.id dx dy width now s).hitsShield = s.hitsShield ∧
    (targetPointerDown t.id dx dy width now s).expiredMisses = s.expiredMisses := by
  have htargets : (targetPointerDown t.id dx dy width now s).targets = s.targets.erase t := by
    rw [← eraseP_id_eq_erase t s.targets ht hids]
    unfold targetPointerDown
    simp only [hrun, hmode, Bool.not_true, Bool.false_eq_true, if_false, if_true,
      removeTargetById_eq, updateHUD]
    split <;> rfl
  refine ⟨?_, ?_, ?_, ?_, htargets, ?_, ?_, ?_⟩
  · intro h
    rw [← isCenterHit_iff_sqrt_le] at h
    simp [targetPointerDown, hrun, hmode, h, removeTargetById_eq, updateHUD]
  · intro h
    rw [← isCenterHit_eq_false_iff] at h
    simp [targetPointerDown, hrun, hmode, h, removeTargetById_eq, updateHUD]
  · rw [htargets, mem_erase_of_nodup_ids t t s.targets hids]
    exact fun h => h.2 rfl
  · intro u
    rw [htargets]
    exact mem_erase_of_nodup_ids t u s.targets hids
  · unfold targetPointerDown
    simp only [hrun, hmode, Bool.not_true, Bool.false_eq_true, if_false, if_true,
      removeTargetById_eq, updateHUD]
    split <;> rfl
  · unfold targetPointerDown
    simp only [hrun, hmode, Bool.not_true, Bool.false_eq_true, if_false, if_true,
      removeTargetById_eq, updateHUD]
    split <;> rfl
  · unfold targetPointerDown
    simp only [hrun, hmode, Bool.not_true, Bool.false_eq_true, if_false, if_true,
      removeTargetById_eq, updateHUD]
    split <;> rfl

theorem tracking_press_shield (s : State) (t : TrackingTarget) (dx dy width now : ℚ)
    (hrun : s.running = true) (hmode : s.currentMode = .tracking)
    (ht : Target.tracking t ∈ s.targets) (hids : (s.targets.map Target.id).Nodup)
    (hsh : 0 < t.shieldHp) :
    targetPointerDown t.id dx dy width now s =
      updateHUD (currentTimeLeftMs now s)
        { s with
          hitsShield := s.hitsShield + 1
          points := s.points + 1
          targets := s.targets.map fun u =>
            if u = .tracking t then .tracking { t with shieldHp := t.shieldHp - 1 } else u } := by
  have hfind : (s.targets.find? fun x => x.id == t.id) = some (.tracking t) :=
    find?_id_eq_some (.tracking t) s.targets ht hids
  have hmod : modifyFirst t.id (fun _ => .tracking { t with shieldHp := t.shieldHp - 1 })
      s.targets = s.targets.map fun u =>
        if u = .tracking t then .tracking { t with shieldHp := t.shieldHp - 1 } else u :=
    modifyFirst_eq_map (.tracking t) _ s.targets ht hids
  unfold targetPointerDown
  simp only [hrun, hmode, Bool.not_true, Bool.false_eq_true, if_false, reduceCtorEq, hfind,
    gt_iff_lt, hsh, if_true, hmod, currentTimeLeftMs]

/-- The effect of a press on a tracking target whose shield is down. -/
theorem tracking_press_no_shield (s : State) (t : TrackingTarget) (dx dy width now : ℚ)
    (hrun : s.running = true) (hmode : s.currentMode = .tracking)
    (ht : Target.tracking t ∈ s.targets) (hids : (s.targets.map Target.id).Nodup)
    (hsh : ¬ 0 < t.shieldHp) (dmg : Nat)
    (hdmg : dmg = if isCenterHit dx dy width then 2 else 1) :
    (targetPointerDown t.id dx dy width now s).points = s.points + dmg ∧
    (targetPointerDown t.id dx dy width now s).hitsCenter =
      s.hitsCenter + (if isCenterHit dx dy width then 1 else 0) ∧
    (targetPointerDown t.id dx dy width now s).hitsOuter =
      s.hitsOuter + (if isCenterHit dx dy width then 0 else 1) ∧
    (targetPointerDown t.id dx dy width now s).hitsShield = s.hitsShield ∧
    (targetPointerDown t.id dx dy width now s).clickMisses = s.clickMisses ∧
    (targetPointerDown t.id dx dy width now s).expiredMisses = s.expiredMisses ∧
    (targetPointerDown t.id dx dy width now s).running = true ∧
    (targetPointerDown t.id dx dy width now s).currentMode = .tracking ∧
    (targetPointerDown t.id dx dy width now s).targets =
      if t.hp - dmg ≤ 0 then s.targets.erase (.tracking t)
      else s.targets.map fun u =>
        if u = .tracking t then .tracking { t with hp := t.hp - dmg } else u := by
  have hfind : (s.targets.find? fun x => x.id == t.id) = some (.tracking t) :=
    find?_id_eq_some (.tracking t) s.targets ht hids
  have hmod : modifyFirst t.id (fun _ => .tracking { t with hp := t.hp - dmg })
      s.targets = s.targets.map fun u =>
        if u = .tracking t then .tracking { t with hp := t.hp - dmg } else u :=
    modifyFirst_eq_map (.tracking t) _ s.targets ht hids
  have hers : (s.targets.eraseP fun u => u.id == t.id) = s.targets.erase (.tracking t) :=
    eraseP_id_eq_erase (.tracking t) s.targets ht hids
  have herm := eraseP_modifyFirst t.id (fun _ => .tracking { t with hp := t.hp - dmg })
    s.targets (fun _ _ => rfl)
  rw [hers] at herm
  unfold targetPointerDown
  simp only [hrun, hmode, Bool.not_true, Bool.false_eq_true, if_false, reduceCtorEq, hfind,
    gt_iff_lt, hsh, removeTargetById_eq, updateHUD, ← hdmg, hmod]
  by_cases hk : t.hp - (dmg : ℤ) ≤ 0
  · simp only [hk, if_true, ← hmod, herm]
    by_cases hc : isCenterHit dx dy width = true
    · simp [hc, herm]
    · simp [hc, herm]
  · simp only [hk, if_false]
    by_cases hc : isCenterHit dx dy width = true
    · simp [hc, hmod]
    · simp [hc, hmod]

theorem mem_map_replace (t t' : Target) (l : List Target) (ht : t ∈ l) :
    t' ∈ l.map fun u => if u = t then t' else u :=
  List.mem_map.2 ⟨t, ht, by simp⟩

theorem map_id_map_replace (t t' : Target) (l : List Target) (hid : t'.id = t.id) :
    (l.map fun u => if u = t then t' else u).map Target.id = l.map Target.id := by
  rw [List.map_map]
  apply List.map_congr_left
  intro u _
  by_cases h : u = t
  · simp [h, hid]
  · simp [h]

theorem not_live_erase (t : Target) (l : List Target) (ht : t ∈ l)
    (hids : (l.map Target.id).Nodup) :
    ∀ u ∈ l.erase t, u.id ≠ t.id := by
  intro u hu hid
  rw [mem_erase_of_nodup_ids t u l hids] at hu
  exact hu.2 (List.inj_on_of_nodup_map hids hu.1 ht hid)

/-- What a press on a shielded tracking target leaves behind. -/
theorem tracking_press_shield_next (s : State) (t : TrackingTarget) (dx dy width now : ℚ)
    (hrun : s.running = true) (hmode : s.currentMode = .tracking)
    (ht : Target.tracking t ∈ s.targets) (hids : (s.targets.map Target.id).Nodup)
    (hsh : 0 < t.shieldHp) :
    (targetPointerDown t.id dx dy width now s).running = true ∧
    (targetPointerDown t.id dx dy width now s).currentMode = .tracking ∧
    Target.tracking { t with shieldHp := t.shieldHp - 1 } ∈
      (targetPointerDown t.id dx dy width now s).targets ∧
    ((targetPointerDown t.id dx dy width now s).targets.map Target.id).Nodup ∧
    (targetPointerDown t.id dx dy width now s).points = s.points + 1 ∧
    (targetPointerDown t.id dx dy width now s).hitsShield = s.hitsShield + 1 := by
  rw [tracking_press_shield s t dx dy width now hrun hmode ht hids hsh]
  refine ⟨hrun, hmode, mem_map_replace _ _ _ ht, ?_, rfl, rfl⟩
  simp only [updateHUD]
  rw [map_id_map_replace (.tracking t) (.tracking { t with shieldHp := t.shieldHp - 1 })
    s.targets rfl]
  exact hids

/-- What a press on an unshielded tracking target leaves behind when it survives. -/
theorem tracking_press_no_shield_next (s : State) (t : TrackingTarget) (dx dy width now : ℚ)
    (hrun : s.running = true) (hmode : s.currentMode = .tracking)
    (ht : Target.tracking t ∈ s.targets) (hids : (s.targets.map Target.id).Nodup)
    (hsh : ¬ 0 < t.shieldHp) (dmg : Nat)
    (hdmg : dmg = if isCenterHit dx dy width then 2 else 1) (hhp : 0 < t.hp - dmg) :
    (targetPointerDown t.id dx dy width now s).running = true ∧
    (targetPointerDown t.id dx dy width now s).currentMode = .tracking ∧
    Target.tracking { t with hp := t.hp - dmg } ∈
      (targetPointerDown t.id dx dy width now s).targets ∧
    ((targetPointerDown t.id dx dy width now s).targets.map Target.id).Nodup := by
  obtain ⟨-, -, -, -, -, -, h7, h8, h9⟩ :=
    tracking_press_no_shield s t dx dy width now hrun hmode ht hids hsh dmg hdmg
  rw [if_neg (not_le.2 hhp)] at h9
  refine ⟨h7, h8, ?_, ?_⟩
  · rw [h9]
    exact mem_map_replace _ _ _ ht
  · rw [h9, map_id_map_replace (.tracking t) (.tracking { t with hp := t.hp - dmg })
      s.targets rfl]
    exact hids

/-- After the press that brings `hp` to zero or below no target has the id. -/
theorem tracking_press_no_shield_gone (s : State) (t : TrackingTarget) (dx dy width now : ℚ)
    (hrun : s.running = true) (hmode : s.currentMode = .tracking)
    (ht : Target.tracking t ∈ s.targets) (hids : (s.targets.map Target.id).Nodup)
    (hsh : ¬ 0 < t.shieldHp) (dmg : Nat)
    (hdmg : dmg = if isCenterHit dx dy width then 2 else 1) (hhp : t.hp - dmg ≤ 0) :
    ∀ u ∈ (targetPointerDown t.id dx dy width now s).targets, u.id ≠ t.id := by
  obtain ⟨-, -, -, -, -, -, -, -, h9⟩ :=
    tracking_press_no_shield s t dx dy width now hrun hmode ht hids hsh dmg hdmg
  rw [if_pos hhp] at h9
  rw [h9]
  exact not_live_erase (.tracking t) s.targets ht hids

/-- C2: in Tracking mode, in a running state whose targets have distinct ids, every
press on a live target with `shieldHp > 0`, in the centre zone or outside it, adds
exactly 1 to `points` and 1 to `hitsShield`, takes 1 from `shieldHp`, and leaves
`hp`, `hitsCenter`, `hitsOuter` and the ids in the pool unchanged.  The target that
`spawnTargetTracking` pushes with shields on has `shieldHp = 2` and `hp = 4`; on
such a target the first press leaves `shieldHp = 1`, the second `shieldHp = 0`,
both with `hp = 4`, and the third press takes 2 (centre) or 1 (outer) from `hp`
and adds as much to `points`.  With `shieldHp = 0` every press does so and
`shieldHp` stays `0`. -/
theorem shield_absorbs_presses (s : State) (t : TrackingTarget)
    (hrun : s.running = true) (hmode : s.currentMode = .tracking)
    (ht : Target.tracking t ∈ s.targets) (hids : (s.targets.map Target.id).Nodup) :
    (0 < t.shieldHp → ∀ p : Press,
      (targetPointerDown t.id p.dx p.dy p.width p.now s).points = s.points + 1 ∧
      (targetPointerDown t.id p.dx p.dy p.width p.now s).hitsShield = s.hitsShield + 1 ∧
      (targetPointerDown t.id p.dx p.dy p.width p.now s).targets =
        (s.targets.map fun u =>
          if u = .tracking t then .tracking { t with shieldHp := t.shieldHp - 1 } else u) ∧
      Target.tracking { t with shieldHp := t.shieldHp - 1 } ∈
        (targetPointerDown t.id p.dx p.dy p.width p.now s).targets ∧
      (targetPointerDown t.id p.dx p.dy p.width p.now s).targets.map Target.id =
        s.targets.map Target.id ∧
      (targetPointerDown t.id p.dx p.dy p.width p.now s).hitsCenter = s.hitsCenter ∧
      (targetPointerDown t.id p.dx p.dy p.width p.now s).hitsOuter = s.hitsOuter ∧
      (targetPointerDown t.id p.dx p.dy p.width p.now s).clickMisses = s.clickMisses ∧
      (targetPointerDown t.id p.dx p.dy p.width p.now s).expiredMisses = s.expiredMisses) ∧
    (∀ inp : SpawnInput, inp.shieldOn = true →
      (newTrackingTarget inp).shieldHp = 2 ∧ (newTrackingTarget inp).hp = 4) ∧
    (t.shieldHp = 2 → t.hp = 4 → ∀ p1 p2 p3 : Press,
      Target.tracking { t with shieldHp := 1 } ∈ (pressAll t.id [p1] s).targets ∧
      Target.tracking { t with shieldHp := 0 } ∈ (pressAll t.id [p1, p2] s).targets ∧
      (pressAll t.id [p1, p2] s).points = s.points + 2 ∧
      (pressAll t.id [p1, p2] s).hitsShield = s.hitsShield + 2 ∧
      (pressAll t.id [p1, p2, p3] s).points =
        s.points + 2 + (if p3.isCenter then 2 else 1) ∧
      (pressAll t.id [p1, p2, p3] s).hitsShield = s.hitsShield + 2 ∧
      Target.tracking { t with shieldHp := 0, hp := 4 - (if p3.isCenter then 2 else 1) } ∈
        (pressAll t.id [p1, p2, p3] s).targets) ∧
    (t.shieldHp = 0 → ∀ p : Press,
      (targetPointerDown t.id p.dx p.dy p.width p.now s).points =
        s.points + (if p.isCenter then 2 else 1) ∧
      (targetPointerDown t.id p.dx p.dy p.width p.now s).hitsShield = s.hitsShield ∧
      (0 < t.hp - (if p.isCenter then 2 else 1) →
        Target.tracking { t with shieldHp := 0, hp := t.hp - (if p.isCenter then 2 else 1) } ∈
          (targetPointerDown t.id p.dx p.dy p.width p.now s).targets)) := by
  refine ⟨?_, ?_, ?_, ?_⟩
  · intro hsh p
    rw [tracking_press_shield s t p.dx p.dy p.width p.now hrun hmode ht hids hsh]
    refine ⟨rfl, rfl, rfl, mem_map_replace _ _ _ ht, ?_, rfl, rfl, rfl, rfl⟩
    exact map_id_map_replace (.tracking t) (.tracking { t with shieldHp := t.shieldHp - 1 })
      s.targets rfl
  · intro inp h
    simp [newTrackingTarget, h, TRACKING_SHIELD_HP, TRACKING_TARGET_HP]
  · intro hsh hhp p1 p2 p3
    obtain ⟨r1, m1, t1, n1, q1, k1⟩ := tracking_press_shield_next s t p1.dx p1.dy p1.width
      p1.now hrun hmode ht hids (by omega)
    have e1 : ({ t with shieldHp := t.shieldHp - 1 } : TrackingTarget) =
        { t with shieldHp := 1 } := by rw [hsh]; rfl
    rw [e1] at t1
    obtain ⟨r2, m2, t2, n2, q2, k2⟩ := tracking_press_shield_next _ { t with shieldHp := 1 }
      p2.dx p2.dy p2.width p2.now r1 m1 t1 n1 (by norm_num)
    have e2 : ({ ({ t with shieldHp := 1 } : TrackingTarget) with
        shieldHp := ({ t with shieldHp := 1 } : TrackingTarget).shieldHp - 1 } : TrackingTarget) =
        { t with shieldHp := 0 } := rfl
    rw [e2] at t2
    obtain ⟨a1, -, -, a4, -, -, -, -, -⟩ := tracking_press_no_shield _ { t with shieldHp := 0 }
      p3.dx p3.dy p3.width p3.now r2 m2 t2 n2 (by norm_num)
      (if p3.isCenter then 2 else 1) rfl
    obtain ⟨-, -, t3, -⟩ := tracking_press_no_shield_next _ { t with shieldHp := 0 }
      p3.dx p3.dy p3.width p3.now r2 m2 t2 n2 (by norm_num)
      (if p3.isCenter then 2 else 1) rfl (by
        show 0 < t.hp - _
        rw [hhp]
        split <;> norm_num)
    refine ⟨t1, t2, ?_, ?_, ?_, ?_, ?_⟩
    · show (targetPointerDown _ _ _ _ _ _).points = _
      rw [q2, q1]
    · show (targetPointerDown _ _ _ _ _ _).hitsShield = _
      rw [k2, k1]
    · show (targetPointerDown _ _ _ _ _ (targetPointerDown _ _ _ _ _ _)).points = _
      rw [a1, q2, q1]
    · show (targetPointerDown _ _ _ _ _ (targetPointerDown _ _ _ _ _ _)).hitsShield = _
      rw [a4, k2, k1]
    · have e3 : ({ ({ t with shieldHp := 0 } : TrackingTarget) with
          hp := ({ t with shieldHp := 0 } : TrackingTarget).hp -
            ((if p3.isCenter then 2 else 1 : ℕ) : ℤ) } : TrackingTarget) =
          { t with shieldHp := 0, hp := 4 - (if p3.isCenter then 2 else 1) } := by
        show ({ t with shieldHp := 0, hp := t.hp - _ } : TrackingTarget) = _
        rw [hhp]
        split <;> rfl
      rw [e3] at t3
      exact t3
  · intro hsh p
    have hns : ¬ 0 < t.shieldHp := by omega
    obtain ⟨a1, -, -, a4, -, -, -, -, -⟩ := tracking_press_no_shield s t p.dx p.dy p.width
      p.now hrun hmode ht hids hns (if p.isCenter then 2 else 1) rfl
    refine ⟨a1, a4, ?_⟩
    intro hpos
    have hcast : (((if p.isCenter then 2 else 1 : ℕ) : ℕ) : ℤ) =
        (if p.isCenter then 2 else 1 : ℤ) := by
      split <;> rfl
    obtain ⟨-, -, t3, -⟩ := tracking_press_no_shield_next s t p.dx p.dy p.width p.now hrun
      hmode ht hids hns (if p.isCenter then 2 else 1) rfl (by rw [hcast]; exact hpos)
    rw [hcast] at t3
    have e : ({ t with shieldHp := 0, hp := t.hp - (if p.isCenter then 2 else 1) } :
        TrackingTarget) = { t with hp := t.hp - (if p.isCenter then 2 else 1) } := by
      rw [← hsh]
    rw [e]
    exact t3

/-- C3: in Tracking mode, in a running state whose targets have distinct ids, a
press on a live target with `shieldHp = 0` does damage 2 in the centre zone and 1
outside it: `points` grows by the damage, `hitsCenter` (centre) or `hitsOuter`
(outer) by 1, the target's `hp` drops by the damage, and the target leaves the pool
exactly when its new `hp` is at most 0 (every other target stays).  So with
`hp = 4` the target is still in the pool after one centre press and gone after
two, and it is still there after one, two and three outer presses and gone after
four. -/
theorem unshielded_press_damages (s : State) (t : TrackingTarget)
    (hrun : s.running = true) (hmode : s.currentMode = .tracking)
    (ht : Target.tracking t ∈ s.targets) (hids : (s.targets.map Target.id).Nodup)
    (hsh : t.shieldHp = 0) :
    (∀ p : Press,
      (Real.sqrt ((p.dx : ℝ) * p.dx + p.dy * p.dy) ≤ 0.4 * ((p.width : ℝ) / 2) →
        (targetPointerDown t.id p.dx p.dy p.width p.now s).points = s.points + 2 ∧
        (targetPointerDown t.id p.dx p.dy p.width p.now s).hitsCenter = s.hitsCenter + 1 ∧
        (targetPointerDown t.id p.dx p.dy p.width p.now s).hitsOuter = s.hitsOuter ∧
        (targetPointerDown t.id p.dx p.dy p.width p.now s).targets =
          if t.hp - 2 ≤ 0 then s.targets.erase (.tracking t)
          else s.targets.map fun u =>
            if u = .tracking t then .tracking { t with hp := t.hp - 2 } else u) ∧
      (0.4 * ((p.width : ℝ) / 2) < Real.sqrt ((p.dx : ℝ) * p.dx + p.dy * p.dy) →
        (targetPointerDown t.id p.dx p.dy p.width p.now s).points = s.points + 1 ∧
        (targetPointerDown t.id p.dx p.dy p.width p.now s).hitsOuter = s.hitsOuter + 1 ∧
        (targetPointerDown t.id p.dx p.dy p.width p.now s).hitsCenter = s.hitsCenter ∧
        (targetPointerDown t.id p.dx p.dy p.width p.now s).targets =
          if t.hp - 1 ≤ 0 then s.targets.erase (.tracking t)
          else s.targets.map fun u =>
            if u = .tracking t then .tracking { t with hp := t.hp - 1 } else u) ∧
      ((targetPointerDown t.id p.dx p.dy p.width p.now s).hasTarget t.id ↔
        ¬ t.hp - (if p.isCenter then 2 else 1) ≤ 0) ∧
      (∀ u, u ≠ .tracking t → u ∈ s.targets →
        u ∈ (targetPointerDown t.id p.dx p.dy p.width p.now s).targets) ∧
      (targetPointerDown t.id p.dx p.dy p.width p.now s).hitsShield = s.hitsShield ∧
      (targetPointerDown t.id p.dx p.dy p.width p.now s).clickMisses = s.clickMisses ∧
      (targetPointerDown t.id p.dx p.dy p.width p.now s).expiredMisses = s.expiredMisses) ∧
    (∀ inp : SpawnInput, inp.shieldOn = false →
      (newTrackingTarget inp).shieldHp = 0 ∧ (newTrackingTarget inp).hp = 4) ∧
    (t.hp = 4 → ∀ p1 p2 : Press, p1.isCenter = true → p2.isCenter = true →
      (pressAll t.id [p1] s).hasTarget t.id ∧ ¬ (pressAll t.id [p1, p2] s).hasTarget t.id) ∧
    (t.hp = 4 → ∀ p1 p2 p3 p4 : Press, p1.isCenter = false → p2.isCenter = false →
      p3.isCenter = false → p4.isCenter = false →
      (pressAll t.id [p1] s).hasTarget t.id ∧
      (pressAll t.id [p1, p2] s).hasTarget t.id ∧
      (pressAll t.id [p1, p2, p3] s).hasTarget t.id ∧
      ¬ (pressAll t.id [p1, p2, p3, p4] s).hasTarget t.id) := by
  have hns : ¬ 0 < t.shieldHp := by omega
  refine ⟨?_, ?_, ?_, ?_⟩
  · intro p
    obtain ⟨a1, a2, a3, a4, a5, a6, -, -, a9⟩ := tracking_press_no_shield s t p.dx p.dy
      p.width p.now hrun hmode ht hids hns (if p.isCenter then 2 else 1) rfl
    refine ⟨?_, ?_, ?_, ?_, a4, a5, a6⟩
    · intro h
      rw [← isCenterHit_iff_sqrt_le] at h
      have hc : p.isCenter = true := h
      rw [a1, a2, a3, a9]
      simp [hc, h]
    · intro h
      rw [← isCenterHit_eq_false_iff] at h
      have hc : p.isCenter = false := h
      rw [a1, a2, a3, a9]
      simp [hc, h]
    · have hcast : (((if p.isCenter then 2 else 1 : ℕ) : ℕ) : ℤ) =
          (if p.isCenter then 2 else 1 : ℤ) := by
        split <;> rfl
      rw [← hcast]
      by_cases hk : t.hp - ((if p.isCenter then 2 else 1 : ℕ) : ℤ) ≤ 0
      · have hgone := tracking_press_no_shield_gone s t p.dx p.dy p.width p.now hrun hmode
          ht hids hns _ rfl hk
        constructor
        · rintro ⟨u, hu, hid⟩
          exact absurd hid (hgone u hu)
        · intro h
          exact absurd hk h
      · obtain ⟨-, -, t1, -⟩ := tracking_press_no_shield_next s t p.dx p.dy p.width p.now
          hrun hmode ht hids hns _ rfl (not_le.1 hk)
        exact ⟨fun _ => hk, fun _ => ⟨_, t1, rfl⟩⟩
    · intro u hne hu
      rw [a9]
      by_cases hk : t.hp - ((if p.isCenter then 2 else 1 : ℕ) : ℤ) ≤ 0
      · rw [if_pos hk, mem_erase_of_nodup_ids _ u s.targets hids]
        exact ⟨hu, hne⟩
      · rw [if_neg hk]
        exact List.mem_map.2 ⟨u, hu, by simp [hne]⟩
  · intro inp h
    simp [newTrackingTarget, h, TRACKING_TARGET_HP]
  · intro hhp p1 p2 hc1 hc2
    have d1 : (2 : ℕ) = if isCenterHit p1.dx p1.dy p1.width then 2 else 1 := by
      rw [show isCenterHit p1.dx p1.dy p1.width = true from hc1]; rfl
    have d2 : (2 : ℕ) = if isCenterHit p2.dx p2.dy p2.width then 2 else 1 := by
      rw [show isCenterHit p2.dx p2.dy p2.width = true from hc2]; rfl
    obtain ⟨r1, m1, t1, n1⟩ := tracking_press_no_shield_next s t p1.dx p1.dy p1.width p1.now
      hrun hmode ht hids hns 2 d1 (by rw [hhp]; norm_num)
    have hgone := tracking_press_no_shield_gone _ { t with hp := t.hp - (2 : ℕ) }
      p2.dx p2.dy p2.width p2.now r1 m1 t1 n1 hns 2 d2 (by
        show t.hp - ((2 : ℕ) : ℤ) - ((2 : ℕ) : ℤ) ≤ 0
        rw [hhp]; norm_num)
    refine ⟨⟨_, t1, rfl⟩, ?_⟩
    rintro ⟨u, hu, hid⟩
    exact absurd hid (hgone u hu)
  · intro hhp p1 p2 p3 p4 hc1 hc2 hc3 hc4
    have d1 : (1 : ℕ) = if isCenterHit p1.dx p1.dy p1.width then 2 else 1 := by
      rw [show isCenterHit p1.dx p1.dy p1.width = false from hc1]; rfl
    have d2 : (1 : ℕ) = if isCenterHit p2.dx p2.dy p2.width then 2 else 1 := by
      rw [show isCenterHit p2.dx p2.dy p2.width = false from hc2]; rfl
    have d3 : (1 : ℕ) = if isCenterHit p3.dx p3.dy p3.width then 2 else 1 := by
      rw [show isCenterHit p3.dx p3.dy p3.width = false from hc3]; rfl
    have d4 : (1 : ℕ) = if isCenterHit p4.dx p4.dy p4.width then 2 else 1 := by
      rw [show isCenterHit p4.dx p4.dy p4.width = false from hc4]; rfl
    obtain ⟨r1, m1, t1, n1⟩ := tracking_press_no_shield_next s t p1.dx p1.dy p1.width p1.now
      hrun hmode ht hids hns 1 d1 (by rw [hhp]; norm_num)
    obtain ⟨r2, m2, t2, n2⟩ := tracking_press_no_shield_next _ { t with hp := t.hp - (1 : ℕ) }
      p2.dx p2.dy p2.width p2.now r1 m1 t1 n1 hns 1 d2 (by
        show 0 < t.hp - ((1 : ℕ) : ℤ) - ((1 : ℕ) : ℤ)
        rw [hhp]; norm_num)
    obtain ⟨r3, m3, t3, n3⟩ := tracking_press_no_shield_next _
      { ({ t with hp := t.hp - (1 : ℕ) } : TrackingTarget) with
        hp := ({ t with hp := t.hp - (1 : ℕ) } : TrackingTarget).hp - (1 : ℕ) }
      p3.dx p3.dy p3.width p3.now r2 m2 t2 n2 hns 1 d3 (by
        show 0 < t.hp - ((1 : ℕ) : ℤ) - ((1 : ℕ) : ℤ) - ((1 : ℕ) : ℤ)
        rw [hhp]; norm_num)
    have hgone := tracking_press_no_shield_gone _ _
      p4.dx p4.dy p4.width p4.now r3 m3 t3 n3 hns 1 d4 (by
        show t.hp - ((1 : ℕ) : ℤ) - ((1 : ℕ) : ℤ) - ((1 : ℕ) : ℤ) - ((1 : ℕ) : ℤ) ≤ 0
        rw [hhp]; norm_num)
    refine ⟨⟨_, t1, rfl⟩, ⟨_, t2, rfl⟩, ⟨_, t3, rfl⟩, ?_⟩
    rintro ⟨u, hu, hid⟩
    exact absurd hid (hgone u hu)

/-! ## The end of a finished run -/

theorem computeAccuracy_congr (a b : State) (h1 : a.hitsOuter = b.hitsOuter)
    (h2 : a.hitsCenter = b.hitsCenter) (h3 : a.hitsShield = b.hitsShield)
    (h4 : a.clickMisses = b.clickMisses) : computeAccuracy a = computeAccuracy b := by
  unfold computeAccuracy
  rw [h1, h2, h3, h4]

/-- The state `endGame` has built when it reaches the comparison of the record. -/
theorem endGame_eq_of_running (reason : String) (s : State) (h : s.running = true) :
    ∃ s1 : State, s1.running = false ∧ s1.targets = [] ∧ s1.store = s.store ∧
      s1.points = s.points ∧ s1.hitsOuter = s.hitsOuter ∧ s1.hitsCenter = s.hitsCenter ∧
      s1.hitsShield = s.hitsShield ∧ s1.clickMisses = s.clickMisses ∧
      s1.currentMode = s.currentMode ∧ s1.overlay = s.overlay ∧
      endGame reason s = updateHUD 0
        (if reason = "finished" then
          showOverlay .timeUp
            (if isBetterScore ⟨s1.points, computeAccuracy s1, s1.hitsCenter⟩
                (loadRecord (if s1.currentMode = .timed then LS_KEY_TIMED else LS_KEY_TRACKING) s1)
            then saveRecord (if s1.currentMode = .timed then LS_KEY_TIMED else LS_KEY_TRACKING)
              ⟨s1.points, computeAccuracy s1, s1.hitsCenter⟩ s1
            else s1)
        else if reason = "overwhelmed" then showOverlay .gameOver s1
        else showOverlay .runEnded s1) := by
  refine ⟨clearAllTargets
    { (if truthy (if truthy s.spawnTimeoutId then
          { clearTimeout s.spawnTimeoutId { s with running := false } with spawnTimeoutId := none }
          else { s with running := false }).rafId then
        { cancelAnimationFrame (if truthy s.spawnTimeoutId then
          { clearTimeout s.spawnTimeoutId { s with running := false } with spawnTimeoutId := none }
          else { s with running := false }).rafId (if truthy s.spawnTimeoutId then
          { clearTimeout s.spawnTimeoutId { s with running := false } with spawnTimeoutId := none }
          else { s with running := false }) with rafId := none }
        else (if truthy s.spawnTimeoutId then
          { clearTimeout s.spawnTimeoutId { s with running := false } with spawnTimeoutId := none }
          else { s with running := false })) with
      startBtnDisabled := false, restartBtnDisabled := false }, ?_⟩
  refine ⟨?_, ?_, ?_, ?_, ?_, ?_, ?_, ?_, ?_, ?_, ?_⟩
  case refine_11 =>
    unfold endGame
    simp only [h, Bool.not_true, Bool.false_eq_true, if_false]
  all_goals
    simp only [clearAllTargets, clearTimeout, cancelAnimationFrame]
    try split_ifs
    all_goals rfl

theorem keys_ne : LS_KEY_TIMED ≠ LS_KEY_TRACKING := by decide

/-- What `endGame("finished")` does to a running state. -/
theorem endGame_finished (s : State) (h : s.running = true) :
    (endGame "finished" s).running = false ∧
    (endGame "finished" s).overlay = .timeUp ∧
    (endGame "finished" s).targets = [] ∧
    (endGame "finished" s).store =
      if isBetterScore ⟨s.points, computeAccuracy s, s.hitsCenter⟩
          (loadRecord (if s.currentMode = .timed then LS_KEY_TIMED else LS_KEY_TRACKING) s)
      then Function.update s.store
        (if s.currentMode = .timed then LS_KEY_TIMED else LS_KEY_TRACKING)
        (.record ⟨s.points, computeAccuracy s, s.hitsCenter⟩)
      else s.store := by
  obtain ⟨s1, hr, ht, hst, hp, ho, hc, hs, hm, hmode, -, heq⟩ :=
    endGame_eq_of_running "finished" s h
  have hacc : computeAccuracy s1 = computeAccuracy s := computeAccuracy_congr s1 s ho hc hs hm
  have hload : ∀ k, loadRecord k s1 = loadRecord k s := by
    intro k
    unfold loadRecord
    rw [hst]
  rw [heq, if_pos rfl, hacc, hp, hc, hmode, hload]
  by_cases hb : isBetterScore ⟨s.points, computeAccuracy s, s.hitsCenter⟩
      (loadRecord (if s.currentMode = .timed then LS_KEY_TIMED else LS_KEY_TRACKING) s) = true
  · rw [if_pos hb, if_pos hb]
    exact ⟨hr, rfl, ht, by simp only [updateHUD, showOverlay, saveRecord, hst]⟩
  · rw [if_neg hb, if_neg hb]
    exact ⟨hr, rfl, ht, hst⟩

/-- C8: in a running state, a tick at which `now - startTimeMs ≥ 60000` ends the
run as finished (the "Time!" card, `running = false`, pool cleared).  Afterwards
the store entry under the key of the current mode is the run's record (points,
`computeAccuracy()`, hitsCenter) when `isBetterScore` accepts it against what
`loadRecord` returned, which it always does when nothing is stored, and is the
previous entry otherwise; every other entry of the store, in particular the one
under the other mode's key, is unchanged. -/
theorem tick_time_up_saves_only_better (s : State) (nowMs width height : ℚ)
    (hrun : s.running = true) (htime : nowMs - s.startTimeMs ≥ 60000) :
    (tick nowMs width height s).running = false ∧
    (tick nowMs width height s).overlay = .timeUp ∧
    (tick nowMs width height s).targets = [] ∧
    (isBetterScore ⟨s.points, computeAccuracy s, s.hitsCenter⟩
        (loadRecord (if s.currentMode = .timed then LS_KEY_TIMED else LS_KEY_TRACKING) s) = true →
      (tick nowMs width height s).store
          (if s.currentMode = .timed then LS_KEY_TIMED else LS_KEY_TRACKING) =
        .record ⟨s.points, computeAccuracy s, s.hitsCenter⟩) ∧
    (s.store (if s.currentMode = .timed then LS_KEY_TIMED else LS_KEY_TRACKING) = .missing →
      (tick nowMs width height s).store
          (if s.currentMode = .timed then LS_KEY_TIMED else LS_KEY_TRACKING) =
        .record ⟨s.points, computeAccuracy s, s.hitsCenter⟩) ∧
    (isBetterScore ⟨s.points, computeAccuracy s, s.hitsCenter⟩
        (loadRecord (if s.currentMode = .timed then LS_KEY_TIMED else LS_KEY_TRACKING) s) = false →
      (tick nowMs width height s).store
          (if s.currentMode = .timed then LS_KEY_TIMED else LS_KEY_TRACKING) =
        s.store (if s.currentMode = .timed then LS_KEY_TIMED else LS_KEY_TRACKING)) ∧
    (tick nowMs width height s).store
        (if s.currentMode = .timed then LS_KEY_TRACKING else LS_KEY_TIMED) =
      s.store (if s.currentMode = .timed then LS_KEY_TRACKING else LS_KEY_TIMED) ∧
    (∀ k, k ≠ (if s.currentMode = .timed then LS_KEY_TIMED else LS_KEY_TRACKING) →
      (tick nowMs width height s).store k = s.store k) := by
  have htick : tick nowMs width height s = endGame "finished" (updateHUD 0 s) := by
    unfold tick
    have hle : GAME_MS - (nowMs - s.startTimeMs) ≤ 0 := by
      unfold GAME_MS
      linarith
    simp only [hrun, Bool.not_true, Bool.false_eq_true, if_false, hle, if_true]
  obtain ⟨h1, h2, h3, h4⟩ := endGame_finished (updateHUD 0 s) hrun
  have h4' : (tick nowMs width height s).store =
      if isBetterScore ⟨s.points, computeAccuracy s, s.hitsCenter⟩
          (loadRecord (if s.currentMode = .timed then LS_KEY_TIMED else LS_KEY_TRACKING) s)
      then Function.update s.store
        (if s.currentMode = .timed then LS_KEY_TIMED else LS_KEY_TRACKING)
        (.record ⟨s.points, computeAccuracy s, s.hitsCenter⟩)
      else s.store := by
    rw [htick, h4]
    rfl
  rw [← htick] at h1 h2 h3
  have hother : ∀ k, k ≠ (if s.currentMode = .timed then LS_KEY_TIMED else LS_KEY_TRACKING) →
      (tick nowMs width height s).store k = s.store k := by
    intro k hk
    rw [h4']
    by_cases hb : isBetterScore ⟨s.points, computeAccuracy s, s.hitsCenter⟩
        (loadRecord (if s.currentMode = .timed then LS_KEY_TIMED else LS_KEY_TRACKING) s) = true
    · rw [if_pos hb]
      exact Function.update_noteq hk _ _
    · rw [if_neg hb]
  refine ⟨h1, h2, h3, ?_, ?_, ?_, ?_, hother⟩
  · intro hb
    rw [h4', hb, if_pos rfl, Function.update_same]
  · intro hm
    have hb : isBetterScore ⟨s.points, computeAccuracy s, s.hitsCenter⟩
        (loadRecord (if s.currentMode = .timed then LS_KEY_TIMED else LS_KEY_TRACKING) s) = true := by
      simp [loadRecord, hm, isBetterScore]
    rw [h4', hb, if_pos rfl, Function.update_same]
  · intro hb
    rw [h4', hb]
    rfl
  · apply hother
    split
    · exact keys_ne.symm
    · exact keys_ne

/-! ## Expiry in Timed mode -/

/-- An overwhelm inside `endGame`. -/
theorem endGame_overwhelmedFrom (s : State) (h : s.running = true) :
    OverwhelmedFrom s (endGame "overwhelmed" s) := by
  obtain ⟨h1, h2, h3, h4, h5, -, -, -⟩ := endGame_frame "overwhelmed" s
  obtain ⟨r1, r2, -, -⟩ := endGame_of_running "overwhelmed" s h
  exact ⟨r1, endGame_overlay_overwhelmed s h, r2,
    endGame_store_of_ne_finished _ s (by decide), h1, h2, h3, h4, h5⟩

theorem updateTargetsTimedLoop_spec (nowMs : ℚ) (pre : List Target) :
    ∀ (suf : List Target) (s : State), s.targets = pre ++ suf → s.running = true →
      s.expiredMisses < EXPIRED_LIMIT →
      (s.expiredMisses + (pre.filter fun t => t.expired nowMs).length < EXPIRED_LIMIT →
        updateTargetsTimedLoop nowMs pre.length s =
          { s with
            expiredMisses := s.expiredMisses + (pre.filter fun t => t.expired nowMs).length
            targets := (pre.filter fun t => !t.expired nowMs) ++ suf }) ∧
      (EXPIRED_LIMIT ≤ s.expiredMisses + (pre.filter fun t => t.expired nowMs).length →
        ∃ ts, updateTargetsTimedLoop nowMs pre.length s =
          endGame "overwhelmed" { s with expiredMisses := EXPIRED_LIMIT, targets := ts }) := by
  induction pre using List.reverseRecOn with
  | nil =>
    intro suf s hs hrun he
    constructor
    · intro _
      simp only [List.filter_nil, List.length_nil, Nat.add_zero, List.nil_append,
        updateTargetsTimedLoop]
      rw [← List.nil_append suf, ← hs]
    · intro h
      simp at h
      omega
  | append_singleton pre t ih =>
    intro suf s hs hrun he
    have hlen : (pre ++ [t]).length = pre.length + 1 := by simp
    have hget : s.targets[pre.length]? = some t := by
      rw [hs, List.append_assoc, List.getElem?_append_right (le_refl _)]
      simp
    have herase : s.targets.eraseIdx pre.length = pre ++ suf := by
      rw [hs, List.append_assoc, List.eraseIdx_append_of_length_le (le_refl _)]
      simp
    rw [hlen]
    unfold updateTargetsTimedLoop
    simp only [hget]
    by_cases hexp : t.expired nowMs = true
    · have hcount : ((pre ++ [t]).filter fun t => t.expired nowMs).length =
          (pre.filter fun t => t.expired nowMs).length + 1 := by
        simp [List.filter_append, hexp]
      have hkeep : ((pre ++ [t]).filter fun t => !t.expired nowMs) =
          pre.filter fun t => !t.expired nowMs := by
        simp [List.filter_append, hexp]
      simp only [hexp, if_true, herase, hcount, hkeep]
      by_cases hlim : s.expiredMisses + 1 ≥ EXPIRED_LIMIT
      · simp only [hlim, if_true]
        constructor
        · intro h
          omega
        · intro _
          have h5 : s.expiredMisses + 1 = EXPIRED_LIMIT := by omega
          exact ⟨pre ++ suf, by rw [h5]⟩
      · simp only [hlim, if_false]
        have hlt : s.expiredMisses + 1 < EXPIRED_LIMIT := by omega
        obtain ⟨ih1, ih2⟩ := ih suf
          { s with expiredMisses := s.expiredMisses + 1, targets := pre ++ suf } rfl hrun hlt
        constructor
        · intro h
          rw [ih1 (by show s.expiredMisses + 1 + _ < _; omega)]
          simp only [State.mk.injEq, true_and, and_true]
          omega
        · intro h
          obtain ⟨ts, hts⟩ := ih2 (by show _ ≤ s.expiredMisses + 1 + _; omega)
          exact ⟨ts, hts⟩
    · have hcount : ((pre ++ [t]).filter fun t => t.expired nowMs).length =
          (pre.filter fun t => t.expired nowMs).length := by
        simp [List.filter_append, hexp]
      have hkeep : ((pre ++ [t]).filter fun t => !t.expired nowMs) =
          (pre.filter fun t => !t.expired nowMs) ++ [t] := by
        simp [List.filter_append, hexp]
      simp only [hexp, if_false, hcount, hkeep, Bool.false_eq_true]
      obtain ⟨ih1, ih2⟩ := ih (t :: suf) s (by rw [hs]; simp) hrun he
      constructor
      · intro h
        rw [ih1 h]
        simp
      · exact ih2

/-- The function `updateTargetsTimed` on a running state with fewer than five
expirations: either all expired targets go and are counted, or the run ends with
the counter at the limit. -/
theorem updateTargetsTimed_spec (nowMs : ℚ) (s : State) (hrun : s.running = true)
    (he : s.expiredMisses < EXPIRED_LIMIT) :
    (s.expiredMisses + s.expiredCount nowMs < EXPIRED_LIMIT →
      updateTargetsTimed nowMs s =
        { s with
          expiredMisses := s.expiredMisses + s.expiredCount nowMs
          targets := s.targets.filter fun t => !t.expired nowMs }) ∧
    (EXPIRED_LIMIT ≤ s.expiredMisses + s.expiredCount nowMs →
      ∃ ts, updateTargetsTimed nowMs s =
        endGame "overwhelmed" { s with expiredMisses := EXPIRED_LIMIT, targets := ts }) := by
  obtain ⟨h1, h2⟩ := updateTargetsTimedLoop_spec nowMs s.targets [] s (by simp) hrun he
  unfold updateTargetsTimed State.expiredCount
  constructor
  · intro h
    rw [h1 h]
    simp
  · exact h2

/-! ## Frame of a press -/

theorem modifyFirst_length (id : Nat) (f : Target → Target) (l : List Target) :
    (modifyFirst id f l).length = l.length := by
  induction l with
  | nil => rfl
  | cons a l ih =>
    unfold modifyFirst
    split <;> simp [ih]

/-- What a press on a target leaves alone, and the pool does not grow. -/
theorem targetPointerDown_frame (id : Nat) (dx dy width now : ℚ) (s : State) :
    (targetPointerDown id dx dy width now s).running = s.running ∧
    (targetPointerDown id dx dy width now s).currentMode = s.currentMode ∧
    (targetPointerDown id dx dy width now s).expiredMisses = s.expiredMisses ∧
    (targetPointerDown id dx dy width now s).clickMisses = s.clickMisses ∧
    (targetPointerDown id dx dy width now s).pendingTimers = s.pendingTimers ∧
    (targetPointerDown id dx dy width now s).spawnTimeoutId = s.spawnTimeoutId ∧
    (targetPointerDown id dx dy width now s).startBtnDisabled = s.startBtnDisabled ∧
    (targetPointerDown id dx dy width now s).nextHandle = s.nextHandle ∧
    (targetPointerDown id dx dy width now s).store = s.store ∧
    (targetPointerDown id dx dy width now s).targets.length ≤ s.targets.length := by
  unfold targetPointerDown
  by_cases hr : s.running = true
  · simp only [hr, Bool.not_true, Bool.false_eq_true, if_false]
    by_cases hm : s.currentMode = .timed
    · simp only [hm, if_true, removeTargetById_eq, updateHUD]
      refine ⟨?_, ?_, ?_, ?_, ?_, ?_, ?_, ?_, ?_, ?_⟩ <;> split <;>
        first | rfl | exact hr | exact hr.symm | exact hm.symm | exact List.length_eraseP_le _
    · simp only [hm, if_false]
      split
      · exact ⟨hr, rfl, rfl, rfl, rfl, rfl, rfl, rfl, rfl, le_refl _⟩
      · rename_i t _
        simp only [removeTargetById_eq, updateHUD]
        refine ⟨?_, ?_, ?_, ?_, ?_, ?_, ?_, ?_, ?_, ?_⟩ <;> split_ifs <;>
          first
          | rfl
          | exact hr
          | exact hr.symm
          | (simp only [modifyFirst_length]; exact le_refl _)
          | (exact le_trans (List.length_eraseP_le _) (le_of_eq (modifyFirst_length _ _ _)))
      · simp only [updateHUD]
        refine ⟨?_, ?_, ?_, ?_, ?_, ?_, ?_, ?_, ?_, ?_⟩ <;> split_ifs <;> rfl
  · simp [hr]

/-! ## What holds between two callbacks -/

theorem Inv.of_frame {s r : State} (hi : Inv s) (h1 : r.running = s.running)
    (h2 : r.currentMode = s.currentMode) (h3 : r.expiredMisses = s.expiredMisses)
    (h4 : r.pendingTimers = s.pendingTimers) (h5 : r.spawnTimeoutId = s.spawnTimeoutId)
    (h6 : r.startBtnDisabled = s.startBtnDisabled) (h7 : r.nextHandle ≠ 0)
    (h8 : r.targets.length ≤ s.targets.length) : Inv r where
  startDisabled := by rw [h1, h6]; exact hi.startDisabled
  expiredLt := by rw [h1, h3]; exact hi.expiredLt
  expiredLe := by rw [h3]; exact hi.expiredLe
  trackingPool := by
    rw [h1, h2]
    exact fun a b => le_trans h8 (hi.trackingPool a b)
  timers := by rw [h1, h2, h4, h5]; exact hi.timers
  handle := h7

theorem endGame_pendingTimers (reason : String) (s : State) (h : s.running = true) :
    (endGame reason s).pendingTimers =
      if truthy s.spawnTimeoutId then
        s.pendingTimers.filter fun tm => some tm.id != s.spawnTimeoutId
      else s.pendingTimers := by
  unfold endGame
  simp only [h, Bool.not_true, Bool.false_eq_true, if_false]
  split_ifs <;> simp [updateHUD, showOverlay, saveRecord, clearAllTargets, clearTimeout,
    cancelAnimationFrame]

/-- After `endGame` no timeout is pending, provided every pending timeout was the
one in `spawnTimeoutId`. -/
theorem endGame_pendingTimers_nil (reason : String) (s : State) (h : s.running = true)
    (ht : ∀ tm ∈ s.pendingTimers, s.spawnTimeoutId = some tm.id ∧ tm.id ≠ 0) :
    (endGame reason s).pendingTimers = [] := by
  rw [endGame_pendingTimers reason s h]
  split
  · rw [List.filter_eq_nil_iff]
    intro tm htm
    simp [(ht tm htm).1]
  · rename_i hn
    cases hp : s.pendingTimers with
    | nil => rfl
    | cons tm l =>
      exfalso
      apply hn
      obtain ⟨h1, h2⟩ := ht tm (by rw [hp]; exact List.mem_cons_self _ _)
      rw [h1]
      simpa [truthy] using h2

theorem inv_endGame (reason : String) (s : State) (h : s.running = true)
    (ht : ∀ tm ∈ s.pendingTimers, s.spawnTimeoutId = some tm.id ∧ tm.id ≠ 0)
    (he : s.expiredMisses ≤ EXPIRED_LIMIT) (hh : s.nextHandle ≠ 0) :
    Inv (endGame reason s) := by
  obtain ⟨r1, -, -, -⟩ := endGame_of_running reason s h
  obtain ⟨-, -, -, -, -, f6, -, f8⟩ := endGame_frame reason s
  have hp := endGame_pendingTimers_nil reason s h ht
  refine ⟨?_, ?_, ?_, ?_, ?_, ?_⟩
  · rw [r1]; intro hc; cases hc
  · rw [r1]; intro hc; cases hc
  · rw [f6]; exact he
  · rw [r1]; intro hc; cases hc
  · rw [hp]; intro tm htm; cases htm
  · rw [f8]; exact hh

theorem inv_endGame_of_inv (reason : String) (s : State) (hi : Inv s) :
    Inv (endGame reason s) ∧ (endGame reason s).pendingTimers = [] ∧
      (endGame reason s).running = false := by
  by_cases h : s.running = true
  · have ht : ∀ tm ∈ s.pendingTimers, s.spawnTimeoutId = some tm.id ∧ tm.id ≠ 0 :=
      fun tm htm => (hi.timers tm htm).2.2
    exact ⟨inv_endGame reason s h ht hi.expiredLe hi.handle,
      endGame_pendingTimers_nil reason s h ht, (endGame_of_running reason s h).1⟩
  · have h' : s.running = false := by simpa using h
    rw [endGame_of_not_running reason s h']
    refine ⟨hi, ?_, h'⟩
    cases hp : s.pendingTimers with
    | nil => rfl
    | cons tm l =>
      exfalso
      exact h (hi.timers tm (by rw [hp]; exact List.mem_cons_self _ _)).1

theorem inv_startGame (m : Bool) (d now : ℚ) (s : State) (hp : s.pendingTimers = [])
    (hh : s.nextHandle ≠ 0) : Inv (startGame m d now s) := by
  cases m <;>
    simp only [startGame, applyDifficultyFromUI, resetStats, clearAllTargets, hideOverlay,
      scheduleNextSpawnTimed, scheduleNextSpawnTracking, setTimeout, requestAnimationFrame,
      Bool.not_true, Bool.false_eq_true, if_false, if_true, reduceCtorEq, hp,
      List.nil_append] <;>
    refine ⟨fun _ => rfl, fun _ => by simp [EXPIRED_LIMIT], by simp,
      fun _ _ => by simp, ?_, by simp⟩ <;>
    · intro tm htm
      rw [List.mem_singleton] at htm
      subst htm
      exact ⟨rfl, rfl, rfl, hh⟩

/-- The end of `tick`: the readout, then the next animation frame. -/
theorem inv_hud_raf (t : ℚ) (s : State) (hi : Inv s) :
    Inv { (requestAnimationFrame (updateHUD t s)).2 with
      rafId := some (requestAnimationFrame (updateHUD t s)).1 } :=
  hi.of_frame rfl rfl rfl rfl rfl rfl (Nat.succ_ne_zero _) (le_refl _)

theorem tick_of_not_running (nowMs width height : ℚ) (s : State) (hr : s.running = false) :
    tick nowMs width height s = s := by
  unfold tick
  rw [if_pos (by rw [hr]; rfl)]

theorem tick_of_time_up (nowMs width height : ℚ) (s : State) (hr : s.running = true)
    (hle : GAME_MS - (nowMs - s.startTimeMs) ≤ 0) :
    tick nowMs width height s = endGame "finished" (updateHUD 0 s) := by
  unfold tick
  dsimp only
  rw [if_neg (by rw [hr]; decide), if_pos hle]

/-- The function `tick` while the run goes on: the update step of the mode, the
readout, the next animation frame. -/
theorem tick_of_time_left (nowMs width height : ℚ) (s : State) (hr : s.running = true)
    (hle : ¬ GAME_MS - (nowMs - s.startTimeMs) ≤ 0) :
    tick nowMs width height s =
      { (requestAnimationFrame (updateHUD (GAME_MS - (nowMs - s.startTimeMs))
          (if s.currentMode = .timed then updateTargetsTimed nowMs { s with lastTickMs := nowMs }
            else updateTargetsTracking ((nowMs - s.lastTickMs) / 1000) width height
              { s with lastTickMs := nowMs }))).2 with
        rafId := some (requestAnimationFrame (updateHUD (GAME_MS - (nowMs - s.startTimeMs))
          (if s.currentMode = .timed then updateTargetsTimed nowMs { s with lastTickMs := nowMs }
            else updateTargetsTracking ((nowMs - s.lastTickMs) / 1000) width height
              { s with lastTickMs := nowMs }))).1 } := by
  unfold tick
  dsimp only
  rw [if_neg (by rw [hr]; decide), if_neg hle]

theorem inv_tick (nowMs width height : ℚ) (s : State) (hi : Inv s) :
    Inv (tick nowMs width height s) := by
  by_cases hr : s.running = true
  · by_cases hle : GAME_MS - (nowMs - s.startTimeMs) ≤ 0
    · rw [tick_of_time_up nowMs width height s hr hle]
      exact (inv_endGame_of_inv "finished" (updateHUD 0 s)
        (hi.of_frame rfl rfl rfl rfl rfl rfl hi.handle (le_refl _))).1
    · rw [tick_of_time_left nowMs width height s hr hle]
      have hi' : Inv { s with lastTickMs := nowMs } :=
        hi.of_frame rfl rfl rfl rfl rfl rfl hi.handle (le_refl _)
      apply inv_hud_raf
      by_cases hm : s.currentMode = .timed
      · rw [if_pos hm]
        obtain ⟨h1, h2⟩ := updateTargetsTimed_spec nowMs { s with lastTickMs := nowMs } hr
          (hi.expiredLt hr)
        by_cases hlt : s.expiredMisses + State.expiredCount { s with lastTickMs := nowMs } nowMs
            < EXPIRED_LIMIT
        · rw [h1 hlt]
          refine ⟨hi.startDisabled, fun _ => hlt, le_of_lt hlt, ?_, hi.timers, hi.handle⟩
          intro _ hc
          rw [show s.currentMode = .timed from hm] at hc
          cases hc
        · obtain ⟨ts, hts⟩ := h2 (not_lt.1 hlt)
          rw [hts]
          exact inv_endGame _ _ hr (fun tm htm => (hi.timers tm htm).2.2) (le_refl _) hi.handle
      · rw [if_neg hm]
        exact hi'.of_frame rfl rfl rfl rfl rfl rfl hi.handle
          (by simp [updateTargetsTracking])
  · rw [tick_of_not_running nowMs width height s (by simpa using hr)]
    exact hi

theorem inv_scheduleNextSpawnTimed (now : ℚ) (s : State) (hi : Inv s)
    (hp : s.pendingTimers = []) (hm : s.running = true → s.currentMode = .timed) :
    Inv (scheduleNextSpawnTimed now s) := by
  unfold scheduleNextSpawnTimed
  by_cases hr : s.running = true
  · rw [if_neg (by rw [hr]; decide)]
    refine ⟨hi.startDisabled, hi.expiredLt, hi.expiredLe, hi.trackingPool, ?_,
      Nat.succ_ne_zero _⟩
    intro tm htm
    simp only [setTimeout, hp, List.nil_append, List.mem_singleton] at htm
    subst htm
    exact ⟨hr, (hm hr).symm, rfl, hi.handle⟩
  · rw [if_pos (by simpa using hr)]
    exact hi

theorem inv_scheduleNextSpawnTracking (now : ℚ) (s : State) (hi : Inv s)
    (hp : s.pendingTimers = []) (hm : s.running = true → s.currentMode = .tracking) :
    Inv (scheduleNextSpawnTracking now s) := by
  unfold scheduleNextSpawnTracking
  by_cases hr : s.running = true
  · rw [if_neg (by rw [hr]; decide)]
    refine ⟨hi.startDisabled, hi.expiredLt, hi.expiredLe, hi.trackingPool, ?_,
      Nat.succ_ne_zero _⟩
    intro tm htm
    simp only [setTimeout, hp, List.nil_append, List.mem_singleton] at htm
    subst htm
    exact ⟨hr, (hm hr).symm, rfl, hi.handle⟩
  · rw [if_pos (by simpa using hr)]
    exact hi

/-- The function `spawnTargetTracking` on a running state: one more target, or, when
that makes more than five, the end of the run. -/
theorem spawnTargetTracking_of_running (inp : SpawnInput) (s : State) (hr : s.running = true) :
    (s.targets.length + 1 ≤ TRACKING_OVERWHELM_LIMIT →
      spawnTargetTracking inp s =
        { s with targets := s.targets ++ [.tracking (newTrackingTarget inp)] }) ∧
    (TRACKING_OVERWHELM_LIMIT < s.targets.length + 1 →
      spawnTargetTracking inp s = endGame "overwhelmed"
        { s with targets := s.targets ++ [.tracking (newTrackingTarget inp)] }) := by
  unfold spawnTargetTracking
  dsimp only
  rw [if_neg (by rw [hr]; decide)]
  constructor
  · intro h
    rw [if_neg (by rw [List.length_append]; simpa using h)]
  · intro h
    rw [if_pos (by rw [List.length_append]; simpa using h)]

theorem inv_spawnTargetTracking (inp : SpawnInput) (s : State) (hi : Inv s)
    (hp : s.pendingTimers = []) :
    Inv (spawnTargetTracking inp s) ∧ (spawnTargetTracking inp s).pendingTimers = [] ∧
      ((spawnTargetTracking inp s).running = true →
        (spawnTargetTracking inp s).currentMode = s.currentMode) := by
  by_cases hr : s.running = true
  · obtain ⟨h1, h2⟩ := spawnTargetTracking_of_running inp s hr
    by_cases hl : s.targets.length + 1 ≤ TRACKING_OVERWHELM_LIMIT
    · rw [h1 hl]
      refine ⟨⟨hi.startDisabled, hi.expiredLt, hi.expiredLe, ?_, hi.timers, hi.handle⟩, hp,
        fun _ => rfl⟩
      intro _ _
      rw [List.length_append]
      exact hl
    · rw [h2 (not_le.1 hl)]
      have ht : ∀ tm ∈ ({ s with targets := s.targets ++
          [.tracking (newTrackingTarget inp)] } : State).pendingTimers,
          s.spawnTimeoutId = some tm.id ∧ tm.id ≠ 0 := by
        intro tm htm
        rw [show ({ s with targets := s.targets ++
          [.tracking (newTrackingTarget inp)] } : State).pendingTimers = [] from hp] at htm
        cases htm
      refine ⟨inv_endGame _ _ hr ht hi.expiredLe hi.handle,
        endGame_pendingTimers_nil _ _ hr ht, ?_⟩
      intro h
      have hf := (endGame_of_running "overwhelmed"
        { s with targets := s.targets ++ [.tracking (newTrackingTarget inp)] } hr).1
      rw [hf] at h
      cases h
  · have hr' : s.running = false := by simpa using hr
    have : spawnTargetTracking inp s = s := by
      unfold spawnTargetTracking
      rw [if_pos (by rw [hr']; rfl)]
    rw [this]
    exact ⟨hi, hp, fun h => absurd h hr⟩

theorem inv_spawnTargetTimed (inp : SpawnInput) (s : State) (hi : Inv s)
    (hm : s.running = true → s.currentMode = .timed) :
    Inv (spawnTargetTimed inp s) := by
  unfold spawnTargetTimed
  by_cases hr : s.running = true
  · rw [if_neg (by rw [hr]; decide)]
    refine ⟨hi.startDisabled, hi.expiredLt, hi.expiredLe, ?_, hi.timers, hi.handle⟩
    intro _ hc
    rw [show s.currentMode = .timed from hm hr] at hc
    cases hc
  · rw [if_pos (by simpa using hr)]
    exact hi

theorem inv_runTimeout (handle : Nat) (inp : SpawnInput) (s : State) (hi : Inv s) :
    Inv (runTimeout handle inp s) := by
  unfold runTimeout
  split
  · exact hi
  · rename_i tm hfind
    have hmem : tm ∈ s.pendingTimers := List.mem_of_find?_eq_some hfind
    have hid : tm.id = handle := by
      have := List.find?_some hfind
      simpa using this
    obtain ⟨hr, hk, hsp, -⟩ := hi.timers tm hmem
    have hnil : (s.pendingTimers.filter fun x => x.id != handle) = [] := by
      rw [List.filter_eq_nil_iff]
      intro x hx
      have hx' := (hi.timers x hx).2.2.1
      rw [hsp] at hx'
      have : x.id = handle := by
        rw [← hid]
        exact (Option.some.inj hx').symm
      simp [this]
    rw [hnil]
    have hi0 : Inv { s with pendingTimers := [] } :=
      ⟨hi.startDisabled, hi.expiredLt, hi.expiredLe, hi.trackingPool,
        fun tm htm => absurd htm (List.not_mem_nil tm), hi.handle⟩
    unfold spawnCallback
    cases hkind : tm.kind with
    | timed =>
      have hmode : s.currentMode = .timed := by rw [← hk, hkind]
      have hi1 := inv_spawnTargetTimed inp { s with pendingTimers := [] } hi0 (fun _ => hmode)
      apply inv_scheduleNextSpawnTimed _ _ hi1
      · unfold spawnTargetTimed
        split <;> rfl
      · intro _
        unfold spawnTargetTimed
        split <;> exact hmode
    | tracking =>
      have hmode : s.currentMode = .tracking := by rw [← hk, hkind]
      obtain ⟨hi1, hp1, hm1⟩ :=
        inv_spawnTargetTracking inp { s with pendingTimers := [] } hi0 rfl
      exact inv_scheduleNextSpawnTracking _ _ hi1 hp1 (fun h => (hm1 h).trans hmode)

theorem inv_boot (store : String → Stored) (diff : ℚ) (a b : Bool) :
    Inv (boot store diff a b) where
  startDisabled := fun h => by cases h
  expiredLt := fun h => by cases h
  expiredLe := Nat.zero_le _
  trackingPool := fun h => by cases h
  timers := fun tm htm => absurd htm (List.not_mem_nil tm)
  handle := Nat.succ_ne_zero 0

theorem pendingTimers_nil_of_not_running {s : State} (hi : Inv s) (hr : ¬ s.running = true) :
    s.pendingTimers = [] := by
  cases hp : s.pendingTimers with
  | nil => rfl
  | cons tm l =>
    exfalso
    exact hr (hi.timers tm (by rw [hp]; exact List.mem_cons_self _ _)).1

theorem inv_restartClick (m : Bool) (d now : ℚ) (s : State) (hi : Inv s) :
    Inv (restartClick m d now s) := by
  unfold restartClick
  by_cases hr : s.running = true
  · rw [if_pos hr]
    obtain ⟨h1, h2, -⟩ := inv_endGame_of_inv "restart" s hi
    exact inv_startGame m d now _ h2 h1.handle
  · rw [if_neg hr]
    exact inv_startGame m d now s (pendingTimers_nil_of_not_running hi hr) hi.handle

theorem inv_stagePointerDown (now : ℚ) (s : State) (hi : Inv s) :
    Inv (stagePointerDown now s) := by
  unfold stagePointerDown
  split
  · exact hi
  · exact hi.of_frame rfl rfl rfl rfl rfl rfl hi.handle (le_refl _)

theorem inv_syncControls (s : State) (hi : Inv s) : Inv (syncControls s) := by
  unfold syncControls
  split
  · exact hi.of_frame rfl rfl rfl rfl rfl rfl hi.handle (le_refl _)
  · exact hi

/-- Every state between two callbacks satisfies `Inv`. -/
theorem reachable_inv {s : State} (h : Reachable s) : Inv s := by
  induction h with
  | boot store diff a b => exact inv_boot store diff a b
  | @step s0 e _ hen ih =>
    cases e with
    | startClick m d now =>
      have hnr : ¬ s0.running = true := by
        intro hr
        have hd := ih.startDisabled hr
        rw [show s0.startBtnDisabled = false from hen] at hd
        cases hd
      exact inv_startGame m d now s0 (pendingTimers_nil_of_not_running ih hnr) ih.handle
    | restartClick m d now => exact inv_restartClick m d now s0 ih
    | animationFrame h now w hgt =>
      exact inv_tick _ _ _ _ (ih.of_frame rfl rfl rfl rfl rfl rfl ih.handle (le_refl _))
    | timeout h inp => exact inv_runTimeout _ _ _ ih
    | targetPress id dx dy w now =>
      obtain ⟨h1, h2, h3, -, h5, h6, h7, h8, -, h10⟩ := targetPointerDown_frame id dx dy w now s0
      exact ih.of_frame h1 h2 h3 h5 h6 h7 (h8 ▸ ih.handle) h10
    | stagePress now => exact inv_stagePointerDown now s0 ih
    | sliderInput d =>
      exact ih.of_frame rfl rfl rfl rfl rfl rfl ih.handle (le_refl _)
    | modeChange => exact inv_syncControls s0 ih

/-! ## Overwhelm in the two modes -/

/-- The effect of `updateTargetsTimed` when the run survives. -/
theorem updateTargetsTimed_survive (nowMs : ℚ) (s : State) (hrun : s.running = true)
    (he : s.expiredMisses < EXPIRED_LIMIT)
    (hk : s.expiredMisses + s.expiredCount nowMs < EXPIRED_LIMIT) :
    (updateTargetsTimed nowMs s).running = true ∧
    (updateTargetsTimed nowMs s).expiredMisses = s.expiredMisses + s.expiredCount nowMs ∧
    (updateTargetsTimed nowMs s).targets = (s.targets.filter fun t => !t.expired nowMs) ∧
    (updateTargetsTimed nowMs s).overlay = s.overlay ∧
    (updateTargetsTimed nowMs s).store = s.store := by
  rw [(updateTargetsTimed_spec nowMs s hrun he).1 hk]
  exact ⟨hrun, rfl, rfl, rfl, rfl⟩

/-- The effect of `updateTargetsTimed` when the limit is reached. -/
theorem updateTargetsTimed_overwhelm (nowMs : ℚ) (s : State) (hrun : s.running = true)
    (he : s.expiredMisses < EXPIRED_LIMIT)
    (hk : EXPIRED_LIMIT ≤ s.expiredMisses + s.expiredCount nowMs) :
    OverwhelmedFrom s (updateTargetsTimed nowMs s) ∧
    (updateTargetsTimed nowMs s).expiredMisses = EXPIRED_LIMIT := by
  obtain ⟨ts, hts⟩ := (updateTargetsTimed_spec nowMs s hrun he).2 hk
  rw [hts]
  have hr := endGame_overwhelmedFrom
    { s with expiredMisses := EXPIRED_LIMIT, targets := ts } hrun
  have hf := endGame_frame "overwhelmed" { s with expiredMisses := EXPIRED_LIMIT, targets := ts }
  exact ⟨⟨hr.running, hr.overlay, hr.targets, hr.store, hr.points, hr.hitsOuter,
    hr.hitsCenter, hr.hitsShield, hr.clickMisses⟩, hf.2.2.2.2.2.1⟩

/-- C4: in a running Timed state with `expiredMisses = e < 5`, at a tick time `now`
with less than 60 s elapsed at which `k` live targets have `now ≥ expiresAtMs`:
when `e + k < 5`, `updateTargetsTimed` (and the tick around it) leaves the run
running with `expiredMisses = e + k`, removes exactly the `k` expired targets and
keeps the others in order; when `e + k ≥ 5` the run ends on the "GAME OVER" card
with the pool cleared and `expiredMisses` exactly 5, the store untouched.  So a
fourth expiration leaves the run running and a fifth ends it.  In every reachable
state `expiredMisses ≤ 5`, and `expiredMisses < 5` while the run is on. -/
theorem timed_expiry_overwhelms_at_five (s : State) (nowMs : ℚ)
    (hrun : s.running = true) (hmode : s.currentMode = .timed)
    (he : s.expiredMisses < 5) (hnow : nowMs - s.startTimeMs < 60000) :
    (s.expiredMisses + s.expiredCount nowMs < 5 →
      (updateTargetsTimed nowMs s).running = true ∧
      (updateTargetsTimed nowMs s).expiredMisses = s.expiredMisses + s.expiredCount nowMs ∧
      (updateTargetsTimed nowMs s).targets = (s.targets.filter fun t => !t.expired nowMs) ∧
      (∀ u, u ∈ (updateTargetsTimed nowMs s).targets ↔ u ∈ s.targets ∧ u.expired nowMs = false) ∧
      (updateTargetsTimed nowMs s).targets.length + s.expiredCount nowMs = s.targets.length ∧
      ∀ width height : ℚ,
        (tick nowMs width height s).running = true ∧
        (tick nowMs width height s).expiredMisses = s.expiredMisses + s.expiredCount nowMs ∧
        (tick nowMs width height s).targets = (s.targets.filter fun t => !t.expired nowMs)) ∧
    (5 ≤ s.expiredMisses + s.expiredCount nowMs →
      (updateTargetsTimed nowMs s).running = false ∧
      (updateTargetsTimed nowMs s).overlay = .gameOver ∧
      (updateTargetsTimed nowMs s).expiredMisses = 5 ∧
      (updateTargetsTimed nowMs s).targets = [] ∧
      (updateTargetsTimed nowMs s).store = s.store ∧
      ∀ width height : ℚ,
        (tick nowMs width height s).running = false ∧
        (tick nowMs width height s).overlay = .gameOver ∧
        (tick nowMs width height s).expiredMisses = 5 ∧
        (tick nowMs width height s).targets = [] ∧
        (tick nowMs width height s).store = s.store) ∧
    (∀ r : State, Reachable r →
      r.expiredMisses ≤ 5 ∧ (r.running = true → r.expiredMisses < 5)) := by
  have hle : ¬ GAME_MS - (nowMs - s.startTimeMs) ≤ 0 := by
    unfold GAME_MS
    linarith
  have htick : ∀ width height : ℚ,
      (tick nowMs width height s).running =
        (updateTargetsTimed nowMs { s with lastTickMs := nowMs }).running ∧
      (tick nowMs width height s).expiredMisses =
        (updateTargetsTimed nowMs { s with lastTickMs := nowMs }).expiredMisses ∧
      (tick nowMs width height s).targets =
        (updateTargetsTimed nowMs { s with lastTickMs := nowMs }).targets ∧
      (tick nowMs width height s).overlay =
        (updateTargetsTimed nowMs { s with lastTickMs := nowMs }).overlay ∧
      (tick nowMs width height s).store =
        (updateTargetsTimed nowMs { s with lastTickMs := nowMs }).store := by
    intro width height
    rw [tick_of_time_left nowMs width height s hrun hle, if_pos hmode]
    exact ⟨rfl, rfl, rfl, rfl, rfl⟩
  refine ⟨?_, ?_, ?_⟩
  · intro hk
    obtain ⟨a1, a2, a3, -, -⟩ := updateTargetsTimed_survive nowMs s hrun he hk
    obtain ⟨b1, b2, b3, -, -⟩ := updateTargetsTimed_survive nowMs { s with lastTickMs := nowMs }
      hrun he hk
    refine ⟨a1, a2, a3, ?_, ?_, ?_⟩
    · intro u
      rw [a3, List.mem_filter]
      simp
    · rw [a3]
      unfold State.expiredCount
      have := List.length_eq_length_filter_add (l := s.targets) fun t => !t.expired nowMs
      simp only [Bool.not_not] at this
      omega
    · intro width height
      obtain ⟨t1, t2, t3, -, -⟩ := htick width height
      exact ⟨t1.trans b1, t2.trans b2, t3.trans b3⟩
  · intro hk
    obtain ⟨a, a2⟩ := updateTargetsTimed_overwhelm nowMs s hrun he hk
    obtain ⟨b, b2⟩ := updateTargetsTimed_overwhelm nowMs { s with lastTickMs := nowMs }
      hrun he hk
    refine ⟨a.running, a.overlay, a2, a.targets, a.store, ?_⟩
    intro width height
    obtain ⟨t1, t2, t3, t4, t5⟩ := htick width height
    exact ⟨t1.trans b.running, t4.trans b.overlay, t2.trans b2, t3.trans b.targets,
      t5.trans b.store⟩
  · intro r hr
    have hi := reachable_inv hr
    exact ⟨hi.expiredLe, hi.expiredLt⟩

/-- C5: in a running state with `n` live targets (a Tracking run in particular),
`spawnTargetTracking` pushes one target with `hp = 4` and `shieldHp = 2` when
shields are on, `0` when they are off.  If `n + 1 ≤ 5` the run goes on with the
`n + 1` targets.  If `n + 1 > 5` the run ends at once on the "GAME OVER" card:
`running = false`, the pool is cleared, and the store is left as it was under
every key, whatever the points and whatever is stored.  Hence in every reachable
state a running Tracking run has at most 5 live targets. -/
theorem tracking_spawn_overwhelms_above_five (s : State) (inp : SpawnInput)
    (hrun : s.running = true) :
    ((newTrackingTarget inp).hp = 4 ∧
      (newTrackingTarget inp).shieldHp = if inp.shieldOn then 2 else 0) ∧
    (s.targets.length + 1 ≤ 5 →
      (spawnTargetTracking inp s).running = true ∧
      (spawnTargetTracking inp s).targets =
        s.targets ++ [.tracking (newTrackingTarget inp)] ∧
      (spawnTargetTracking inp s).targets.length = s.targets.length + 1 ∧
      (spawnTargetTracking inp s).store = s.store) ∧
    (5 < s.targets.length + 1 →
      (spawnTargetTracking inp s).running = false ∧
      (spawnTargetTracking inp s).overlay = .gameOver ∧
      (spawnTargetTracking inp s).targets = [] ∧
      (spawnTargetTracking inp s).store = s.store ∧
      (spawnTargetTracking inp s).store LS_KEY_TIMED = s.store LS_KEY_TIMED ∧
      (spawnTargetTracking inp s).store LS_KEY_TRACKING = s.store LS_KEY_TRACKING ∧
      (spawnTargetTracking inp s).points = s.points) ∧
    (∀ r : State, Reachable r → r.running = true → r.currentMode = .tracking →
      r.targets.length ≤ 5) := by
  obtain ⟨h1, h2⟩ := spawnTargetTracking_of_running inp s hrun
  refine ⟨⟨rfl, ?_⟩, ?_, ?_, ?_⟩
  · simp only [newTrackingTarget, TRACKING_SHIELD_HP]
  · intro hn
    rw [h1 hn]
    exact ⟨hrun, rfl, by simp, rfl⟩
  · intro hn
    rw [h2 hn]
    have hr := endGame_overwhelmedFrom
      { s with targets := s.targets ++ [.tracking (newTrackingTarget inp)] } hrun
    have hst : (endGame "overwhelmed"
        { s with targets := s.targets ++ [.tracking (newTrackingTarget inp)] }).store =
        s.store := hr.store
    exact ⟨hr.running, hr.overlay, hr.targets, hst, by rw [hst], by rw [hst], hr.points⟩
  · intro r hr
    exact (reachable_inv hr).trackingPool

/-! ## Ids in the pool -/

theorem endGame_targets_nodup (reason : String) (s : State)
    (h : (s.targets.map Target.id).Nodup) :
    ((endGame reason s).targets.map Target.id).Nodup := by
  by_cases hr : s.running = true
  · rw [(endGame_of_running reason s hr).2.1]
    exact List.nodup_nil
  · rw [endGame_of_not_running reason s (by simpa using hr)]
    exact h

theorem targetPointerDown_targets_nodup (id : Nat) (dx dy width now : ℚ) (s : State)
    (h : (s.targets.map Target.id).Nodup) :
    ((targetPointerDown id dx dy width now s).targets.map Target.id).Nodup := by
  have herase : ∀ l : List Target, (l.map Target.id).Nodup →
      ((l.eraseP fun t => t.id == id).map Target.id).Nodup :=
    fun l hl => hl.sublist ((List.eraseP_sublist l).map _)
  unfold targetPointerDown
  by_cases hr : s.running = true
  · rw [if_neg (by rw [hr]; decide)]
    dsimp only
    by_cases hm : s.currentMode = .timed
    · rw [if_pos hm]
      simp only [removeTargetById_eq, updateHUD]
      split <;> exact herase _ h
    · rw [if_neg hm]
      split
      · exact h
      · rename_i t hfind
        have hid : t.id = id := by
          have := List.find?_some hfind
          simpa [Target.id] using this
        have hmod : ∀ t' : TrackingTarget, t'.id = t.id →
            ((modifyFirst id (fun _ => Target.tracking t') s.targets).map Target.id).Nodup := by
          intro t' ht'
          rw [modifyFirst_map_id id (fun _ => Target.tracking t') s.targets
            (fun _ _ => ht'.trans hid)]
          exact h
        simp only [removeTargetById_eq, updateHUD]
        split_ifs <;>
          first
          | exact hmod { t with shieldHp := _ } rfl
          | exact hmod { t with hp := _ } rfl
          | exact herase _ (hmod { t with hp := _ } rfl)
      · simp only [updateHUD]
        split_ifs <;> exact h
  · rw [if_pos (by simpa using hr)]
    exact h

theorem moveTarget_id (dtSec width height : ℚ) (t : Target) :
    (moveTarget dtSec width height t).id = t.id := by
  cases t with
  | timed t => rfl
  | tracking t =>
    simp only [moveTarget, Target.id, moveTracking]
    split_ifs <;> rfl

theorem tick_targets_nodup (nowMs width height : ℚ) (s : State) (hi : Inv s)
    (h : (s.targets.map Target.id).Nodup) :
    ((tick nowMs width height s).targets.map Target.id).Nodup := by
  by_cases hr : s.running = true
  · by_cases hle : GAME_MS - (nowMs - s.startTimeMs) ≤ 0
    · rw [tick_of_time_up nowMs width height s hr hle]
      exact endGame_targets_nodup _ _ h
    · rw [tick_of_time_left nowMs width height s hr hle]
      show ((if s.currentMode = .timed then updateTargetsTimed nowMs { s with lastTickMs := nowMs }
        else updateTargetsTracking ((nowMs - s.lastTickMs) / 1000) width height
          { s with lastTickMs := nowMs }).targets.map Target.id).Nodup
      by_cases hm : s.currentMode = .timed
      · rw [if_pos hm]
        obtain ⟨h1, h2⟩ := updateTargetsTimed_spec nowMs { s with lastTickMs := nowMs } hr
          (hi.expiredLt hr)
        by_cases hlt : s.expiredMisses + State.expiredCount { s with lastTickMs := nowMs } nowMs
            < EXPIRED_LIMIT
        · rw [h1 hlt]
          exact h.sublist ((List.filter_sublist _).map _)
        · rw [(updateTargetsTimed_overwhelm nowMs { s with lastTickMs := nowMs } hr
            (hi.expiredLt hr) (not_lt.1 hlt)).1.targets]
          exact List.nodup_nil
      · rw [if_neg hm]
        simp only [updateTargetsTracking, List.map_map]
        have hmap : List.map (Target.id ∘ moveTarget ((nowMs - s.lastTickMs) / 1000) width height)
            s.targets = List.map Target.id s.targets :=
          List.map_congr_left (fun t _ => moveTarget_id _ _ _ t)
        rw [hmap]
        exact h
  · rw [tick_of_not_running nowMs width height s (by simpa using hr)]
    exact h

theorem startGame_targets (m : Bool) (d now : ℚ) (s : State) :
    (startGame m d now s).targets = [] := by
  cases m <;>
    simp [startGame, applyDifficultyFromUI, resetStats, clearAllTargets, hideOverlay,
      scheduleNextSpawnTimed, scheduleNextSpawnTracking, setTimeout, requestAnimationFrame]

theorem scheduleNextSpawnTimed_targets (now : ℚ) (s : State) :
    (scheduleNextSpawnTimed now s).targets = s.targets := by
  unfold scheduleNextSpawnTimed
  split <;> rfl

theorem scheduleNextSpawnTracking_targets (now : ℚ) (s : State) :
    (scheduleNextSpawnTracking now s).targets = s.targets := by
  unfold scheduleNextSpawnTracking
  split <;> rfl

theorem nodup_append_fresh (l : List Target) (t : Target) (h : (l.map Target.id).Nodup)
    (hf : t.id ∉ l.map Target.id) : ((l ++ [t]).map Target.id).Nodup := by
  rw [List.map_append, List.map_singleton]
  exact List.Nodup.append h (List.nodup_singleton _) (by
    intro a ha hb
    rw [List.mem_singleton] at hb
    exact hf (hb ▸ ha))

theorem runTimeout_targets_nodup (handle : Nat) (inp : SpawnInput) (s : State)
    (h : (s.targets.map Target.id).Nodup) (hf : inp.id ∉ s.targets.map Target.id) :
    ((runTimeout handle inp s).targets.map Target.id).Nodup := by
  unfold runTimeout
  split
  · exact h
  · rename_i tm _
    unfold spawnCallback
    cases tm.kind with
    | timed =>
      simp only [scheduleNextSpawnTimed_targets]
      unfold spawnTargetTimed
      split
      · exact h
      · exact nodup_append_fresh _ _ h hf
    | tracking =>
      simp only [scheduleNextSpawnTracking_targets]
      unfold spawnTargetTracking
      dsimp only
      split
      · exact h
      · split
        · exact endGame_targets_nodup _ _ (nodup_append_fresh _ _ h hf)
        · exact nodup_append_fresh _ _ h hf

/-- In every state between two callbacks the live targets have distinct ids. -/
theorem reachable_ids_nodup {s : State} (h : Reachable s) :
    (s.targets.map Target.id).Nodup := by
  induction h with
  | boot store diff a b => exact List.nodup_nil
  | @step s0 e hs0 hen ih =>
    cases e with
    | startClick m d now =>
      show ((startGame m d now s0).targets.map Target.id).Nodup
      rw [startGame_targets]
      exact List.nodup_nil
    | restartClick m d now =>
      show ((restartClick m d now s0).targets.map Target.id).Nodup
      unfold restartClick
      rw [startGame_targets]
      exact List.nodup_nil
    | animationFrame h now w hgt =>
      exact tick_targets_nodup _ _ _ _
        ((reachable_inv hs0).of_frame rfl rfl rfl rfl rfl rfl (reachable_inv hs0).handle
          (le_refl _)) ih
    | timeout h inp => exact runTimeout_targets_nodup h inp s0 ih hen.2
    | targetPress id dx dy w now => exact targetPointerDown_targets_nodup id dx dy w now s0 ih
    | stagePress now =>
      show ((stagePointerDown now s0).targets.map Target.id).Nodup
      unfold stagePointerDown
      split <;> exact ih
    | sliderInput d => exact ih
    | modeChange =>
      show ((syncControls s0).targets.map Target.id).Nodup
      unfold syncControls
      split <;> exact ih

/-! ## Start, restart and the counters -/

theorem SameCounters.refl (s : State) : SameCounters s s := ⟨rfl, rfl, rfl, rfl, rfl, rfl⟩

theorem SameCounters.grow {s r : State} (h : SameCounters s r) : CountersGrow s r :=
  ⟨h.points.ge, h.hitsOuter.ge, h.hitsCenter.ge, h.hitsShield.ge, h.clickMisses.ge,
    h.expiredMisses.ge⟩

theorem SameCounters.trans {s r t : State} (h1 : SameCounters s r) (h2 : SameCounters r t) :
    SameCounters s t :=
  ⟨h2.points.trans h1.points, h2.hitsOuter.trans h1.hitsOuter,
    h2.hitsCenter.trans h1.hitsCenter, h2.hitsShield.trans h1.hitsShield,
    h2.clickMisses.trans h1.clickMisses, h2.expiredMisses.trans h1.expiredMisses⟩

theorem CountersGrow.trans_grow {s r t : State} (h1 : CountersGrow s r) (h2 : CountersGrow r t) :
    CountersGrow s t :=
  ⟨h1.points.trans h2.points, h1.hitsOuter.trans h2.hitsOuter,
    h1.hitsCenter.trans h2.hitsCenter, h1.hitsShield.trans h2.hitsShield,
    h1.clickMisses.trans h2.clickMisses, h1.expiredMisses.trans h2.expiredMisses⟩

theorem endGame_sameCounters (reason : String) (s : State) :
    SameCounters s (endGame reason s) := by
  obtain ⟨h1, h2, h3, h4, h5, h6, -, -⟩ := endGame_frame reason s
  exact ⟨h1, h2, h3, h4, h5, h6⟩

/-- What `startGame` leaves: a running state with zeroed counters, an empty pool, the
card hidden, and the store it found. -/
theorem startGame_fields (m : Bool) (d now : ℚ) (s : State) :
    (startGame m d now s).running = true ∧ ZeroCounters (startGame m d now s) ∧
    (startGame m d now s).targets = [] ∧ (startGame m d now s).store = s.store ∧
    (startGame m d now s).overlay = .hidden ∧
    (startGame m d now s).currentMode = (if m then .timed else .tracking) := by
  cases m <;> refine ⟨?_, ⟨?_, ?_, ?_, ?_, ?_, ?_⟩, ?_, ?_, ?_, ?_⟩ <;>
    simp [startGame, applyDifficultyFromUI, resetStats, clearAllTargets, hideOverlay,
      scheduleNextSpawnTimed, scheduleNextSpawnTracking, setTimeout, requestAnimationFrame]

theorem endGame_overlay_other (reason : String) (s : State) (h : s.running = true)
    (h1 : reason ≠ "finished") (h2 : reason ≠ "overwhelmed") :
    (endGame reason s).overlay = .runEnded := by
  obtain ⟨s1, -, -, -, -, -, -, -, -, -, -, heq⟩ := endGame_eq_of_running reason s h
  rw [heq, if_neg h1, if_neg h2]
  rfl

/-- C11: from every state, running in either mode or idle, the listener of the
restart button leaves a running state whose six counters are 0 and whose pool is
empty, with the store as it was.  A run that was on is ended by `endGame("restart")`, which stops it on
the "Run Ended" card, not the "Time!" card, and leaves the store alone. -/
theorem restart_resets_run (m : Bool) (d now : ℚ) (s : State) :
    (restartClick m d now s).running = true ∧
    ZeroCounters (restartClick m d now s) ∧
    (restartClick m d now s).targets = [] ∧
    (restartClick m d now s).store = s.store ∧
    (s.running = true →
      restartClick m d now s = startGame m d now (endGame "restart" s) ∧
      (endGame "restart" s).running = false ∧
      (endGame "restart" s).overlay = .runEnded ∧
      (endGame "restart" s).targets = [] ∧
      (endGame "restart" s).store = s.store) ∧
    (s.running = false → restartClick m d now s = startGame m d now s) := by
  have hstore : (restartClick m d now s).store = s.store := by
    unfold restartClick
    rw [(startGame_fields m d now _).2.2.2.1]
    split
    · exact endGame_store_of_ne_finished _ _ (by decide)
    · rfl
  obtain ⟨a1, a2, a3, -, -, -⟩ := startGame_fields m d now (if s.running = true then
    endGame "restart" s else s)
  refine ⟨a1, a2, a3, hstore, ?_, ?_⟩
  · intro hr
    refine ⟨by unfold restartClick; rw [if_pos hr], (endGame_of_running _ s hr).1,
      endGame_overlay_other _ s hr (by decide) (by decide), (endGame_of_running _ s hr).2.1,
      endGame_store_of_ne_finished _ _ (by decide)⟩
  · intro hr
    unfold restartClick
    rw [if_neg (by rw [hr]; decide)]

/-! ## Presses on the empty stage -/

theorem stagePointerDown_of_running (now : ℚ) (s : State) (h : s.running = true) :
    stagePointerDown now s =
      updateHUD (currentTimeLeftMs now { s with clickMisses := s.clickMisses + 1 })
        { s with clickMisses := s.clickMisses + 1 } := by
  unfold stagePointerDown
  rw [if_neg (by rw [h]; decide)]

theorem stagePointerDown_of_not_running (now : ℚ) (s : State) (h : s.running = false) :
    stagePointerDown now s = s := by
  unfold stagePointerDown
  rw [if_pos (by rw [h]; rfl)]

/-- C16: in a running state a press on the empty stage adds exactly 1 to
`clickMisses` and leaves `points`, `hitsOuter`, `hitsCenter`, `hitsShield`,
`expiredMisses` and the pool as they were; a press on a target (whose listener
stops the propagation to the stage) never changes `clickMisses`. -/
theorem stage_press_counts_one_miss (s : State) (now : ℚ) (hrun : s.running = true) :
    (stagePointerDown now s).clickMisses = s.clickMisses + 1 ∧
    (stagePointerDown now s).points = s.points ∧
    (stagePointerDown now s).hitsOuter = s.hitsOuter ∧
    (stagePointerDown now s).hitsCenter = s.hitsCenter ∧
    (stagePointerDown now s).hitsShield = s.hitsShield ∧
    (stagePointerDown now s).expiredMisses = s.expiredMisses ∧
    (stagePointerDown now s).targets = s.targets ∧
    (stagePointerDown now s).running = true ∧
    (∀ (id : Nat) (dx dy width t : ℚ),
      (targetPointerDown id dx dy width t s).clickMisses = s.clickMisses ∧
      (Event.apply s (.targetPress id dx dy width t)).clickMisses = s.clickMisses) := by
  rw [stagePointerDown_of_running now s hrun]
  refine ⟨rfl, rfl, rfl, rfl, rfl, rfl, rfl, hrun, ?_⟩
  intro id dx dy width t
  exact ⟨(targetPointerDown_frame id dx dy width t s).2.2.2.1,
    (targetPointerDown_frame id dx dy width t s).2.2.2.1⟩

/-! ## The counters never go down within a run -/

theorem updateTargetsTimedLoop_grow (nowMs : ℚ) (i : Nat) :
    ∀ s : State, CountersGrow s (updateTargetsTimedLoop nowMs i s) ∧
      (updateTargetsTimedLoop nowMs i s).store = s.store := by
  induction i with
  | zero =>
    intro s
    exact ⟨(SameCounters.refl s).grow, rfl⟩
  | succ i ih =>
    intro s
    unfold updateTargetsTimedLoop
    split
    · exact ⟨(SameCounters.refl s).grow, rfl⟩
    · split
      · dsimp only
        split
        · have h := endGame_sameCounters "overwhelmed"
            { s with expiredMisses := s.expiredMisses + 1, targets := s.targets.eraseIdx i }
          exact ⟨⟨h.points.ge, h.hitsOuter.ge, h.hitsCenter.ge, h.hitsShield.ge,
            h.clickMisses.ge, le_trans (Nat.le_succ _) h.expiredMisses.ge⟩,
            endGame_store_of_ne_finished _ _ (by decide)⟩
        · obtain ⟨h, hs⟩ := ih
            { s with expiredMisses := s.expiredMisses + 1, targets := s.targets.eraseIdx i }
          exact ⟨⟨h.points, h.hitsOuter, h.hitsCenter, h.hitsShield, h.clickMisses,
            le_trans (Nat.le_succ _) h.expiredMisses⟩, hs⟩
      · exact ih s

theorem tick_grow (nowMs width height : ℚ) (s : State) :
    CountersGrow s (tick nowMs width height s) := by
  by_cases hr : s.running = true
  · by_cases hle : GAME_MS - (nowMs - s.startTimeMs) ≤ 0
    · rw [tick_of_time_up nowMs width height s hr hle]
      have h := endGame_sameCounters "finished" (updateHUD 0 s)
      exact ⟨h.points.ge, h.hitsOuter.ge, h.hitsCenter.ge, h.hitsShield.ge, h.clickMisses.ge,
        h.expiredMisses.ge⟩
    · rw [tick_of_time_left nowMs width height s hr hle]
      by_cases hm : s.currentMode = .timed
      · rw [if_pos hm]
        have h := (updateTargetsTimedLoop_grow nowMs s.targets.length
          { s with lastTickMs := nowMs }).1
        exact ⟨h.points, h.hitsOuter, h.hitsCenter, h.hitsShield, h.clickMisses,
          h.expiredMisses⟩
      · rw [if_neg hm]
        exact ⟨le_refl _, le_refl _, le_refl _, le_refl _, le_refl _, le_refl _⟩
  · rw [tick_of_not_running nowMs width height s (by simpa using hr)]
    exact (SameCounters.refl s).grow

theorem spawnTargetTimed_sameCounters (inp : SpawnInput) (s : State) :
    SameCounters s (spawnTargetTimed inp s) := by
  unfold spawnTargetTimed
  split <;> exact ⟨rfl, rfl, rfl, rfl, rfl, rfl⟩

theorem spawnTargetTracking_sameCounters (inp : SpawnInput) (s : State) :
    SameCounters s (spawnTargetTracking inp s) := by
  unfold spawnTargetTracking
  dsimp only
  split
  · exact SameCounters.refl s
  · split
    · have h := endGame_sameCounters "overwhelmed"
        { s with targets := s.targets ++ [.tracking (newTrackingTarget inp)] }
      exact ⟨h.points, h.hitsOuter, h.hitsCenter, h.hitsShield, h.clickMisses,
        h.expiredMisses⟩
    · exact ⟨rfl, rfl, rfl, rfl, rfl, rfl⟩

theorem scheduleNextSpawnTimed_sameCounters (now : ℚ) (s : State) :
    SameCounters s (scheduleNextSpawnTimed now s) := by
  unfold scheduleNextSpawnTimed
  split <;> exact ⟨rfl, rfl, rfl, rfl, rfl, rfl⟩

theorem scheduleNextSpawnTracking_sameCounters (now : ℚ) (s : State) :
    SameCounters s (scheduleNextSpawnTracking now s) := by
  unfold scheduleNextSpawnTracking
  split <;> exact ⟨rfl, rfl, rfl, rfl, rfl, rfl⟩

theorem spawnCallback_sameCounters (kind : Mode) (inp : SpawnInput) (s : State) :
    SameCounters s (spawnCallback kind inp s) := by
  cases kind with
  | timed =>
    exact (spawnTargetTimed_sameCounters inp s).trans (scheduleNextSpawnTimed_sameCounters _ _)
  | tracking =>
    exact (spawnTargetTracking_sameCounters inp s).trans
      (scheduleNextSpawnTracking_sameCounters _ _)

theorem targetPointerDown_grow (id : Nat) (dx dy width now : ℚ) (s : State) :
    CountersGrow s (targetPointerDown id dx dy width now s) := by
  unfold targetPointerDown
  split
  · exact (SameCounters.refl s).grow
  · dsimp only
    split
    · simp only [removeTargetById_eq, updateHUD]
      split <;> refine ⟨?_, ?_, ?_, ?_, ?_, ?_⟩ <;>
        first | exact le_refl _ | exact Nat.le_add_right _ _
    · split
      · exact (SameCounters.refl s).grow
      · simp only [removeTargetById_eq, updateHUD]
        split_ifs <;> refine ⟨?_, ?_, ?_, ?_, ?_, ?_⟩ <;>
          first | exact le_refl _ | exact Nat.le_add_right _ _
      · simp only [updateHUD]
        split_ifs <;> refine ⟨?_, ?_, ?_, ?_, ?_, ?_⟩ <;>
          first | exact le_refl _ | exact Nat.le_add_right _ _

theorem stagePointerDown_grow (now : ℚ) (s : State) :
    CountersGrow s (stagePointerDown now s) := by
  unfold stagePointerDown
  split
  · exact (SameCounters.refl s).grow
  · exact ⟨le_refl _, le_refl _, le_refl _, le_refl _, Nat.le_add_right _ _, le_refl _⟩

/-- C17: `startGame` sets the six counters to 0.  Every other operation of a run
leaves each counter at least at its previous value: `tick` in either mode (only
`expiredMisses` can move), the spawn callbacks and their two halves (no counter
moves), a press on a target, a press on the empty stage.  `endGame` changes none
of the six. -/
theorem counters_zero_at_start_then_grow :
    (∀ (m : Bool) (d now : ℚ) (s : State), ZeroCounters (startGame m d now s)) ∧
    (∀ (nowMs width height : ℚ) (s : State), CountersGrow s (tick nowMs width height s)) ∧
    (∀ (nowMs : ℚ) (s : State), CountersGrow s (updateTargetsTimed nowMs s)) ∧
    (∀ (dtSec width height : ℚ) (s : State),
      SameCounters s (updateTargetsTracking dtSec width height s)) ∧
    (∀ (kind : Mode) (inp : SpawnInput) (s : State),
      SameCounters s (spawnCallback kind inp s)) ∧
    (∀ (inp : SpawnInput) (s : State), SameCounters s (spawnTargetTimed inp s)) ∧
    (∀ (inp : SpawnInput) (s : State), SameCounters s (spawnTargetTracking inp s)) ∧
    (∀ (id : Nat) (dx dy width now : ℚ) (s : State),
      CountersGrow s (targetPointerDown id dx dy width now s)) ∧
    (∀ (now : ℚ) (s : State), CountersGrow s (stagePointerDown now s)) ∧
    (∀ (reason : String) (s : State), SameCounters s (endGame reason s)) :=
  ⟨fun m d now s => (startGame_fields m d now s).2.1, tick_grow,
    fun nowMs s => (updateTargetsTimedLoop_grow nowMs s.targets.length s).1,
    fun _ _ _ _ => ⟨rfl, rfl, rfl, rfl, rfl, rfl⟩, spawnCallback_sameCounters,
    spawnTargetTimed_sameCounters, spawnTargetTracking_sameCounters, targetPointerDown_grow,
    stagePointerDown_grow, endGame_sameCounters⟩

/-! ## Late callbacks on a stopped run -/

theorem spawnTargetTimed_of_not_running (inp : SpawnInput) (s : State)
    (h : s.running = false) : spawnTargetTimed inp s = s := by
  unfold spawnTargetTimed
  rw [if_pos (by rw [h]; rfl)]

theorem spawnTargetTracking_of_not_running (inp : SpawnInput) (s : State)
    (h : s.running = false) : spawnTargetTracking inp s = s := by
  unfold spawnTargetTracking
  rw [if_pos (by rw [h]; rfl)]

theorem scheduleNextSpawnTimed_of_not_running (now : ℚ) (s : State)
    (h : s.running = false) : scheduleNextSpawnTimed now s = s := by
  unfold scheduleNextSpawnTimed
  rw [if_pos (by rw [h]; rfl)]

theorem scheduleNextSpawnTracking_of_not_running (now : ℚ) (s : State)
    (h : s.running = false) : scheduleNextSpawnTracking now s = s := by
  unfold scheduleNextSpawnTracking
  rw [if_pos (by rw [h]; rfl)]

theorem targetPointerDown_of_not_running (id : Nat) (dx dy width now : ℚ) (s : State)
    (h : s.running = false) : targetPointerDown id dx dy width now s = s := by
  unfold targetPointerDown
  rw [if_pos (by rw [h]; rfl)]

theorem spawnCallback_of_not_running (kind : Mode) (inp : SpawnInput) (s : State)
    (h : s.running = false) : spawnCallback kind inp s = s := by
  cases kind with
  | timed =>
    unfold spawnCallback
    rw [spawnTargetTimed_of_not_running inp s h, scheduleNextSpawnTimed_of_not_running _ s h]
  | tracking =>
    unfold spawnCallback
    rw [spawnTargetTracking_of_not_running inp s h,
      scheduleNextSpawnTracking_of_not_running _ s h]

/-- A second `endGame` does nothing, whatever the two reasons. -/
theorem endGame_endGame (r1 r2 : String) (s : State) :
    endGame r2 (endGame r1 s) = endGame r1 s := by
  apply endGame_of_not_running
  by_cases h : s.running = true
  · exact (endGame_of_running r1 s h).1
  · rw [endGame_of_not_running r1 s (by simpa using h)]
    simpa using h

/-- C19: in a state with `running = false` a late `tick`, a late spawn callback and
each of its parts (`spawnTargetTimed`, `spawnTargetTracking`,
`scheduleNextSpawnTimed`, `scheduleNextSpawnTracking`), a press on a target, a
press on the empty stage and another `endGame` all return the state as it is: the
counters, the pool and the store are unchanged.  When the browser runs a stale
animation frame or timeout only its own pending lists change.  After any `endGame`
a second one, "finished" included, changes nothing, so a score is not stored
twice. -/
theorem stopped_run_ignores_late_callbacks (s : State) (h : s.running = false) :
    (∀ nowMs width height : ℚ, tick nowMs width height s = s) ∧
    (∀ inp : SpawnInput, spawnTargetTimed inp s = s ∧ spawnTargetTracking inp s = s) ∧
    (∀ now : ℚ, scheduleNextSpawnTimed now s = s ∧ scheduleNextSpawnTracking now s = s) ∧
    (∀ (kind : Mode) (inp : SpawnInput), spawnCallback kind inp s = s) ∧
    (∀ (id : Nat) (dx dy width now : ℚ), targetPointerDown id dx dy width now s = s) ∧
    (∀ now : ℚ, stagePointerDown now s = s) ∧
    (∀ reason : String, endGame reason s = s) ∧
    (∀ (handle : Nat) (nowMs width height : ℚ),
      SameCounters s (runFrame handle nowMs width height s) ∧
      (runFrame handle nowMs width height s).targets = s.targets ∧
      (runFrame handle nowMs width height s).store = s.store ∧
      (runFrame handle nowMs width height s).running = false) ∧
    (∀ (handle : Nat) (inp : SpawnInput),
      SameCounters s (runTimeout handle inp s) ∧
      (runTimeout handle inp s).targets = s.targets ∧
      (runTimeout handle inp s).store = s.store ∧
      (runTimeout handle inp s).running = false) ∧
    (∀ (r1 r2 : String) (t : State), endGame r2 (endGame r1 t) = endGame r1 t) := by
  refine ⟨fun a b c => tick_of_not_running a b c s h,
    fun inp => ⟨spawnTargetTimed_of_not_running inp s h,
      spawnTargetTracking_of_not_running inp s h⟩,
    fun now => ⟨scheduleNextSpawnTimed_of_not_running now s h,
      scheduleNextSpawnTracking_of_not_running now s h⟩,
    fun kind inp => spawnCallback_of_not_running kind inp s h,
    fun id dx dy width now => targetPointerDown_of_not_running id dx dy width now s h,
    fun now => stagePointerDown_of_not_running now s h,
    fun reason => endGame_of_not_running reason s h, ?_, ?_, endGame_endGame⟩
  · intro handle nowMs width height
    unfold runFrame
    rw [tick_of_not_running _ _ _ _ (by exact h)]
    exact ⟨⟨rfl, rfl, rfl, rfl, rfl, rfl⟩, rfl, rfl, h⟩
  · intro handle inp
    unfold runTimeout
    split
    · exact ⟨SameCounters.refl s, rfl, rfl, h⟩
    · rw [spawnCallback_of_not_running _ _ _ (by exact h)]
      exact ⟨⟨rfl, rfl, rfl, rfl, rfl, rfl⟩, rfl, rfl, h⟩

/-! ## Tracking spawns slower than Timed -/

theorem mathRound_lt {a b : ℚ} (h : a + 1 ≤ b) :
    ((mathRound a : Int) : ℚ) < (mathRound b : Int) := by
  unfold mathRound
  have h1 : ⌊a + 1 / 2⌋ + 1 ≤ ⌊b + 1 / 2⌋ := by
    rw [← Int.floor_add_one]
    exact Int.floor_le_floor (by linarith)
  exact_mod_cast Int.lt_of_add_one_le h1

theorem clamp_mono_all {n n' lo lo' hi hi' : ℚ} (hn : n ≤ n') (hlo : lo ≤ lo') (hhi : hi ≤ hi') :
    clamp n lo hi ≤ clamp n' lo' hi' := by
  unfold clamp
  exact max_le_max hlo (min_le_min hhi hn)

theorem tracking_curve_slower (diff : ℚ) (h1 : 1 ≤ diff) (h10 : diff ≤ 10) :
    (resolveTimedCurve diff).maxMs < (resolveTrackingCurve diff).maxMs ∧
    (resolveTimedCurve diff).minMs < (resolveTrackingCurve diff).minMs ∧
    (resolveTrackingCurve diff).rampPerSec < (resolveTimedCurve diff).rampPerSec := by
  unfold resolveTimedCurve resolveTrackingCurve
  simp only
  refine ⟨?_, ?_, ?_⟩
  · apply mathRound_lt
    simp only [lerp, difficulty01, CURVE_EASY, CURVE_HARD, TRACK_CURVE_EASY, TRACK_CURVE_HARD]
    linarith
  · apply mathRound_lt
    simp only [lerp, difficulty01, CURVE_EASY, CURVE_HARD, TRACK_CURVE_EASY, TRACK_CURVE_HARD]
    linarith
  · simp only [lerp, difficulty01, CURVE_EASY, CURVE_HARD, TRACK_CURVE_EASY, TRACK_CURVE_HARD]
    linarith

/-- C13: for every difficulty `d` in 1..10 the Tracking curve set by
`applyDifficultyFromUI` is slower than the Timed curve in each component, a larger
`maxMs`, a larger `minMs` and a smaller `rampPerSec`, and so for every elapsed time
`e ≥ 0` the Tracking spawn delay is at least the Timed spawn delay. -/
theorem tracking_spawns_slower_than_timed (d : ℕ) (hd1 : 1 ≤ d) (hd10 : d ≤ 10) (s : State)
    (e : ℚ) (he : 0 ≤ e) :
    (applyDifficultyFromUI d s).timedCurve.maxMs <
      (applyDifficultyFromUI d s).trackingCurve.maxMs ∧
    (applyDifficultyFromUI d s).timedCurve.minMs <
      (applyDifficultyFromUI d s).trackingCurve.minMs ∧
    (applyDifficultyFromUI d s).trackingCurve.rampPerSec <
      (applyDifficultyFromUI d s).timedCurve.rampPerSec ∧
    timedSpawnDelayMs e (applyDifficultyFromUI d s) ≤
      trackingSpawnDelayMs e (applyDifficultyFromUI d s) := by
  have h1 : (1 : ℚ) ≤ (d : ℚ) := by exact_mod_cast hd1
  have h10 : (d : ℚ) ≤ 10 := by exact_mod_cast hd10
  obtain ⟨a, b, c⟩ := tracking_curve_slower d h1 h10
  refine ⟨a, b, c, ?_⟩
  unfold timedSpawnDelayMs trackingSpawnDelayMs
  apply clamp_mono_all _ (le_of_lt b) (le_of_lt a)
  show (resolveTimedCurve d).maxMs - e * (resolveTimedCurve d).rampPerSec ≤
    (resolveTrackingCurve d).maxMs - e * (resolveTrackingCurve d).rampPerSec
  have := mul_le_mul_of_nonneg_left (le_of_lt c) he
  linarith

/-! ## Movement in Tracking mode -/

/-- C14: in an arena of width `W` and height `H`, for a tracking target of radius
`r = size / 2` with `W ≥ 2r` and `H ≥ 2r` and any time step, the loop body of
`updateTargetsTracking` leaves `r ≤ x ≤ W - r` and `r ≤ y ≤ H - r`.  When the
integrated `x` is outside `[r, W - r]` the new `x` is the wall it crossed and `vx`
is negated, otherwise `x` is the integrated value and `vx` is kept; the same for
`y` and `vy`, each axis on its own, so `|vx|` and `|vy|` are preserved.  The id,
size, `hp` and `shieldHp` are kept.  On a state the update keeps the number and
the ids of the targets, the six counters, `running` and the store. -/
theorem tracking_update_bounces (W H dtSec : ℚ) (t : TrackingTarget)
    (hW : 2 * (t.size / 2) ≤ W) (hH : 2 * (t.size / 2) ≤ H) :
    (t.size / 2 ≤ (moveTracking dtSec W H t).x ∧
      (moveTracking dtSec W H t).x ≤ W - t.size / 2) ∧
    (t.size / 2 ≤ (moveTracking dtSec W H t).y ∧
      (moveTracking dtSec W H t).y ≤ H - t.size / 2) ∧
    (t.x + t.vx * dtSec < t.size / 2 →
      (moveTracking dtSec W H t).x = t.size / 2 ∧ (moveTracking dtSec W H t).vx = -t.vx) ∧
    (W - t.size / 2 < t.x + t.vx * dtSec →
      (moveTracking dtSec W H t).x = W - t.size / 2 ∧
      (moveTracking dtSec W H t).vx = -t.vx) ∧
    (t.size / 2 ≤ t.x + t.vx * dtSec → t.x + t.vx * dtSec ≤ W - t.size / 2 →
      (moveTracking dtSec W H t).x = t.x + t.vx * dtSec ∧
      (moveTracking dtSec W H t).vx = t.vx) ∧
    (t.y + t.vy * dtSec < t.size / 2 →
      (moveTracking dtSec W H t).y = t.size / 2 ∧ (moveTracking dtSec W H t).vy = -t.vy) ∧
    (H - t.size / 2 < t.y + t.vy * dtSec →
      (moveTracking dtSec W H t).y = H - t.size / 2 ∧
      (moveTracking dtSec W H t).vy = -t.vy) ∧
    (t.size / 2 ≤ t.y + t.vy * dtSec → t.y + t.vy * dtSec ≤ H - t.size / 2 →
      (moveTracking dtSec W H t).y = t.y + t.vy * dtSec ∧
      (moveTracking dtSec W H t).vy = t.vy) ∧
    (|(moveTracking dtSec W H t).vx| = |t.vx| ∧ |(moveTracking dtSec W H t).vy| = |t.vy|) ∧
    ((moveTracking dtSec W H t).id = t.id ∧ (moveTracking dtSec W H t).size = t.size ∧
      (moveTracking dtSec W H t).hp = t.hp ∧
      (moveTracking dtSec W H t).shieldHp = t.shieldHp) ∧
    (∀ s : State,
      (updateTargetsTracking dtSec W H s).targets = s.targets.map (moveTarget dtSec W H) ∧
      (updateTargetsTracking dtSec W H s).targets.length = s.targets.length ∧
      (updateTargetsTracking dtSec W H s).targets.map Target.id = s.targets.map Target.id ∧
      SameCounters s (updateTargetsTracking dtSec W H s) ∧
      (updateTargetsTracking dtSec W H s).running = s.running ∧
      (updateTargetsTracking dtSec W H s).store = s.store) := by
  have hx : (moveTracking dtSec W H t).x =
      (if t.x + t.vx * dtSec < t.size / 2 then t.size / 2
        else if t.x + t.vx * dtSec > W - t.size / 2 then W - t.size / 2
        else t.x + t.vx * dtSec) ∧
      (moveTracking dtSec W H t).vx =
      (if t.x + t.vx * dtSec < t.size / 2 then -t.vx
        else if t.x + t.vx * dtSec > W - t.size / 2 then -t.vx else t.vx) := by
    unfold moveTracking
    dsimp only
    split_ifs <;> simp
  have hy : (moveTracking dtSec W H t).y =
      (if t.y + t.vy * dtSec < t.size / 2 then t.size / 2
        else if t.y + t.vy * dtSec > H - t.size / 2 then H - t.size / 2
        else t.y + t.vy * dtSec) ∧
      (moveTracking dtSec W H t).vy =
      (if t.y + t.vy * dtSec < t.size / 2 then -t.vy
        else if t.y + t.vy * dtSec > H - t.size / 2 then -t.vy else t.vy) := by
    unfold moveTracking
    dsimp only
    split_ifs <;> simp
  have hrest : (moveTracking dtSec W H t).id = t.id ∧ (moveTracking dtSec W H t).size = t.size ∧
      (moveTracking dtSec W H t).hp = t.hp ∧
      (moveTracking dtSec W H t).shieldHp = t.shieldHp := by
    unfold moveTracking
    dsimp only
    split_ifs <;> exact ⟨rfl, rfl, rfl, rfl⟩
  refine ⟨?_, ?_, ?_, ?_, ?_, ?_, ?_, ?_, ?_, hrest, ?_⟩
  · rw [hx.1]
    split_ifs <;> constructor <;> linarith
  · rw [hy.1]
    split_ifs <;> constructor <;> linarith
  · intro h
    rw [hx.1, hx.2, if_pos h, if_pos h]
    exact ⟨rfl, rfl⟩
  · intro h
    have h' : ¬ t.x + t.vx * dtSec < t.size / 2 := by linarith
    rw [hx.1, hx.2, if_neg h', if_neg h', if_pos h, if_pos h]
    exact ⟨rfl, rfl⟩
  · intro h1 h2
    rw [hx.1, hx.2, if_neg (not_lt.2 h1), if_neg (not_lt.2 h1), if_neg (not_lt.2 h2),
      if_neg (not_lt.2 h2)]
    exact ⟨rfl, rfl⟩
  · intro h
    rw [hy.1, hy.2, if_pos h, if_pos h]
    exact ⟨rfl, rfl⟩
  · intro h
    have h' : ¬ t.y + t.vy * dtSec < t.size / 2 := by linarith
    rw [hy.1, hy.2, if_neg h', if_neg h', if_pos h, if_pos h]
    exact ⟨rfl, rfl⟩
  · intro h1 h2
    rw [hy.1, hy.2, if_neg (not_lt.2 h1), if_neg (not_lt.2 h1), if_neg (not_lt.2 h2),
      if_neg (not_lt.2 h2)]
    exact ⟨rfl, rfl⟩
  · rw [hx.2, hy.2]
    constructor <;> split_ifs <;> simp
  · intro s
    refine ⟨rfl, by simp [updateTargetsTracking], ?_, ⟨rfl, rfl, rfl, rfl, rfl, rfl⟩, rfl, rfl⟩
    simp only [updateTargetsTracking, List.map_map]
    exact List.map_congr_left (fun u _ => moveTarget_id _ _ _ u)

/-! ## Spawn positions -/

theorem randInt_range (u : ℚ) (hu0 : 0 ≤ u) (hu1 : u < 1) (lo hi : Int) (h : lo ≤ hi) :
    lo ≤ randInt u lo hi ∧ randInt u lo hi ≤ hi := by
  unfold randInt
  have hpos : (0 : ℚ) < ((hi - lo + 1 : Int) : ℚ) := by
    have : (0 : Int) < hi - lo + 1 := by omega
    exact_mod_cast this
  have h0 : 0 ≤ ⌊u * ((hi - lo + 1 : Int) : ℚ)⌋ :=
    Int.floor_nonneg.2 (mul_nonneg hu0 (le_of_lt hpos))
  have h1 : ⌊u * ((hi - lo + 1 : Int) : ℚ)⌋ < hi - lo + 1 := by
    rw [Int.floor_lt]
    calc u * ((hi - lo + 1 : Int) : ℚ) < 1 * ((hi - lo + 1 : Int) : ℚ) :=
          mul_lt_mul_of_pos_right hu1 hpos
      _ = ((hi - lo + 1 : Int) : ℚ) := one_mul _
  constructor <;> omega

theorem spawnCoord_range (u : ℚ) (hu0 : 0 ≤ u) (hu1 : u < 1) (size : Int) (extent : ℚ)
    (h : (size : ℚ) + 8 ≤ extent) :
    (size : ℚ) / 2 ≤ spawnCoord u size extent ∧
    (spawnCoord u size extent : ℚ) ≤ extent - (size : ℚ) / 2 := by
  unfold spawnCoord
  dsimp only
  have hle : ⌊(size : ℚ) / 2 + 4⌋ ≤ ⌊extent - ((size : ℚ) / 2 + 4)⌋ :=
    Int.floor_le_floor (by linarith)
  obtain ⟨a, b⟩ := randInt_range u hu0 hu1 _ _ hle
  have a' : ((⌊(size : ℚ) / 2 + 4⌋ : Int) : ℚ) ≤
      (randInt u ⌊(size : ℚ) / 2 + 4⌋ ⌊extent - ((size : ℚ) / 2 + 4)⌋ : Int) := by
    exact_mod_cast a
  have b' : ((randInt u ⌊(size : ℚ) / 2 + 4⌋ ⌊extent - ((size : ℚ) / 2 + 4)⌋ : Int) : ℚ) ≤
      (⌊extent - ((size : ℚ) / 2 + 4)⌋ : Int) := by
    exact_mod_cast b
  have f1 := Int.lt_floor_add_one ((size : ℚ) / 2 + 4)
  have f2 := Int.floor_le (extent - ((size : ℚ) / 2 + 4))
  constructor <;> linarith

/-- C15: for draws `u` of `Math.random()` in `[0, 1)`, `randInt(min, max)` is an
integer between `min` and `max` whenever `min ≤ max`; so the sampled size is in
58..84, and in an arena whose width and height are at least that size plus 8 the
position chosen by `spawnTargetTimed` and the one chosen by `spawnTargetTracking`
satisfy `size / 2 ≤ x ≤ width - size / 2` and `size / 2 ≤ y ≤ height - size / 2`. -/
theorem spawn_lands_inside_arena (inp : SpawnInput)
    (hs : 0 ≤ inp.uSize ∧ inp.uSize < 1) (hx : 0 ≤ inp.uX ∧ inp.uX < 1)
    (hy : 0 ≤ inp.uY ∧ inp.uY < 1)
    (hW : ((randInt inp.uSize 58 84 : Int) : ℚ) + 8 ≤ inp.rectWidth)
    (hH : ((randInt inp.uSize 58 84 : Int) : ℚ) + 8 ≤ inp.rectHeight) :
    (∀ (u : ℚ) (lo hi : Int), 0 ≤ u → u < 1 → lo ≤ hi →
      lo ≤ randInt u lo hi ∧ randInt u lo hi ≤ hi) ∧
    (58 ≤ randInt inp.uSize 58 84 ∧ randInt inp.uSize 58 84 ≤ 84) ∧
    ((newTimedTarget inp).startSize = (randInt inp.uSize 58 84 : Int) ∧
      (newTimedTarget inp).startSize / 2 ≤ timedSpawnX inp ∧
      (timedSpawnX inp : ℚ) ≤ inp.rectWidth - (newTimedTarget inp).startSize / 2 ∧
      (newTimedTarget inp).startSize / 2 ≤ timedSpawnY inp ∧
      (timedSpawnY inp : ℚ) ≤ inp.rectHeight - (newTimedTarget inp).startSize / 2) ∧
    ((newTrackingTarget inp).size = (randInt inp.uSize 58 84 : Int) ∧
      (newTrackingTarget inp).size / 2 ≤ (newTrackingTarget inp).x ∧
      (newTrackingTarget inp).x ≤ inp.rectWidth - (newTrackingTarget inp).size / 2 ∧
      (newTrackingTarget inp).size / 2 ≤ (newTrackingTarget inp).y ∧
      (newTrackingTarget inp).y ≤ inp.rectHeight - (newTrackingTarget inp).size / 2) := by
  obtain ⟨x1, x2⟩ := spawnCoord_range inp.uX hx.1 hx.2 _ _ hW
  obtain ⟨y1, y2⟩ := spawnCoord_range inp.uY hy.1 hy.2 _ _ hH
  exact ⟨fun u lo hi h0 h1 h => randInt_range u h0 h1 lo hi h,
    randInt_range inp.uSize hs.1 hs.2 58 84 (by decide),
    ⟨rfl, x1, x2, y1, y2⟩, ⟨rfl, x1, x2, y1, y2⟩⟩

/-! ## Presses on a target that is gone -/

/-- The Timed branch of the press listener, for any id. -/
theorem timed_press_any_id (id : Nat) (dx dy width now : ℚ) (s : State)
    (hrun : s.running = true) (hmode : s.currentMode = .timed) :
    (targetPointerDown id dx dy width now s).points =
      s.points + (if isCenterHit dx dy width then 2 else 1) ∧
    (targetPointerDown id dx dy width now s).hitsCenter =
      s.hitsCenter + (if isCenterHit dx dy width then 1 else 0) ∧
    (targetPointerDown id dx dy width now s).hitsOuter =
      s.hitsOuter + (if isCenterHit dx dy width then 0 else 1) ∧
    (targetPointerDown id dx dy width now s).targets =
      s.targets.eraseP fun t => t.id == id := by
  unfold targetPointerDown
  rw [if_neg (by rw [hrun]; decide)]
  dsimp only
  rw [if_pos hmode]
  simp only [removeTargetById_eq, updateHUD]
  split <;> exact ⟨rfl, rfl, rfl, rfl⟩

/-- The Tracking branch of the press listener on an id that no target has. -/
theorem tracking_press_stale (id : Nat) (dx dy width now : ℚ) (s : State)
    (hmode : s.currentMode = .tracking) (hid : ¬ s.hasTarget id) :
    targetPointerDown id dx dy width now s = s := by
  have hfind : (s.targets.find? fun x => x.id == id) = none := by
    rw [List.find?_eq_none]
    intro x hx hxid
    exact hid ⟨x, hx, by simpa using hxid⟩
  unfold targetPointerDown
  split
  · rfl
  · dsimp only
    rw [if_neg (by rw [hmode]; decide), hfind]

theorem sampleTimed_no_99 : ¬ sampleTimed.hasTarget 99 := by
  rintro ⟨u, hu, hid⟩
  simp only [sampleTimed, List.mem_cons, List.mem_singleton, List.not_mem_nil, or_false] at hu
  rcases hu with h | h <;> subst h <;> exact absurd hid (by decide)

theorem sampleTimedHit_fields :
    sampleTimedHit.running = true ∧ sampleTimedHit.currentMode = .timed ∧
    sampleTimedHit.points = 5 ∧ sampleTimedHit.hitsCenter = 2 ∧
    sampleTimedHit.hitsOuter = 1 ∧
    sampleTimedHit.targets = [.timed ⟨12, 500, 3500, 70⟩] := by
  have hc : isCenterHit 0 0 60 = true := centrePress_isCenter
  obtain ⟨a1, a2, a3, a4⟩ := timed_press_any_id 11 0 0 60 3200 sampleTimed rfl rfl
  obtain ⟨f1, f2, -⟩ := targetPointerDown_frame 11 0 0 60 3200 sampleTimed
  rw [hc] at a1 a2 a3
  refine ⟨f1, f2, a1, a2, a3, ?_⟩
  unfold sampleTimedHit
  rw [a4]
  rfl

theorem detached_rect_zone :
    isCenterHit 0 0 0 = true ∧ isCenterHit 300 200 0 = false := by
  constructor
  · simp only [isCenterHit, CENTER_RADIUS_RATIO, decide_eq_true_eq]
    norm_num
  · simp only [isCenterHit, CENTER_RADIUS_RATIO, decide_eq_false_iff_not]
    norm_num

/-- Counterexample to C12 as written, on the Timed listener: target 11 of the sample
Timed run is destroyed by a centre press, leaving `points = 5`, `hitsCenter = 2`,
`hitsOuter = 1` and no target 11.  Its listener, run once more against the id 11
with the all-zero rectangle of a node that has left the document, scores the
press as if the target were live: pressed at client position (0, 0) it makes
`points = 7` and `hitsCenter = 3`, pressed at (300, 200) it makes `points = 6`
and `hitsOuter = 2`; the pool stays as it is. -/
theorem stale_press_scores_in_timed :
    sampleTimed.hasTarget 11 ∧
    sampleTimedHit.running = true ∧ sampleTimedHit.currentMode = .timed ∧
    ¬ sampleTimedHit.hasTarget 11 ∧
    sampleTimedHit.points = 5 ∧ sampleTimedHit.hitsCenter = 2 ∧
    sampleTimedHit.hitsOuter = 1 ∧
    (targetPointerDown 11 0 0 0 3300 sampleTimedHit).points = 7 ∧
    (targetPointerDown 11 0 0 0 3300 sampleTimedHit).hitsCenter = 3 ∧
    (targetPointerDown 11 300 200 0 3300 sampleTimedHit).points = 6 ∧
    (targetPointerDown 11 300 200 0 3300 sampleTimedHit).hitsOuter = 2 ∧
    (targetPointerDown 11 300 200 0 3300 sampleTimedHit).targets = sampleTimedHit.targets := by
  obtain ⟨h1, h2, h3, h4, h5, h6⟩ := sampleTimedHit_fields
  obtain ⟨z1, z2⟩ := detached_rect_zone
  obtain ⟨a1, a2, -, -⟩ := timed_press_any_id 11 0 0 0 3300 sampleTimedHit h1 h2
  obtain ⟨b1, -, b3, b4⟩ := timed_press_any_id 11 300 200 0 3300 sampleTimedHit h1 h2
  rw [z1, h3] at a1
  rw [z1, h4] at a2
  rw [z2, h3] at b1
  rw [z2, h5] at b3
  have hno : ¬ sampleTimedHit.hasTarget 11 := by
    rintro ⟨u, hu, hid⟩
    rw [h6, List.mem_singleton] at hu
    subst hu
    exact absurd hid (by decide)
  refine ⟨⟨_, List.mem_cons_self _ _, rfl⟩, h1, h2, hno, h3, h4, h5, a1, a2, b1, b3, ?_⟩
  rw [b4, List.eraseP_of_forall_not]
  intro u hu hid
  exact hno ⟨u, hu, by simpa using hid⟩

/-! ## A removed target takes no more presses -/

/-- In Timed mode a press on a live target takes its id out of the pool. -/
theorem timed_press_drops_id (id : Nat) (dx dy width now : ℚ) (s : State)
    (hrun : s.running = true) (hmode : s.currentMode = .timed)
    (hids : (s.targets.map Target.id).Nodup) (hlive : s.hasTarget id) :
    ¬ (targetPointerDown id dx dy width now s).hasTarget id := by
  obtain ⟨t, ht, hid⟩ := hlive
  subst hid
  rw [State.hasTarget, (timed_press_any_id t.id dx dy width now s hrun hmode).2.2.2,
    eraseP_id_eq_erase t s.targets ht hids]
  rintro ⟨u, hu, hid⟩
  exact not_live_erase t s.targets ht hids u hu hid

/-- After `endGame` on a running state the pool has no entry. -/
theorem endGame_clears_pool (reason : String) (s : State) (u : Target)
    (hu : u ∈ (endGame reason s).targets) : s.running = false := by
  by_cases hrun : s.running = true
  · rw [(endGame_of_running reason s hrun).2.1] at hu
    exact absurd hu (List.not_mem_nil u)
  · simpa using hrun

/-- What is left in the pool after `tick` in Timed mode was there before and has
not expired. -/
theorem tick_timed_targets (nowMs width height : ℚ) (s : State) (hi : Inv s)
    (hrun : s.running = true) (hmode : s.currentMode = .timed) :
    ∀ u ∈ (tick nowMs width height s).targets, u ∈ s.targets ∧ u.expired nowMs = false := by
  by_cases hle : GAME_MS - (nowMs - s.startTimeMs) ≤ 0
  · rw [tick_of_time_up nowMs width height s hrun hle]
    intro u hu
    have hstop := endGame_clears_pool _ _ u hu
    exact Bool.noConfusion (hrun.symm.trans hstop)
  · rw [tick_of_time_left nowMs width height s hrun hle, if_pos hmode]
    show ∀ u ∈ (updateTargetsTimed nowMs { s with lastTickMs := nowMs }).targets, _
    obtain ⟨h1, h2⟩ := updateTargetsTimed_spec nowMs { s with lastTickMs := nowMs } hrun
      (hi.expiredLt hrun)
    by_cases hlt : s.expiredMisses + State.expiredCount { s with lastTickMs := nowMs } nowMs <
        EXPIRED_LIMIT
    · rw [h1 hlt]
      intro u hu
      have := List.mem_filter.mp hu
      exact ⟨this.1, by simpa using this.2⟩
    · obtain ⟨ts, hts⟩ := h2 (not_lt.mp hlt)
      rw [hts]
      intro u hu
      have hstop := endGame_clears_pool _ _ u hu
      exact Bool.noConfusion (hrun.symm.trans hstop)

/-- In Timed mode `tick` takes every expired target out of the pool. -/
theorem tick_drops_expired (nowMs width height : ℚ) (s : State) (hi : Inv s)
    (hids : (s.targets.map Target.id).Nodup)
    (hrun : s.running = true) (hmode : s.currentMode = .timed)
    (t : Target) (ht : t ∈ s.targets) (hexp : t.expired nowMs = true) :
    ¬ (tick nowMs width height s).hasTarget t.id := by
  rintro ⟨u, hu, hid⟩
  obtain ⟨hmem, hne⟩ := tick_timed_targets nowMs width height s hi hrun hmode u hu
  have : u = t := List.inj_on_of_nodup_map hids hmem ht hid
  rw [this, hexp] at hne
  cases hne

/-- C12: a press is resolved only against a live target.  The browser delivers a
press to a target exactly while its entry is in the pool, the node leaving the
document in the step that removes the entry.  In Tracking mode the listener also
tests the id itself and is a no-op on an id that no target has, in every state.
In Timed mode the listener has no such test; there, in every reachable running
state, a target that is pressed is out of the pool when
the listener returns, a target that has expired is out of the pool when `tick`
returns, and `endGame`, `startGame` and the restart listener leave no target at
all, so that no later press is delivered for the id. -/
theorem press_resolved_only_on_live_target (s : State) (hs : Reachable s) :
    (∀ (id : Nat) (dx dy width now : ℚ),
      (Event.targetPress id dx dy width now).enabled s ↔ s.hasTarget id) ∧
    (∀ (r : State) (id : Nat) (dx dy width now : ℚ), r.currentMode = .tracking →
      ¬ r.hasTarget id → targetPointerDown id dx dy width now r = r) ∧
    (s.running = true → s.currentMode = .timed →
      ∀ (id : Nat) (dx dy width now : ℚ), s.hasTarget id →
        ¬ (targetPointerDown id dx dy width now s).hasTarget id) ∧
    (s.running = true → s.currentMode = .timed →
      ∀ (nowMs width height : ℚ) (t : Target), t ∈ s.targets → t.expired nowMs = true →
        ¬ (tick nowMs width height s).hasTarget t.id) ∧
    (s.running = true → ∀ (reason : String) (id : Nat), ¬ (endGame reason s).hasTarget id) ∧
    (∀ (m : Bool) (d now : ℚ) (id : Nat),
      ¬ (startGame m d now s).hasTarget id ∧ ¬ (restartClick m d now s).hasTarget id) := by
  refine ⟨fun id dx dy width now => Iff.rfl,
    fun r id dx dy width now hm hid => tracking_press_stale id dx dy width now r hm hid,
    fun hrun hmode id dx dy width now hlive =>
      timed_press_drops_id id dx dy width now s hrun hmode (reachable_ids_nodup hs) hlive,
    fun hrun hmode nowMs width height t ht hexp =>
      tick_drops_expired nowMs width height s (reachable_inv hs) (reachable_ids_nodup hs)
        hrun hmode t ht hexp,
    ?_, ?_⟩
  · rintro hrun reason id ⟨u, hu, -⟩
    have hstop := endGame_clears_pool reason s u hu
    exact Bool.noConfusion (hrun.symm.trans hstop)
  · intro m d now id
    constructor
    · rintro ⟨u, hu, -⟩
      rw [startGame_targets] at hu
      exact absurd hu (List.not_mem_nil u)
    · rintro ⟨u, hu, -⟩
      unfold restartClick at hu
      rw [startGame_targets] at hu
      exact absurd hu (List.not_mem_nil u)

/-! ## The end of a finished run on a failing store -/

theorem endGameTeardown_fields (s : State) :
    (endGameTeardown s).running = false ∧ (endGameTeardown s).targets = [] ∧
    (endGameTeardown s).store = s.store ∧ (endGameTeardown s).hud = s.hud ∧
    (endGameTeardown s).overlay = s.overlay ∧
    (endGameTeardown s).currentMode = s.currentMode ∧
    (endGameTeardown s).points = s.points ∧
    (endGameTeardown s).hitsCenter = s.hitsCenter ∧
    computeAccuracy (endGameTeardown s) = computeAccuracy s := by
  have h : (endGameTeardown s).running = false ∧ (endGameTeardown s).targets = [] ∧
      (endGameTeardown s).store = s.store ∧ (endGameTeardown s).hud = s.hud ∧
      (endGameTeardown s).overlay = s.overlay ∧
      (endGameTeardown s).currentMode = s.currentMode ∧
      (endGameTeardown s).points = s.points ∧
      (endGameTeardown s).hitsCenter = s.hitsCenter ∧
      (endGameTeardown s).hitsOuter = s.hitsOuter ∧
      (endGameTeardown s).hitsShield = s.hitsShield ∧
      (endGameTeardown s).clickMisses = s.clickMisses := by
    unfold endGameTeardown
    dsimp only [clearAllTargets, clearTimeout, cancelAnimationFrame]
    split_ifs <;> exact ⟨rfl, rfl, rfl, rfl, rfl, rfl, rfl, rfl, rfl, rfl, rfl⟩
  obtain ⟨h1, h2, h3, h4, h5, h6, h7, h8, h9, h10, h11⟩ := h
  exact ⟨h1, h2, h3, h4, h5, h6, h7, h8, computeAccuracy_congr _ _ h9 h8 h10 h11⟩

theorem endGameOn_of_running (writable : Bool) (reason : String) (s : State)
    (h : s.running = true) :
    endGameOn writable reason s =
      if reason = "finished" then
        if isBetterScore
            ⟨(endGameTeardown s).points, computeAccuracy (endGameTeardown s),
              (endGameTeardown s).hitsCenter⟩
            (loadRecord (if (endGameTeardown s).currentMode = .timed then LS_KEY_TIMED
              else LS_KEY_TRACKING) (endGameTeardown s))
        then
          match saveRecordOn writable
            (if (endGameTeardown s).currentMode = .timed then LS_KEY_TIMED
              else LS_KEY_TRACKING)
            ⟨(endGameTeardown s).points, computeAccuracy (endGameTeardown s),
              (endGameTeardown s).hitsCenter⟩ (endGameTeardown s) with
          | .threw s => .threw s
          | .returned s => .returned (updateHUD 0 (showOverlay .timeUp s))
        else .returned (updateHUD 0 (showOverlay .timeUp (endGameTeardown s)))
      else if reason = "overwhelmed" then
        .returned (updateHUD 0 (showOverlay .gameOver (endGameTeardown s)))
      else .returned (updateHUD 0 (showOverlay .runEnded (endGameTeardown s))) := by
  unfold endGameOn
  rw [if_neg (by rw [h]; decide)]
  rfl

theorem endGame_of_running_eq (reason : String) (s : State) (h : s.running = true) :
    endGame reason s =
      updateHUD 0
        (if reason = "finished" then
          showOverlay .timeUp
            (if isBetterScore
                ⟨(endGameTeardown s).points, computeAccuracy (endGameTeardown s),
                  (endGameTeardown s).hitsCenter⟩
                (loadRecord (if (endGameTeardown s).currentMode = .timed then LS_KEY_TIMED
                  else LS_KEY_TRACKING) (endGameTeardown s))
            then saveRecord
              (if (endGameTeardown s).currentMode = .timed then LS_KEY_TIMED
                else LS_KEY_TRACKING)
              ⟨(endGameTeardown s).points, computeAccuracy (endGameTeardown s),
                (endGameTeardown s).hitsCenter⟩ (endGameTeardown s)
            else endGameTeardown s)
        else if reason = "overwhelmed" then showOverlay .gameOver (endGameTeardown s)
        else showOverlay .runEnded (endGameTeardown s)) := by
  unfold endGame
  rw [if_neg (by rw [h]; decide)]
  rfl

/-- On a store that takes writes `endGameOn` is `endGame`. -/
theorem endGameOn_writable (reason : String) (s : State) :
    endGameOn true reason s = .returned (endGame reason s) := by
  by_cases h : s.running = true
  · rw [endGameOn_of_running true reason s h, endGame_of_running_eq reason s h]
    simp only [saveRecordOn, if_true]
    split_ifs <;> rfl
  · have h' : s.running = false := by simpa using h
    rw [endGame_of_not_running reason s h']
    unfold endGameOn
    rw [if_pos (by rw [h']; rfl)]

/-- On a store that refuses writes, a finished run whose record is to be saved
leaves `endGame` by the exception of `setItem`. -/
theorem endGameOn_unwritable (s : State) (h : s.running = true)
    (hb : isBetterScore ⟨s.points, computeAccuracy s, s.hitsCenter⟩
      (loadRecord (if s.currentMode = .timed then LS_KEY_TIMED else LS_KEY_TRACKING) s) = true) :
    endGameOn false "finished" s = .threw (endGameTeardown s) := by
  obtain ⟨-, -, h3, -, -, h6, h7, h8, h9⟩ := endGameTeardown_fields s
  have hload : ∀ k, loadRecord k (endGameTeardown s) = loadRecord k s := by
    intro k
    unfold loadRecord
    rw [h3]
  rw [endGameOn_of_running false "finished" s h, if_pos rfl, h6, h7, h8, h9, hload, if_pos hb]
  rfl

theorem endGame_hud_secs (reason : String) (s : State) (h : s.running = true) :
    (endGame reason s).hud.secs = 0 := by
  rw [endGame_of_running_eq reason s h]
  simp [updateHUD]

theorem loadRecord_of_unreadable (key : String) (s : State) (h : s.store key = .unreadable) :
    loadRecord key s = none := by
  unfold loadRecord
  rw [h]

/-- C18: the end of a finished run against a failing store.  A read that fails or
returns unparseable text makes `loadRecord` return `null`, and `endGame("finished")`
then completes: on the sample run with unreadable text under the Timed key it
stops the run, clears the pool, stores the record, shows the "Time!" card and
writes the readout.  On a store that takes the write, `endGameOn` is `endGame`.
But `saveRecord` has no `try`: on the sample run with a store that refuses the
write the exception of `setItem` escapes `endGame("finished")` after
`running = false` and the clearing of the pool, and the "Time!" card is not shown,
the readout is not written (it still shows 56.9 s) and nothing is stored. -/
theorem unwritable_store_aborts_finished_run :
    (∀ (key : String) (s : State), s.store key = .unreadable → loadRecord key s = none) ∧
    ((endGame "finished" sampleTimedUnreadable).running = false ∧
      (endGame "finished" sampleTimedUnreadable).targets = [] ∧
      (endGame "finished" sampleTimedUnreadable).overlay = .timeUp ∧
      (endGame "finished" sampleTimedUnreadable).hud.secs = 0 ∧
      (endGame "finished" sampleTimedUnreadable).store LS_KEY_TIMED =
        .record ⟨3, computeAccuracy sampleTimedUnreadable, 1⟩) ∧
    (∀ (reason : String) (s : State), endGameOn true reason s = .returned (endGame reason s)) ∧
    (endGameOn false "finished" sampleTimed = .threw (endGameTeardown sampleTimed) ∧
      (endGameTeardown sampleTimed).running = false ∧
      (endGameTeardown sampleTimed).targets = [] ∧
      (endGameTeardown sampleTimed).overlay = .hidden ∧
      (endGameTeardown sampleTimed).hud.secs = 569 / 10 ∧
      (endGameTeardown sampleTimed).store LS_KEY_TIMED = .missing) := by
  refine ⟨loadRecord_of_unreadable, ?_, endGameOn_writable, ?_⟩
  · obtain ⟨h1, h2, h3, h4⟩ := endGame_finished sampleTimedUnreadable rfl
    refine ⟨h1, h3, h2, endGame_hud_secs _ _ rfl, ?_⟩
    have hl : loadRecord LS_KEY_TIMED sampleTimedUnreadable = none :=
      loadRecord_of_unreadable _ _ (by simp [sampleTimedUnreadable])
    have hm : sampleTimedUnreadable.currentMode = .timed := rfl
    rw [h4, hm, if_pos rfl, hl]
    simp only [isBetterScore, if_true, Function.update_same]
    rfl
  · have hb : isBetterScore ⟨sampleTimed.points, computeAccuracy sampleTimed,
        sampleTimed.hitsCenter⟩
        (loadRecord (if sampleTimed.currentMode = .timed then LS_KEY_TIMED
          else LS_KEY_TRACKING) sampleTimed) = true := by
      have hl : loadRecord (if sampleTimed.currentMode = .timed then LS_KEY_TIMED
          else LS_KEY_TRACKING) sampleTimed = none := rfl
      rw [hl]
      rfl
    obtain ⟨f1, f2, f3, f4, f5, -, -, -, -⟩ := endGameTeardown_fields sampleTimed
    refine ⟨endGameOn_unwritable sampleTimed rfl hb, f1, f2, ?_, ?_, ?_⟩
    · rw [f5]; rfl
    · rw [f4]; rfl
    · rw [f3]; rfl

/-! ## The animation frame requested after a Timed overwhelm -/

theorem startGame_timed_schedule (d now : ℚ) (s : State) :
    (startGame true d now s).startTimeMs = now ∧
    (startGame true d now s).pendingFrames = s.pendingFrames ++ [s.nextHandle + 1] ∧
    (startGame true d now s).rafId = some (s.nextHandle + 1) ∧
    (startGame true d now s).nextHandle = s.nextHandle + 1 + 1 ∧
    (startGame true d now s).spawnTimeoutId = some s.nextHandle ∧
    ∃ dl, (startGame true d now s).pendingTimers = s.pendingTimers ++ [⟨s.nextHandle, .timed, dl⟩] := by
  refine ⟨?_, ?_, ?_, ?_, ?_, ⟨timedSpawnDelayMs 0 (applyDifficultyFromUI d s), ?_⟩⟩ <;>
    simp [startGame, applyDifficultyFromUI, resetStats, clearAllTargets, hideOverlay,
      scheduleNextSpawnTimed, setTimeout, requestAnimationFrame, timedSpawnDelayMs,
      elapsedSeconds]

theorem bootSample_fields :
    bootSample.pendingFrames = [] ∧ bootSample.pendingTimers = [] ∧
    bootSample.nextHandle = 1 ∧ bootSample.startBtnDisabled = false ∧
    bootSample.running = false := by
  refine ⟨?_, ?_, ?_, ?_, ?_⟩ <;>
    simp [bootSample, boot, updateHUD, showOverlay, applyDifficultyFromUI]

theorem shape_start : TimedRunShape 0 1 3 (startGame true 1 0 bootSample) := by
  obtain ⟨h1, h2, h3, h4, h5, dl, h6⟩ := startGame_timed_schedule 1 0 bootSample
  obtain ⟨b1, b2, b3, -, -⟩ := bootSample_fields
  obtain ⟨f1, f2, f3, -, -, f6⟩ := startGame_fields true 1 0 bootSample
  rw [b1, b3] at h2
  rw [b3] at h3 h4 h5
  rw [b2, b3] at h6
  exact
    { running := f1
      mode := f6
      start := h1
      expired := f2.expiredMisses
      frames := h2
      raf := h3
      handle := h4
      positive := by decide
      timeoutId := h5
      timers := ⟨dl, h6⟩
      count := by rw [f3]; rfl
      due := by rw [f3]; simp
      ids := by rw [f3]; simp }

theorem runTimeout_single (h : Nat) (inp : SpawnInput) (s : State) (d : ℚ)
    (hrun : s.running = true) (htm : s.pendingTimers = [⟨h, .timed, d⟩]) :
    ∃ dl, runTimeout h inp s =
      { s with pendingTimers := [⟨s.nextHandle, .timed, dl⟩]
               targets := s.targets ++ [.timed (newTimedTarget inp)]
               nextHandle := s.nextHandle + 1
               spawnTimeoutId := some s.nextHandle } := by
  refine ⟨timedSpawnDelayMs (elapsedSeconds inp.now s) s, ?_⟩
  simp [runTimeout, htm, spawnCallback, spawnTargetTimed, scheduleNextSpawnTimed, setTimeout,
    hrun, timedSpawnDelayMs, elapsedSeconds]

theorem shape_step (n h next : Nat) (inp : SpawnInput) (s : State)
    (hs : TimedRunShape n h next s) (hid : inp.id = 101 + n)
    (hnow : inp.now + TARGET_LIFETIME_MS ≤ 20000) (hnext : next ≠ 0) :
    TimedRunShape (n + 1) next (next + 1) (runTimeout h inp s) := by
  obtain ⟨d, hd⟩ := hs.timers
  obtain ⟨dl, heq⟩ := runTimeout_single h inp s d hs.running hd
  rw [heq]
  exact
    { running := hs.running
      mode := hs.mode
      start := hs.start
      expired := hs.expired
      frames := hs.frames
      raf := hs.raf
      handle := by simp [hs.handle]
      positive := hnext
      timeoutId := by simp [hs.handle]
      timers := ⟨dl, by simp [hs.handle]⟩
      count := by simp [hs.count]
      due := by
        intro t ht
        simp only [List.mem_append, List.mem_singleton] at ht
        rcases ht with ht | ht
        · exact hs.due t ht
        · subst ht
          simpa [Target.expired, newTimedTarget] using hnow
      ids := by
        intro t ht
        simp only [List.mem_append, List.mem_singleton] at ht
        rcases ht with ht | ht
        · have := hs.ids t ht
          omega
        · subst ht
          simp [Target.id, newTimedTarget, hid]
          omega }

theorem endGameTeardown_handles (s : State) :
    (endGameTeardown s).rafId = (if truthy s.rafId then none else s.rafId) ∧
    (endGameTeardown s).spawnTimeoutId =
      (if truthy s.spawnTimeoutId then none else s.spawnTimeoutId) ∧
    (endGameTeardown s).pendingFrames =
      (if truthy s.rafId then s.pendingFrames.filter fun f => some f != s.rafId
        else s.pendingFrames) := by
  by_cases h1 : truthy s.spawnTimeoutId = true <;> by_cases h2 : truthy s.rafId = true <;>
    simp [endGameTeardown, h1, h2, clearTimeout, cancelAnimationFrame, clearAllTargets]

theorem endGame_handles (reason : String) (s : State) (h : s.running = true) :
    (endGame reason s).rafId = (if truthy s.rafId then none else s.rafId) ∧
    (endGame reason s).spawnTimeoutId =
      (if truthy s.spawnTimeoutId then none else s.spawnTimeoutId) ∧
    (endGame reason s).pendingFrames =
      (if truthy s.rafId then s.pendingFrames.filter fun f => some f != s.rafId
        else s.pendingFrames) := by
  obtain ⟨h1, h2, h3⟩ := endGameTeardown_handles s
  rw [endGame_of_running_eq reason s h, ← h1, ← h2, ← h3]
  refine ⟨?_, ?_, ?_⟩ <;> split_ifs <;> rfl

theorem expiredCount_of_all_due (nowMs : ℚ) (s : State)
    (h : ∀ t ∈ s.targets, t.expired nowMs = true) :
    s.expiredCount nowMs = s.targets.length := by
  unfold State.expiredCount
  rw [List.filter_eq_self.mpr h]

theorem tick_overwhelm_handles (h next : Nat) (w hgt d : ℚ) (u : State)
    (hrun : u.running = true) (hmode : u.currentMode = .timed) (hstart : u.startTimeMs = 0)
    (hexp : u.expiredMisses = 0) (hcount : u.targets.length = 5)
    (hdue : ∀ t ∈ u.targets, t.expired 20000 = true)
    (hraf : u.rafId = some 2) (hframes : u.pendingFrames = [])
    (hto : u.spawnTimeoutId = some h) (hpos : h ≠ 0)
    (htm : u.pendingTimers = [⟨h, .timed, d⟩]) (hnext : u.nextHandle = next) :
    (tick 20000 w hgt u).running = false ∧
    (tick 20000 w hgt u).rafId = some next ∧
    (tick 20000 w hgt u).pendingFrames = [next] ∧
    (tick 20000 w hgt u).spawnTimeoutId = none ∧
    (tick 20000 w hgt u).pendingTimers = [] ∧
    (tick 20000 w hgt u).nextHandle = next + 1 ∧
    (tick 20000 w hgt u).overlay = .gameOver := by
  rw [tick_of_time_left 20000 w hgt u hrun (by rw [hstart]; norm_num [GAME_MS]), if_pos hmode]
  obtain ⟨ts, hts⟩ := (updateTargetsTimed_spec 20000 { u with lastTickMs := 20000 } hrun
    (by show u.expiredMisses < EXPIRED_LIMIT; rw [hexp]; decide)).2 (by
      rw [expiredCount_of_all_due 20000 { u with lastTickMs := 20000 } hdue]
      show EXPIRED_LIMIT ≤ u.expiredMisses + u.targets.length
      rw [hexp, hcount]; decide)
  rw [hts]
  generalize hv : ({ { u with lastTickMs := 20000 } with
    expiredMisses := EXPIRED_LIMIT, targets := ts } : State) = v
  have vrun : v.running = true := by rw [← hv]; exact hrun
  have vraf : v.rafId = some 2 := by rw [← hv]; exact hraf
  have vframes : v.pendingFrames = [] := by rw [← hv]; exact hframes
  have vto : v.spawnTimeoutId = some h := by rw [← hv]; exact hto
  have vtm : v.pendingTimers = [⟨h, .timed, d⟩] := by rw [← hv]; exact htm
  have vnext : v.nextHandle = next := by rw [← hv]; exact hnext
  obtain ⟨e1, e2, e3⟩ := endGame_handles "overwhelmed" v vrun
  have e4 := endGame_pendingTimers_nil "overwhelmed" v vrun (by
    intro tm htm
    rw [vtm, List.mem_singleton] at htm
    subst htm
    exact ⟨vto, hpos⟩)
  have e5 := (endGame_frame "overwhelmed" v).2.2.2.2.2.2.2
  have e6 := (endGame_of_running "overwhelmed" v vrun).1
  have e7 := endGame_overlay_overwhelmed v vrun
  rw [vraf] at e1 e3
  rw [vto] at e2
  rw [vframes] at e3
  rw [vnext] at e5
  have t2 : truthy (some 2) = true := by decide
  have th : truthy (some h) = true := by simp [truthy, hpos]
  rw [if_pos t2] at e1 e3
  rw [if_pos th] at e2
  generalize endGame "overwhelmed" v = r at *
  simp only [requestAnimationFrame, updateHUD]
  refine ⟨e6, ?_, ?_, e2, e4, ?_, e7⟩
  · rw [e5]
  · rw [e3, e5]; rfl
  · rw [e5]

theorem shape_frame (h next : Nat) (w hgt : ℚ) (s : State) (hs : TimedRunShape 5 h next s) :
    (runFrame 2 20000 w hgt s).running = false ∧
    (runFrame 2 20000 w hgt s).rafId = some next ∧
    (runFrame 2 20000 w hgt s).pendingFrames = [next] ∧
    (runFrame 2 20000 w hgt s).spawnTimeoutId = none ∧
    (runFrame 2 20000 w hgt s).pendingTimers = [] ∧
    (runFrame 2 20000 w hgt s).nextHandle = next + 1 ∧
    (runFrame 2 20000 w hgt s).overlay = .gameOver := by
  obtain ⟨d, hd⟩ := hs.timers
  unfold runFrame
  exact tick_overwhelm_handles h next w hgt d
    { s with pendingFrames := s.pendingFrames.filter fun f => f != 2 }
    hs.running hs.mode hs.start hs.expired hs.count hs.due hs.raf
    (by show s.pendingFrames.filter (fun f => f != 2) = []; rw [hs.frames]; rfl)
    hs.timeoutId hs.positive hd hs.handle

/-! ## The timeout handle outside a run -/

theorem IdleTimeout.of_same_run {s r : State} (hi : IdleTimeout s) (h1 : r.running = s.running)
    (h2 : r.spawnTimeoutId = s.spawnTimeoutId) (h3 : r.nextHandle ≠ 0) : IdleTimeout r where
  idle := by rw [h1, h2]; exact hi.idle
  positive := by rw [h2]; exact hi.positive
  handle := h3

theorem eq_none_of_not_truthy (o : Option Nat) (h : ¬ truthy o = true) (hp : o ≠ some 0) :
    o = none := by
  cases o with
  | none => rfl
  | some n =>
    exfalso
    apply hp
    simpa [truthy] using h

theorem idle_endGame (reason : String) (s : State) (hi : IdleTimeout s) :
    IdleTimeout (endGame reason s) := by
  by_cases hr : s.running = true
  · have h2 := (endGame_handles reason s hr).2.1
    have h5 := (endGame_frame reason s).2.2.2.2.2.2.2
    have hnone : (endGame reason s).spawnTimeoutId = none := by
      rw [h2]
      split
      · rfl
      · rename_i hn
        exact eq_none_of_not_truthy _ hn hi.positive
    exact ⟨fun _ => hnone, by rw [hnone]; simp, by rw [h5]; exact hi.handle⟩
  · rw [endGame_of_not_running reason s (by simpa using hr)]
    exact hi

theorem idle_scheduleNextSpawnTimed (now : ℚ) (s : State) (hi : IdleTimeout s) :
    IdleTimeout (scheduleNextSpawnTimed now s) := by
  by_cases hr : s.running = true
  · unfold scheduleNextSpawnTimed
    rw [if_neg (by rw [hr]; decide)]
    refine ⟨fun h => ?_, ?_, ?_⟩
    · exact absurd (show s.running = false from h) (by rw [hr]; decide)
    · show some s.nextHandle ≠ some 0
      exact fun h => hi.handle (Option.some.inj h)
    · exact Nat.succ_ne_zero _
  · rw [scheduleNextSpawnTimed_of_not_running now s (by simpa using hr)]
    exact hi

theorem idle_scheduleNextSpawnTracking (now : ℚ) (s : State) (hi : IdleTimeout s) :
    IdleTimeout (scheduleNextSpawnTracking now s) := by
  by_cases hr : s.running = true
  · unfold scheduleNextSpawnTracking
    rw [if_neg (by rw [hr]; decide)]
    refine ⟨fun h => ?_, ?_, ?_⟩
    · exact absurd (show s.running = false from h) (by rw [hr]; decide)
    · show some s.nextHandle ≠ some 0
      exact fun h => hi.handle (Option.some.inj h)
    · exact Nat.succ_ne_zero _
  · rw [scheduleNextSpawnTracking_of_not_running now s (by simpa using hr)]
    exact hi

theorem idle_startGame (m : Bool) (d now : ℚ) (s : State) (hi : IdleTimeout s) :
    IdleTimeout (startGame m d now s) := by
  have hrun := (startGame_fields m d now s).1
  have h : (startGame m d now s).spawnTimeoutId = some s.nextHandle ∧
      (startGame m d now s).nextHandle = s.nextHandle + 1 + 1 := by
    cases m <;> constructor <;>
      simp [startGame, applyDifficultyFromUI, resetStats, clearAllTargets, hideOverlay,
        scheduleNextSpawnTimed, scheduleNextSpawnTracking, setTimeout, requestAnimationFrame]
  refine ⟨fun h0 => ?_, ?_, ?_⟩
  · rw [hrun] at h0
    cases h0
  · rw [h.1]
    exact fun h => hi.handle (Option.some.inj h)
  · rw [h.2]
    exact Nat.succ_ne_zero _

theorem idle_updateTargetsTimedLoop (nowMs : ℚ) (i : Nat) :
    ∀ s : State, IdleTimeout s → IdleTimeout (updateTargetsTimedLoop nowMs i s) := by
  induction i with
  | zero =>
    intro s hi
    exact hi
  | succ i ih =>
    intro s hi
    unfold updateTargetsTimedLoop
    split
    · exact hi
    · split
      · dsimp only
        split
        · exact idle_endGame _ _ (hi.of_same_run rfl rfl hi.handle)
        · exact ih _ (hi.of_same_run rfl rfl hi.handle)
      · exact ih s hi

theorem idle_tick (nowMs width height : ℚ) (s : State) (hi : IdleTimeout s) :
    IdleTimeout (tick nowMs width height s) := by
  by_cases hr : s.running = true
  · by_cases hle : GAME_MS - (nowMs - s.startTimeMs) ≤ 0
    · rw [tick_of_time_up nowMs width height s hr hle]
      exact idle_endGame _ _ (hi.of_same_run rfl rfl hi.handle)
    · rw [tick_of_time_left nowMs width height s hr hle]
      by_cases hm : s.currentMode = .timed
      · rw [if_pos hm]
        have h := idle_updateTargetsTimedLoop nowMs s.targets.length
          { s with lastTickMs := nowMs } (hi.of_same_run rfl rfl hi.handle)
        exact h.of_same_run rfl rfl (Nat.succ_ne_zero _)
      · rw [if_neg hm]
        exact hi.of_same_run rfl rfl (Nat.succ_ne_zero _)
  · rw [tick_of_not_running nowMs width height s (by simpa using hr)]
    exact hi

theorem idle_spawnCallback (kind : Mode) (inp : SpawnInput) (s : State) (hi : IdleTimeout s) :
    IdleTimeout (spawnCallback kind inp s) := by
  cases kind with
  | timed =>
    unfold spawnCallback
    apply idle_scheduleNextSpawnTimed
    unfold spawnTargetTimed
    split
    · exact hi
    · exact hi.of_same_run rfl rfl hi.handle
  | tracking =>
    unfold spawnCallback
    apply idle_scheduleNextSpawnTracking
    unfold spawnTargetTracking
    dsimp only
    split
    · exact hi
    · split
      · exact idle_endGame _ _ (hi.of_same_run rfl rfl hi.handle)
      · exact hi.of_same_run rfl rfl hi.handle

theorem idle_runTimeout (handle : Nat) (inp : SpawnInput) (s : State) (hi : IdleTimeout s) :
    IdleTimeout (runTimeout handle inp s) := by
  unfold runTimeout
  split
  · exact hi
  · exact idle_spawnCallback _ _ _ (hi.of_same_run rfl rfl hi.handle)

theorem idle_boot (store : String → Stored) (diff : ℚ) (a b : Bool) :
    IdleTimeout (boot store diff a b) :=
  ⟨fun _ => rfl, fun h => Option.noConfusion h, Nat.succ_ne_zero 0⟩

/-- Between two callbacks `spawnTimeoutId` is `null` outside a run. -/
theorem reachable_idleTimeout {s : State} (h : Reachable s) : IdleTimeout s := by
  induction h with
  | boot store diff a b => exact idle_boot store diff a b
  | @step s0 e _ hen ih =>
    cases e with
    | startClick m d now => exact idle_startGame m d now s0 ih
    | restartClick m d now =>
      show IdleTimeout (restartClick m d now s0)
      unfold restartClick
      dsimp only
      split
      · exact idle_startGame _ _ _ _ (idle_endGame _ _ ih)
      · exact idle_startGame _ _ _ _ ih
    | animationFrame h now w hgt => exact idle_tick _ _ _ _ (ih.of_same_run rfl rfl ih.handle)
    | timeout h inp => exact idle_runTimeout _ _ _ ih
    | targetPress id dx dy w now =>
      obtain ⟨h1, -, -, -, -, h6, -, h8, -, -⟩ := targetPointerDown_frame id dx dy w now s0
      exact ih.of_same_run h1 h6 (h8 ▸ ih.handle)
    | stagePress now =>
      show IdleTimeout (stagePointerDown now s0)
      unfold stagePointerDown
      split
      · exact ih
      · exact ih.of_same_run rfl rfl ih.handle
    | sliderInput d => exact ih.of_same_run rfl rfl ih.handle
    | modeChange =>
      show IdleTimeout (syncControls s0)
      unfold syncControls
      split
      · exact ih.of_same_run rfl rfl ih.handle
      · exact ih

theorem shape_timeout_enabled (n h next : Nat) (inp : SpawnInput) (s : State)
    (hs : TimedRunShape n h next s) (hid : inp.id = 101 + n) :
    (Event.timeout h inp).enabled s := by
  obtain ⟨d, hd⟩ := hs.timers
  refine ⟨⟨⟨h, .timed, d⟩, by rw [hd]; exact List.mem_singleton.mpr rfl, rfl⟩, ?_⟩
  intro hmem
  obtain ⟨t, ht, hteq⟩ := List.mem_map.mp hmem
  have := (hs.ids t ht).2
  omega

/-- C20: `endGame` itself leaves both handles `null` on a running state whose handles
are not 0, and between two callbacks of a stopped run `spawnTimeoutId` is `null` and
no timeout is pending.  But `rafId` is not always `null` there: in the Timed run
`overwhelmedTimedRun` (Start, five spawn callbacks, then the animation frame at
20 s that finds all five targets expired) the run is stopped by `endGame` inside the
update step of `tick`, and `tick` goes on to request the animation frame 8, so the
state after the callback has `running = false` on the "GAME OVER" card with
`rafId = 8` and that frame pending and deliverable. -/
theorem tick_reschedules_after_timed_overwhelm :
    (∀ (reason : String) (s : State), s.running = true → s.rafId ≠ some 0 →
      s.spawnTimeoutId ≠ some 0 →
      (endGame reason s).rafId = none ∧ (endGame reason s).spawnTimeoutId = none) ∧
    (∀ s : State, Reachable s → s.running = false →
      s.spawnTimeoutId = none ∧ s.pendingTimers = []) ∧
    Reachable (runEvents overwhelmedTimedRun bootSample) ∧
    (runEvents overwhelmedTimedRun bootSample).running = false ∧
    (runEvents overwhelmedTimedRun bootSample).overlay = .gameOver ∧
    (runEvents overwhelmedTimedRun bootSample).spawnTimeoutId = none ∧
    (runEvents overwhelmedTimedRun bootSample).pendingTimers = [] ∧
    (runEvents overwhelmedTimedRun bootSample).rafId = some 8 ∧
    (runEvents overwhelmedTimedRun bootSample).pendingFrames = [8] ∧
    (Event.animationFrame 8 20016 800 600).enabled
      (runEvents overwhelmedTimedRun bootSample) := by
  have h0 := shape_start
  have h1 := shape_step 0 1 3 (spawnAt 101 2000) _ h0 rfl
    (by show (2000 : ℚ) + 3000 ≤ 20000; norm_num) (by decide)
  have h2 := shape_step 1 3 4 (spawnAt 102 4000) _ h1 rfl
    (by show (4000 : ℚ) + 3000 ≤ 20000; norm_num) (by decide)
  have h3 := shape_step 2 4 5 (spawnAt 103 6000) _ h2 rfl
    (by show (6000 : ℚ) + 3000 ≤ 20000; norm_num) (by decide)
  have h4 := shape_step 3 5 6 (spawnAt 104 8000) _ h3 rfl
    (by show (8000 : ℚ) + 3000 ≤ 20000; norm_num) (by decide)
  have h5 := shape_step 4 6 7 (spawnAt 105 10000) _ h4 rfl
    (by show (10000 : ℚ) + 3000 ≤ 20000; norm_num) (by decide)
  have hmem : ∀ (f : Nat) (s : State), s.pendingFrames = [f] → f ∈ s.pendingFrames :=
    fun f s h => by rw [h]; exact List.mem_singleton.mpr rfl
  have r0 : Reachable bootSample := Reachable.boot _ _ _ _
  have r1 := Reachable.step (.startClick true 1 0) r0 bootSample_fields.2.2.2.1
  have r2 := Reachable.step (.timeout 1 (spawnAt 101 2000)) r1
    (shape_timeout_enabled 0 1 3 _ _ h0 rfl)
  have r3 := Reachable.step (.timeout 3 (spawnAt 102 4000)) r2
    (shape_timeout_enabled 1 3 4 _ _ h1 rfl)
  have r4 := Reachable.step (.timeout 4 (spawnAt 103 6000)) r3
    (shape_timeout_enabled 2 4 5 _ _ h2 rfl)
  have r5 := Reachable.step (.timeout 5 (spawnAt 104 8000)) r4
    (shape_timeout_enabled 3 5 6 _ _ h3 rfl)
  have r6 := Reachable.step (.timeout 6 (spawnAt 105 10000)) r5
    (shape_timeout_enabled 4 6 7 _ _ h4 rfl)
  have r7 := Reachable.step (.animationFrame 2 20000 800 600) r6
    (hmem 2 _ h5.frames)
  obtain ⟨f1, f2, f3, f4, f5, -, f7⟩ := shape_frame 7 8 800 600 _ h5
  refine ⟨?_, ?_, r7, f1, f7, f4, f5, f2, f3, ?_⟩
  · intro reason s hr h1 h2
    obtain ⟨e1, e2, -⟩ := endGame_handles reason s hr
    rw [e1, e2]
    constructor
    · split
      · rfl
      · rename_i hn
        exact eq_none_of_not_truthy _ hn h1
    · split
      · rfl
      · rename_i hn
        exact eq_none_of_not_truthy _ hn h2
  · intro s hs hr
    exact ⟨(reachable_idleTimeout hs).idle hr,
      pendingTimers_nil_of_not_running (reachable_inv hs) (by rw [hr]; decide)⟩
  · exact hmem 8 _ f3

/-! ## The score and the hit counters -/

theorem ScoreIdentity.of_same_score {s r : State} (h : ScoreIdentity s)
    (h1 : r.points = s.points) (h2 : r.hitsOuter = s.hitsOuter)
    (h3 : r.hitsCenter = s.hitsCenter) (h4 : r.hitsShield = s.hitsShield) :
    ScoreIdentity r := by
  unfold ScoreIdentity at *
  rw [h1, h2, h3, h4]
  exact h

theorem ScoreIdentity.of_sameCounters {s r : State} (h : ScoreIdentity s)
    (hc : SameCounters s r) : ScoreIdentity r :=
  h.of_same_score hc.points hc.hitsOuter hc.hitsCenter hc.hitsShield

theorem ScoreIdentity.of_zeroCounters {s : State} (h : ZeroCounters s) : ScoreIdentity s := by
  unfold ScoreIdentity
  rw [h.points, h.hitsOuter, h.hitsCenter, h.hitsShield]

theorem score_endGame (reason : String) (s : State) (h : ScoreIdentity s) :
    ScoreIdentity (endGame reason s) :=
  h.of_sameCounters (endGame_sameCounters reason s)

theorem score_spawnCallback (kind : Mode) (inp : SpawnInput) (s : State)
    (h : ScoreIdentity s) : ScoreIdentity (spawnCallback kind inp s) :=
  h.of_sameCounters (spawnCallback_sameCounters kind inp s)

theorem score_targetPointerDown (id : Nat) (dx dy width now : ℚ) (s : State)
    (h : ScoreIdentity s) : ScoreIdentity (targetPointerDown id dx dy width now s) := by
  unfold ScoreIdentity at *
  unfold targetPointerDown
  split
  · exact h
  · dsimp only
    split
    · simp only [removeTargetById_eq, updateHUD]
      split <;> dsimp only <;> omega
    · split
      · exact h
      · simp only [removeTargetById_eq, updateHUD]
        split_ifs <;> dsimp only <;> omega
      · simp only [updateHUD]
        split_ifs <;> dsimp only <;> omega

theorem score_updateTargetsTimedLoop (nowMs : ℚ) (i : Nat) :
    ∀ s : State, ScoreIdentity s → ScoreIdentity (updateTargetsTimedLoop nowMs i s) := by
  induction i with
  | zero =>
    intro s h
    exact h
  | succ i ih =>
    intro s h
    unfold updateTargetsTimedLoop
    split
    · exact h
    · split
      · dsimp only
        split
        · exact score_endGame _ _ (h.of_same_score rfl rfl rfl rfl)
        · exact ih _ (h.of_same_score rfl rfl rfl rfl)
      · exact ih s h

theorem score_tick (nowMs width height : ℚ) (s : State) (h : ScoreIdentity s) :
    ScoreIdentity (tick nowMs width height s) := by
  by_cases hr : s.running = true
  · by_cases hle : GAME_MS - (nowMs - s.startTimeMs) ≤ 0
    · rw [tick_of_time_up nowMs width height s hr hle]
      exact score_endGame _ _ (h.of_same_score rfl rfl rfl rfl)
    · rw [tick_of_time_left nowMs width height s hr hle]
      by_cases hm : s.currentMode = .timed
      · rw [if_pos hm]
        have h1 := score_updateTargetsTimedLoop nowMs s.targets.length
          { s with lastTickMs := nowMs } (h.of_same_score rfl rfl rfl rfl)
        exact h1.of_same_score rfl rfl rfl rfl
      · rw [if_neg hm]
        exact h.of_same_score rfl rfl rfl rfl
  · rw [tick_of_not_running nowMs width height s (by simpa using hr)]
    exact h

theorem score_runTimeout (handle : Nat) (inp : SpawnInput) (s : State) (h : ScoreIdentity s) :
    ScoreIdentity (runTimeout handle inp s) := by
  unfold runTimeout
  split
  · exact h
  · exact score_spawnCallback _ _ _ (h.of_same_score rfl rfl rfl rfl)

theorem score_startGame (m : Bool) (d now : ℚ) (s : State) :
    ScoreIdentity (startGame m d now s) :=
  ScoreIdentity.of_zeroCounters (startGame_fields m d now s).2.1

theorem score_event (e : Event) (s : State) (h : ScoreIdentity s) :
    ScoreIdentity (e.apply s) := by
  cases e with
  | startClick m d now => exact score_startGame m d now s
  | restartClick m d now => exact score_startGame m d now _
  | animationFrame hd now w hgt => exact score_tick _ _ _ _ (h.of_same_score rfl rfl rfl rfl)
  | timeout hd inp => exact score_runTimeout _ _ _ h
  | targetPress id dx dy w now => exact score_targetPointerDown id dx dy w now s h
  | stagePress now =>
    show ScoreIdentity (stagePointerDown now s)
    unfold stagePointerDown
    split
    · exact h
    · exact h.of_same_score rfl rfl rfl rfl
  | sliderInput d => exact h.of_same_score rfl rfl rfl rfl
  | modeChange =>
    show ScoreIdentity (syncControls s)
    unfold syncControls
    split
    · exact h.of_same_score rfl rfl rfl rfl
    · exact h

theorem score_runEvents (es : List Event) :
    ∀ s : State, ScoreIdentity s → ScoreIdentity (runEvents es s) := by
  induction es with
  | nil =>
    intro s h
    exact h
  | cons e es ih =>
    intro s h
    exact ih _ (score_event e s h)

theorem score_boot (store : String → Stored) (diff : ℚ) (a b : Bool) :
    ScoreIdentity (boot store diff a b) := by
  unfold ScoreIdentity
  rfl

theorem score_reachable {s : State} (h : Reachable s) : ScoreIdentity s := by
  induction h with
  | boot store diff a b => exact score_boot store diff a b
  | @step s0 e _ _ ih => exact score_event e s0 ih

/-- C21: in every state reached from `startGame`, called in any state, by any sequence
of events (animation frames, spawn timeouts with the shield toggle on or off, presses
on targets, presses on the stage, restarts and the end transitions inside them,
in either mode), `points = hitsOuter + 2 * hitsCenter + hitsShield`; the same holds
in every state reachable from the loaded page.  Every event keeps the identity, and
so does `endGame` for every reason. -/
theorem points_match_hits :
    (∀ (es : List Event) (m : Bool) (d now : ℚ) (s0 : State),
      (runEvents es (startGame m d now s0)).points =
        (runEvents es (startGame m d now s0)).hitsOuter +
          2 * (runEvents es (startGame m d now s0)).hitsCenter +
          (runEvents es (startGame m d now s0)).hitsShield) ∧
    (∀ s : State, Reachable s →
      s.points = s.hitsOuter + 2 * s.hitsCenter + s.hitsShield) ∧
    (∀ (e : Event) (s : State), ScoreIdentity s → ScoreIdentity (e.apply s)) ∧
    (∀ (reason : String) (s : State), ScoreIdentity s → ScoreIdentity (endGame reason s)) :=
  ⟨fun es m d now s0 => score_runEvents es _ (score_startGame m d now s0),
    fun _ h => score_reachable h, score_event, score_endGame⟩

/-! ## Instances on the sample states -/

theorem computeAccuracy_spec_witness :
    sampleTimed.hitsOuter + sampleTimed.hitsCenter + sampleTimed.hitsShield +
      sampleTimed.clickMisses ≠ 0 ∧
    computeAccuracy sampleTimed = 2 / 3 ∧
    computeAccuracy (boot (fun _ => .missing) 1 false true) = 0 :=
  ⟨by decide,
    by rw [(computeAccuracy_spec sampleTimed).1 (by decide)]; norm_num [sampleTimed],
    (computeAccuracy_spec (boot (fun _ => .missing) 1 false true)).2.1 rfl rfl rfl rfl⟩

theorem isBetterScore_lexicographic_witness :
    (99 : Nat) < 100 ∧ isBetterScore ⟨99, 1, 50⟩ (some ⟨100, 0, 0⟩) = false :=
  ⟨by decide, isBetterScore_lexicographic.2.2.2.2.1 ⟨99, 1, 50⟩ ⟨100, 0, 0⟩ (by decide)⟩

theorem endGame_keeps_store_unless_finished_witness :
    "restart" ≠ "finished" ∧ (endGame "restart" sampleTimed).store = sampleTimed.store :=
  ⟨by decide, (endGame_keeps_store_unless_finished "restart" sampleTimed (by decide)).1⟩

theorem spawnDelay_bounded_antitone_witness :
    1 ≤ 4 ∧ 4 ≤ 10 ∧ (10 : ℚ) ≤ 20 ∧
    timedSpawnDelayMs 20 (applyDifficultyFromUI ((4 : ℕ) : ℚ) sampleTimed) ≤
      timedSpawnDelayMs 10 (applyDifficultyFromUI ((4 : ℕ) : ℚ) sampleTimed) :=
  ⟨by decide, by decide, by norm_num,
    (spawnDelay_bounded_antitone 4 (by decide) (by decide) sampleTimed 10 20
      (by norm_num)).2.2.1.2.2.1⟩

theorem timed_press_scores_and_removes_witness :
    sampleTimed.running = true ∧ sampleTimed.currentMode = .timed ∧
    Target.timed ⟨11, 0, 3000, 60⟩ ∈ sampleTimed.targets ∧
    (sampleTimed.targets.map Target.id).Nodup ∧
    (targetPointerDown 11 0 0 60 3200 sampleTimed).points = sampleTimed.points + 2 ∧
    (targetPointerDown 11 20 0 60 3200 sampleTimed).points = sampleTimed.points + 1 ∧
    (targetPointerDown 11 0 0 60 3200 sampleTimed).targets =
      sampleTimed.targets.erase (.timed ⟨11, 0, 3000, 60⟩) :=
  have hmem : Target.timed ⟨11, 0, 3000, 60⟩ ∈ sampleTimed.targets := List.mem_cons_self _ _
  have hnd : (sampleTimed.targets.map Target.id).Nodup := by decide
  ⟨rfl, rfl, hmem, hnd,
    ((timed_press_scores_and_removes sampleTimed (.timed ⟨11, 0, 3000, 60⟩) 0 0 60 3200 rfl rfl
      hmem hnd).1 (by norm_num)).1,
    ((timed_press_scores_and_removes sampleTimed (.timed ⟨11, 0, 3000, 60⟩) 20 0 60 3200 rfl rfl
      hmem hnd).2.1 (by
        rw [show ((20 : ℚ) : ℝ) * ((20 : ℚ) : ℝ) + ((0 : ℚ) : ℝ) * ((0 : ℚ) : ℝ) = 20 ^ 2 by
          norm_num, Real.sqrt_sq (by norm_num)]
        norm_num)).1,
    (timed_press_scores_and_removes sampleTimed (.timed ⟨11, 0, 3000, 60⟩) 0 0 60 3200 rfl rfl
      hmem hnd).2.2.2.2.1⟩

theorem sampleTracking_ids : (sampleTracking.targets.map Target.id).Nodup := by decide

theorem shield_absorbs_presses_witness :
    sampleTracking.running = true ∧ sampleTracking.currentMode = .tracking ∧
    Target.tracking sampleShielded ∈ sampleTracking.targets ∧
    (sampleTracking.targets.map Target.id).Nodup ∧
    0 < sampleShielded.shieldHp ∧ sampleShielded.shieldHp = 2 ∧ sampleShielded.hp = 4 ∧
    (targetPointerDown 21 0 0 60 3200 sampleTracking).points = sampleTracking.points + 1 ∧
    Target.tracking { sampleShielded with shieldHp := 0 } ∈
      (pressAll 21 [centrePress, outerPress] sampleTracking).targets ∧
    (pressAll 21 [centrePress, outerPress, centrePress] sampleTracking).points =
      sampleTracking.points + 2 + 2 :=
  have hmem : Target.tracking sampleShielded ∈ sampleTracking.targets := List.mem_cons_self _ _
  ⟨rfl, rfl, hmem, sampleTracking_ids, by decide, rfl, rfl,
    ((shield_absorbs_presses sampleTracking sampleShielded rfl rfl hmem sampleTracking_ids).1
      (by decide) centrePress).1,
    ((shield_absorbs_presses sampleTracking sampleShielded rfl rfl hmem sampleTracking_ids).2.2.1
      rfl rfl centrePress outerPress centrePress).2.1,
    by
      have h := ((shield_absorbs_presses sampleTracking sampleShielded rfl rfl hmem
        sampleTracking_ids).2.2.1 rfl rfl centrePress outerPress centrePress).2.2.2.2.1
      rw [centrePress_isCenter] at h
      exact h⟩

theorem unshielded_press_damages_witness :
    sampleTracking.running = true ∧ sampleTracking.currentMode = .tracking ∧
    Target.tracking sampleBare ∈ sampleTracking.targets ∧
    (sampleTracking.targets.map Target.id).Nodup ∧
    sampleBare.shieldHp = 0 ∧ sampleBare.hp = 4 ∧
    ((pressAll 22 [centrePress] sampleTracking).hasTarget 22 ∧
      ¬ (pressAll 22 [centrePress, centrePress] sampleTracking).hasTarget 22) ∧
    ((pressAll 22 [outerPress] sampleTracking).hasTarget 22 ∧
      (pressAll 22 [outerPress, outerPress] sampleTracking).hasTarget 22 ∧
      (pressAll 22 [outerPress, outerPress, outerPress] sampleTracking).hasTarget 22 ∧
      ¬ (pressAll 22 [outerPress, outerPress, outerPress, outerPress]
        sampleTracking).hasTarget 22) :=
  have hmem : Target.tracking sampleBare ∈ sampleTracking.targets :=
    List.mem_cons_of_mem _ (List.mem_cons_self _ _)
  ⟨rfl, rfl, hmem, sampleTracking_ids, rfl, rfl,
    (unshielded_press_damages sampleTracking sampleBare rfl rfl hmem sampleTracking_ids
      rfl).2.2.1 rfl centrePress centrePress centrePress_isCenter centrePress_isCenter,
    (unshielded_press_damages sampleTracking sampleBare rfl rfl hmem sampleTracking_ids
      rfl).2.2.2 rfl outerPress outerPress outerPress outerPress outerPress_isCenter
      outerPress_isCenter outerPress_isCenter outerPress_isCenter⟩

theorem sampleTimed_expiredCount : sampleTimed.expiredCount 3200 = 1 := by
  simp [State.expiredCount, sampleTimed, Target.expired, List.filter]
  norm_num

theorem sampleTimedFour_expiredCount : sampleTimedFour.expiredCount 3200 = 1 :=
  sampleTimed_expiredCount

theorem timed_expiry_overwhelms_at_five_witness :
    sampleTimed.running = true ∧ sampleTimed.currentMode = .timed ∧
    sampleTimed.expiredMisses < 5 ∧ (3200 : ℚ) - sampleTimed.startTimeMs < 60000 ∧
    sampleTimed.expiredMisses + sampleTimed.expiredCount 3200 < 5 ∧
    (updateTargetsTimed 3200 sampleTimed).running = true ∧
    (updateTargetsTimed 3200 sampleTimed).expiredMisses = 3 ∧
    sampleTimedFour.expiredMisses < 5 ∧
    5 ≤ sampleTimedFour.expiredMisses + sampleTimedFour.expiredCount 3200 ∧
    (updateTargetsTimed 3200 sampleTimedFour).running = false ∧
    (updateTargetsTimed 3200 sampleTimedFour).expiredMisses = 5 :=
  have hnow : (3200 : ℚ) - sampleTimed.startTimeMs < 60000 := by norm_num [sampleTimed]
  have hlt : sampleTimed.expiredMisses + sampleTimed.expiredCount 3200 < 5 := by
    rw [sampleTimed_expiredCount]; decide
  have hge : 5 ≤ sampleTimedFour.expiredMisses + sampleTimedFour.expiredCount 3200 := by
    rw [sampleTimedFour_expiredCount]; decide
  ⟨rfl, rfl, by decide, hnow, hlt,
    ((timed_expiry_overwhelms_at_five sampleTimed 3200 rfl rfl (by decide) hnow).1 hlt).1,
    by rw [((timed_expiry_overwhelms_at_five sampleTimed 3200 rfl rfl (by decide) hnow).1
      hlt).2.1, sampleTimed_expiredCount]; rfl,
    by decide, hge,
    ((timed_expiry_overwhelms_at_five sampleTimedFour 3200 rfl rfl (by decide) hnow).2.1 hge).1,
    ((timed_expiry_overwhelms_at_five sampleTimedFour 3200 rfl rfl (by decide) hnow).2.1
      hge).2.2.1⟩

theorem tracking_spawn_overwhelms_above_five_witness :
    sampleTracking.running = true ∧ sampleTracking.targets.length + 1 ≤ 5 ∧
    (spawnTargetTracking sampleSpawn sampleTracking).running = true ∧
    (spawnTargetTracking sampleSpawn sampleTracking).targets.length = 3 ∧
    sampleTrackingFull.running = true ∧ 5 < sampleTrackingFull.targets.length + 1 ∧
    (spawnTargetTracking sampleSpawn sampleTrackingFull).running = false ∧
    (spawnTargetTracking sampleSpawn sampleTrackingFull).targets = [] ∧
    (spawnTargetTracking sampleSpawn sampleTrackingFull).store = sampleTrackingFull.store :=
  ⟨rfl, by decide,
    ((tracking_spawn_overwhelms_above_five sampleTracking sampleSpawn rfl).2.1 (by decide)).1,
    ((tracking_spawn_overwhelms_above_five sampleTracking sampleSpawn rfl).2.1
      (by decide)).2.2.1,
    rfl, by decide,
    ((tracking_spawn_overwhelms_above_five sampleTrackingFull sampleSpawn rfl).2.2.1
      (by decide)).1,
    ((tracking_spawn_overwhelms_above_five sampleTrackingFull sampleSpawn rfl).2.2.1
      (by decide)).2.2.1,
    ((tracking_spawn_overwhelms_above_five sampleTrackingFull sampleSpawn rfl).2.2.1
      (by decide)).2.2.2.1⟩

theorem tick_time_up_saves_only_better_witness :
    sampleTimed.running = true ∧ (60000 : ℚ) - sampleTimed.startTimeMs ≥ 60000 ∧
    (tick 60000 800 600 sampleTimed).running = false ∧
    (tick 60000 800 600 sampleTimed).overlay = .timeUp ∧
    (tick 60000 800 600 sampleTimed).store LS_KEY_TIMED =
      .record ⟨3, computeAccuracy sampleTimed, 1⟩ ∧
    (tick 60000 800 600 sampleTimed).store LS_KEY_TRACKING = .missing :=
  have hnow : (60000 : ℚ) - sampleTimed.startTimeMs ≥ 60000 := by norm_num [sampleTimed]
  ⟨rfl, hnow,
    (tick_time_up_saves_only_better sampleTimed 60000 800 600 rfl hnow).1,
    (tick_time_up_saves_only_better sampleTimed 60000 800 600 rfl hnow).2.1,
    (tick_time_up_saves_only_better sampleTimed 60000 800 600 rfl hnow).2.2.2.2.1 rfl,
    (tick_time_up_saves_only_better sampleTimed 60000 800 600 rfl hnow).2.2.2.2.2.2.1⟩

theorem stopped_run_ignores_late_callbacks_witness :
    sampleIdle.running = false ∧
    tick 70000 800 600 sampleIdle = sampleIdle ∧
    spawnTargetTracking sampleSpawn sampleIdle = sampleIdle ∧
    targetPointerDown 11 0 0 60 70000 sampleIdle = sampleIdle ∧
    endGame "finished" sampleIdle = sampleIdle :=
  ⟨rfl, (stopped_run_ignores_late_callbacks sampleIdle rfl).1 70000 800 600,
    ((stopped_run_ignores_late_callbacks sampleIdle rfl).2.1 sampleSpawn).2,
    (stopped_run_ignores_late_callbacks sampleIdle rfl).2.2.2.2.1 11 0 0 60 70000,
    (stopped_run_ignores_late_callbacks sampleIdle rfl).2.2.2.2.2.2.1 "finished"⟩

theorem stage_press_counts_one_miss_witness :
    sampleTimed.running = true ∧
    (stagePointerDown 3200 sampleTimed).clickMisses = sampleTimed.clickMisses + 1 ∧
    (stagePointerDown 3200 sampleTimed).targets = sampleTimed.targets ∧
    (targetPointerDown 11 0 0 60 3200 sampleTimed).clickMisses = sampleTimed.clickMisses :=
  ⟨rfl, (stage_press_counts_one_miss sampleTimed 3200 rfl).1,
    (stage_press_counts_one_miss sampleTimed 3200 rfl).2.2.2.2.2.2.1,
    ((stage_press_counts_one_miss sampleTimed 3200 rfl).2.2.2.2.2.2.2.2 11 0 0 60 3200).1⟩

theorem tracking_spawns_slower_than_timed_witness :
    1 ≤ 4 ∧ 4 ≤ 10 ∧ (0 : ℚ) ≤ 10 ∧
    timedSpawnDelayMs 10 (applyDifficultyFromUI ((4 : ℕ) : ℚ) sampleTimed) ≤
      trackingSpawnDelayMs 10 (applyDifficultyFromUI ((4 : ℕ) : ℚ) sampleTimed) :=
  ⟨by decide, by decide, by norm_num,
    (tracking_spawns_slower_than_timed 4 (by decide) (by decide) sampleTimed 10
      (by norm_num)).2.2.2⟩

theorem tracking_update_bounces_witness :
    2 * (sampleShielded.size / 2) ≤ 800 ∧ 2 * (sampleShielded.size / 2) ≤ 600 ∧
    sampleShielded.size / 2 ≤ (moveTracking (1 / 60) 800 600 sampleShielded).x ∧
    (moveTracking (1 / 60) 800 600 sampleShielded).x ≤ 800 - sampleShielded.size / 2 ∧
    (moveTracking (1 / 60) 800 600 sampleShielded).hp = sampleShielded.hp :=
  have hW : 2 * (sampleShielded.size / 2) ≤ (800 : ℚ) := by norm_num [sampleShielded]
  have hH : 2 * (sampleShielded.size / 2) ≤ (600 : ℚ) := by norm_num [sampleShielded]
  ⟨hW, hH, (tracking_update_bounces 800 600 (1 / 60) sampleShielded hW hH).1.1,
    (tracking_update_bounces 800 600 (1 / 60) sampleShielded hW hH).1.2,
    (tracking_update_bounces 800 600 (1 / 60) sampleShielded hW hH).2.2.2.2.2.2.2.2.2.1.2.2.1⟩

theorem sampleSpawn_fits :
    ((randInt sampleSpawn.uSize 58 84 : Int) : ℚ) + 8 ≤ 600 := by
  have h := (randInt_range sampleSpawn.uSize (by norm_num [sampleSpawn])
    (by norm_num [sampleSpawn]) 58 84 (by decide)).2
  have h' : ((randInt sampleSpawn.uSize 58 84 : Int) : ℚ) ≤ 84 := by exact_mod_cast h
  linarith

theorem spawn_lands_inside_arena_witness :
    (0 ≤ sampleSpawn.uSize ∧ sampleSpawn.uSize < 1) ∧
    (0 ≤ sampleSpawn.uX ∧ sampleSpawn.uX < 1) ∧
    (0 ≤ sampleSpawn.uY ∧ sampleSpawn.uY < 1) ∧
    ((randInt sampleSpawn.uSize 58 84 : Int) : ℚ) + 8 ≤ sampleSpawn.rectWidth ∧
    ((randInt sampleSpawn.uSize 58 84 : Int) : ℚ) + 8 ≤ sampleSpawn.rectHeight ∧
    (newTrackingTarget sampleSpawn).size / 2 ≤ (newTrackingTarget sampleSpawn).x ∧
    (newTrackingTarget sampleSpawn).x ≤
      sampleSpawn.rectWidth - (newTrackingTarget sampleSpawn).size / 2 ∧
    (timedSpawnY sampleSpawn : ℚ) ≤
      sampleSpawn.rectHeight - (newTimedTarget sampleSpawn).startSize / 2 :=
  have hs : 0 ≤ sampleSpawn.uSize ∧ sampleSpawn.uSize < 1 := by norm_num [sampleSpawn]
  have hx : 0 ≤ sampleSpawn.uX ∧ sampleSpawn.uX < 1 := by norm_num [sampleSpawn]
  have hy : 0 ≤ sampleSpawn.uY ∧ sampleSpawn.uY < 1 := by norm_num [sampleSpawn]
  have hW : ((randInt sampleSpawn.uSize 58 84 : Int) : ℚ) + 8 ≤ sampleSpawn.rectWidth :=
    le_trans sampleSpawn_fits (by norm_num [sampleSpawn])
  have hH : ((randInt sampleSpawn.uSize 58 84 : Int) : ℚ) + 8 ≤ sampleSpawn.rectHeight :=
    le_trans sampleSpawn_fits (by norm_num [sampleSpawn])
  ⟨hs, hx, hy, hW, hH,
    (spawn_lands_inside_arena sampleSpawn hs hx hy hW hH).2.2.2.2.1,
    (spawn_lands_inside_arena sampleSpawn hs hx hy hW hH).2.2.2.2.2.1,
    (spawn_lands_inside_arena sampleSpawn hs hx hy hW hH).2.2.1.2.2.2.2⟩

theorem oneTargetRun_shape : TimedRunShape 1 3 4 oneTargetRun :=
  shape_step 0 1 3 (spawnAt 101 2000) _ shape_start rfl
    (by show (2000 : ℚ) + 3000 ≤ 20000; norm_num) (by decide)

theorem oneTargetRun_reachable : Reachable oneTargetRun :=
  Reachable.step (.timeout 1 (spawnAt 101 2000))
    (Reachable.step (.startClick true 1 0) (Reachable.boot _ _ _ _) bootSample_fields.2.2.2.1)
    (shape_timeout_enabled 0 1 3 _ _ shape_start rfl)

theorem oneTargetRun_target :
    ∃ t ∈ oneTargetRun.targets, t.id = 101 ∧ t.expired 20000 = true := by
  have hs := oneTargetRun_shape
  cases hl : oneTargetRun.targets with
  | nil =>
    have := hs.count
    rw [hl] at this
    cases this
  | cons t l =>
    have hmem : t ∈ oneTargetRun.targets := by rw [hl]; exact List.mem_cons_self _ _
    have hid := hs.ids t hmem
    exact ⟨t, List.mem_cons_self _ _, by omega, hs.due t hmem⟩

theorem press_resolved_only_on_live_target_witness :
    Reachable oneTargetRun ∧ oneTargetRun.running = true ∧
    oneTargetRun.currentMode = .timed ∧ oneTargetRun.hasTarget 101 ∧
    (Event.targetPress 101 0 0 60 2500).enabled oneTargetRun ∧
    ¬ (targetPointerDown 101 0 0 60 2500 oneTargetRun).hasTarget 101 ∧
    ¬ (tick 20000 800 600 oneTargetRun).hasTarget 101 ∧
    ¬ (endGame "restart" oneTargetRun).hasTarget 101 := by
  have hs := oneTargetRun_shape
  obtain ⟨t, ht, hid, hexp⟩ := oneTargetRun_target
  have hlive : oneTargetRun.hasTarget 101 := ⟨t, ht, hid⟩
  obtain ⟨h1, -, h3, h4, h5, -⟩ :=
    press_resolved_only_on_live_target oneTargetRun oneTargetRun_reachable
  refine ⟨oneTargetRun_reachable, hs.running, hs.mode, hlive, (h1 101 0 0 60 2500).mpr hlive,
    h3 hs.running hs.mode 101 0 0 60 2500 hlive, ?_, h5 hs.running "restart" 101⟩
  have := h4 hs.running hs.mode 20000 800 600 t ht hexp
  rwa [hid] at this

end Bullseye
